import Mathlib

/-!
# Graphics-context state engine of libgdiplus (src/graphics.c)

A shallow embedding of the state-carrying part of `graphics.c`: the world
transform pair, the clip region, the rendering hints, the save/restore stack,
containers and the exclusive-handle flag.

Conventions of the embedding.

* `REAL` (C `float`) values are rationals, and the arithmetic of matrices,
  regions and unit conversion is exact. Two functions are embedded with the
  rounding of `float` and the range of `int`, because their results depend
  on it: `apply_world_to_bounds`, which stores the corners of the device
  bounds in `float` fields and assigns them back to `int` fields, and
  `GdipIsVisibleRect`, whose loops are driven by `float` counters.
* C enumerations are integers with the named constants of the GDI+ flat API,
  because the code validates them with integer comparisons.
* A function `GpStatus f (GpGraphics *graphics, ...)` becomes a function from
  the context value to a status paired with the context value after the call.
  The context argument is a live (non-null) context; out-pointers are
  returned values.
* The two drawing backends, the rotation-matrix constructor and the
  observations of a boolean combination of regions are collaborators that
  live outside `graphics.c`; they are the fields of `Env`.
  Every backend call is appended to the `effects` field of the context.
-/

namespace Gdiplus

/-! ## Status codes and small enumerations -/

/-- Status codes returned by every public operation (`GpStatus`). -/
inductive GpStatus where
  | Ok
  | GenericError
  | InvalidParameter
  | OutOfMemory
  | ObjectBusy
  | NotImplemented
  deriving DecidableEq, Repr

/-- Backend kind stored in `graphics->backend`; `Unknown` stands for any value
other than the two declared ones (the `default:` branch of every dispatch). -/
inductive GraphicsBackEnd where
  | Cairo
  | Metafile
  | Unknown
  deriving DecidableEq, Repr

/-- Validity flag `graphics->state`. -/
inductive GraphicsState where
  | Valid
  | Busy
  deriving DecidableEq, Repr

/-- Matrix multiplication order (`GpMatrixOrder`). -/
inductive GpMatrixOrder where
  | Prepend
  | Append
  deriving DecidableEq, Repr

/-- Region combination mode (`CombineMode`). -/
inductive CombineMode where
  | Replace
  | Intersect
  | Union
  | Xor
  | Exclude
  | Complement
  deriving DecidableEq, Repr

/-- The `MAX_GRAPHICS_STATE_STACK` constant of graphics.c. -/
def MAX_GRAPHICS_STATE_STACK : Nat := 512

/-! ### Enumeration constants

Modelled from the spec: the enumerations are declared in headers that are not
part of the sources; the numeric values are those of the GDI+ flat API. -/

def UnitWorld : Int := 0
def UnitDisplay : Int := 1
def UnitPixel : Int := 2
def UnitPoint : Int := 3
def UnitInch : Int := 4
def UnitDocument : Int := 5
def UnitMillimeter : Int := 6
def UnitCairoPoint : Int := 7

def SmoothingModeInvalid : Int := -1
def SmoothingModeDefault : Int := 0
def SmoothingModeHighSpeed : Int := 1
def SmoothingModeHighQuality : Int := 2
def SmoothingModeNone : Int := 3
def SmoothingModeAntiAlias : Int := 4

def InterpolationModeInvalid : Int := -1
def InterpolationModeDefault : Int := 0
def InterpolationModeLowQuality : Int := 1
def InterpolationModeHighQuality : Int := 2
def InterpolationModeBilinear : Int := 3
def InterpolationModeBicubic : Int := 4
def InterpolationModeNearestNeighbor : Int := 5
def InterpolationModeHighQualityBilinear : Int := 6
def InterpolationModeHighQualityBicubic : Int := 7

def TextRenderingHintSystemDefault : Int := 0
def TextRenderingHintClearTypeGridFit : Int := 5

def PixelOffsetModeInvalid : Int := -1
def PixelOffsetModeDefault : Int := 0
def PixelOffsetModeHalf : Int := 4

def CompositingModeSourceOver : Int := 0
def CompositingQualityDefault : Int := 0

def DEFAULT_TEXT_CONTRAST : Nat := 4

/-! ## Matrices -/

/-- A 2x3 affine matrix with the field names of `cairo_matrix_t`. -/
structure GpMatrix where
  xx : ℚ
  yx : ℚ
  xy : ℚ
  yy : ℚ
  x0 : ℚ
  y0 : ℚ
  deriving DecidableEq, Repr

namespace GpMatrix

/-- Result of `cairo_matrix_init_identity`. -/
def identity : GpMatrix := ⟨1, 0, 0, 1, 0, 0⟩

/-- The all-zero matrix found in memory returned by `gdip_calloc`. -/
def zero : GpMatrix := ⟨0, 0, 0, 0, 0, 0⟩

/-- Determinant of the linear part. -/
def det (m : GpMatrix) : ℚ := m.xx * m.yy - m.yx * m.xy

end GpMatrix

/-- Modelled from the spec: `gdip_cairo_matrix_copy` (matrix-private.h, not in
the sources) copies the six coefficients. -/
def gdip_cairo_matrix_copy (src : GpMatrix) : GpMatrix := src

/-- Modelled from the spec: `cairo_matrix_multiply (result, a, b)`, the matrix
product that applies `a` first and `b` second (external matrix primitive). -/
def cairo_matrix_multiply (a b : GpMatrix) : GpMatrix :=
  { xx := a.xx * b.xx + a.yx * b.xy
    yx := a.xx * b.yx + a.yx * b.yy
    xy := a.xy * b.xx + a.yy * b.xy
    yy := a.xy * b.yx + a.yy * b.yy
    x0 := a.x0 * b.xx + a.y0 * b.xy + b.x0
    y0 := a.x0 * b.yx + a.y0 * b.yy + b.y0 }

/-- Modelled from the spec: `cairo_matrix_invert` (external matrix primitive).
A singular matrix is left unchanged and reported with `false`; otherwise the
matrix is replaced by its inverse. -/
def cairo_matrix_invert (m : GpMatrix) : Bool × GpMatrix :=
  if m.det = 0 then (false, m)
  else
    (true,
      { xx := m.yy / m.det
        yx := -m.yx / m.det
        xy := -m.xy / m.det
        yy := m.xx / m.det
        x0 := (m.xy * m.y0 - m.yy * m.x0) / m.det
        y0 := (m.yx * m.x0 - m.xx * m.y0) / m.det })

/-- Modelled from the spec: `gdip_is_matrix_empty` (matrix.c, not in the
sources) is the test "the matrix is the identity" of sections 3 and 4. -/
def gdip_is_matrix_empty (m : GpMatrix) : Bool := decide (m = GpMatrix.identity)

/-- Modelled from the spec: `GdipIsMatrixInvertible` (matrix.c, not in the
sources), the "invertible test" contract. A null matrix pointer is reported
with `InvalidParameter`, and the out-flag is then not written (it is
reported as `false` here). -/
def GdipIsMatrixInvertible (matrix : Option GpMatrix) : GpStatus × Bool :=
  match matrix with
  | none => (GpStatus.InvalidParameter, false)
  | some m => (GpStatus.Ok, decide (m.det ≠ 0))

/-- Modelled from the spec: `GdipInvertMatrix` (matrix.c, not in the
sources) inverts in place and fails on a singular matrix. -/
def GdipInvertMatrix (m : GpMatrix) : GpStatus × GpMatrix :=
  match cairo_matrix_invert m with
  | (true, r) => (GpStatus.Ok, r)
  | (false, r) => (GpStatus.InvalidParameter, r)

/-- Modelled from the spec: `GdipMultiplyMatrix (matrix, matrix2, order)`
(matrix.c, not in the sources): append computes `matrix * matrix2`, prepend
computes `matrix2 * matrix`. -/
def GdipMultiplyMatrix (matrix matrix2 : GpMatrix) (order : GpMatrixOrder) :
    GpStatus × GpMatrix :=
  match order with
  | GpMatrixOrder.Append => (GpStatus.Ok, cairo_matrix_multiply matrix matrix2)
  | GpMatrixOrder.Prepend => (GpStatus.Ok, cairo_matrix_multiply matrix2 matrix)

/-- Modelled from the spec: `GdipScaleMatrix` (matrix.c, not in the sources)
multiplies by the scaling matrix in the given order. -/
def GdipScaleMatrix (matrix : GpMatrix) (sx sy : ℚ) (order : GpMatrixOrder) :
    GpStatus × GpMatrix :=
  GdipMultiplyMatrix matrix ⟨sx, 0, 0, sy, 0, 0⟩ order

/-- Modelled from the spec: `GdipTranslateMatrix` (matrix.c, not in the
sources) multiplies by the translation matrix in the given order. -/
def GdipTranslateMatrix (matrix : GpMatrix) (dx dy : ℚ) (order : GpMatrixOrder) :
    GpStatus × GpMatrix :=
  GdipMultiplyMatrix matrix ⟨1, 0, 0, 1, dx, dy⟩ order

/-- Modelled from the spec: `GdipRotateMatrix` (matrix.c, not in the sources)
multiplies by the rotation matrix of the angle in the given order. The
rotation matrix needs sine and cosine, so its constructor is the parameter
`rotation`. -/
def GdipRotateMatrix (rotation : ℚ → GpMatrix) (matrix : GpMatrix) (angle : ℚ)
    (order : GpMatrixOrder) : GpStatus × GpMatrix :=
  GdipMultiplyMatrix matrix (rotation angle) order

/-- Modelled from the spec: `gdip_matrix_reverse_order` (matrix-private.h, not
in the sources) swaps prepend and append. -/
def gdip_matrix_reverse_order (order : GpMatrixOrder) : GpMatrixOrder :=
  match order with
  | GpMatrixOrder.Prepend => GpMatrixOrder.Append
  | GpMatrixOrder.Append => GpMatrixOrder.Prepend

/-! ## Machine numbers

The `int` and `float` types of C, for the places where their range and
precision decide the result. -/

/-- The value of an `INT` expression: the exact result when it fits in 32
bits, the two-complement wrap of it otherwise. -/
def wrapInt (n : Int) : Int := (n + 2147483648) % 4294967296 - 2147483648

/-- The `int` that a conversion from `float` or `double` yields when the
integral value to store is `n`: `n` itself when it fits in 32 bits. For any
other value C leaves the conversion undefined; the value taken here is the
one that the conversion instructions of x86 deliver, `INT_MIN`. -/
def storeInt (n : Int) : Int :=
  if -2147483648 ≤ n ∧ n ≤ 2147483647 then n else -2147483648

/-- The spacing of the `float` values around the magnitude `a`: the least
`u = 2 ^ k` with `a < 2 ^ 24 * u` (the first argument bounds the search; 104
steps cover every finite `float`). -/
def ulpSearch : Nat → Nat → Nat → Nat
  | 0, _, u => u
  | k + 1, a, u => if a < 16777216 * u then u else ulpSearch k a (2 * u)

/-- The `float` nearest to an integer, ties to the even significand: the
result of converting an `int` to `float`, and of rounding the exact result of
a `float` operation on integers. -/
def roundToFloat (n : Int) : Int :=
  let a := n.natAbs
  let u := ulpSearch 104 a 1
  let q := a / u
  let r := a % u
  let m := if 2 * r < u then q else if u < 2 * r then q + 1 else if q % 2 = 0 then q else q + 1
  if n < 0 then -((m * u : Nat) : Int) else ((m * u : Nat) : Int)

/-- The integer nearest to a rational, ties to the even integer. -/
def roundHalfEven (r : ℚ) : Int :=
  if r - r.floor < 1 / 2 then r.floor
  else if 1 / 2 < r - r.floor then r.floor + 1
  else if r.floor % 2 = 0 then r.floor else r.floor + 1

/-- The number `i` of binary places that a `float` of magnitude `a < 2 ^ 24`
keeps after the point: the greatest `i` with `a * 2 ^ i < 2 ^ 24`, and at
most 149 (the spacing of the smallest `float` values is `2 ^ (-149)`). The
search starts from the third argument and makes at most as many steps as the
first one says. -/
def fineSearch : Nat → ℚ → Nat → Nat
  | 0, _, i => i
  | k + 1, a, i => if a * 2 ^ (i + 1) < 16777216 then fineSearch k a (i + 1) else i

/-- The `float` nearest to a rational, ties to the even significand: the
value that a store into a `float` variable keeps. For an integer it is
`roundToFloat`. Magnitudes beyond the largest finite `float` are rounded
like the values of the largest exponent; infinities are not represented. -/
def floatOf (q : ℚ) : ℚ :=
  let a := |q|
  let u : ℚ :=
    if 16777216 ≤ a then ((ulpSearch 104 a.floor.toNat 1 : Nat) : ℚ)
    else 1 / 2 ^ fineSearch 149 a 0
  let m := roundHalfEven (a / u)
  if q < 0 then -(m * u) else m * u

/-- A point with `REAL` coordinates (`GpPointF`). -/
structure GpPointF where
  X : ℚ
  Y : ℚ
  deriving DecidableEq, Repr

/-- Modelled from the spec: `GdipTransformMatrixPoints` (matrix.c, not in the
sources) maps every point through the matrix and stores the image in the two
`float` fields of the point; it fails on an empty array. The image itself
is computed in double precision, which is taken as exact. -/
def GdipTransformMatrixPoints (m : GpMatrix) (pts : List GpPointF) :
    GpStatus × List GpPointF :=
  if pts.length = 0 then (GpStatus.InvalidParameter, pts)
  else
    (GpStatus.Ok,
      pts.map fun p =>
        ⟨floatOf (m.xx * p.X + m.xy * p.Y + m.x0), floatOf (m.yx * p.X + m.yy * p.Y + m.y0)⟩)

/-! ## Rectangles, paths and regions -/

/-- An integer rectangle (`GpRect`); the device bounds have this type. -/
structure GpRect where
  X : Int
  Y : Int
  Width : Int
  Height : Int
  deriving DecidableEq, Repr

/-- A rectangle with `REAL` coordinates (`GpRectF`). -/
structure GpRectF where
  X : ℚ
  Y : ℚ
  Width : ℚ
  Height : ℚ
  deriving DecidableEq, Repr

/-- Modelled from the spec: the path value type (graphics-path.c, not in the
sources) is an opaque collaborator; a path is represented by its points. -/
structure GpPath where
  points : List GpPointF
  deriving DecidableEq, Repr

/-- Modelled from the spec: `GdipTransformPath` (graphics-path.c, not in the
sources) maps the points of the path through the matrix. -/
def GdipTransformPath (p : GpPath) (m : GpMatrix) : GpPath :=
  ⟨p.points.map fun q => ⟨m.xx * q.X + m.xy * q.Y + m.x0, m.yx * q.X + m.yy * q.Y + m.y0⟩⟩

/-- Modelled from the spec: the region value type (region.c, not in the
sources) is an opaque collaborator "supporting boolean combination,
translation, transformation, emptiness/infinite tests". A region is
represented by the expression that built it, so that no law of the region
algebra is assumed. -/
inductive GpRegion where
  | infinite
  | rect (r : GpRectF)
  | path (p : GpPath)
  | transform (r : GpRegion) (m : GpMatrix)
  | translate (r : GpRegion) (dx dy : ℚ)
  | combine (r1 r2 : GpRegion) (mode : CombineMode)
  deriving DecidableEq, Repr

/-- Modelled from the spec: `GdipSetInfinite` makes the region infinite. -/
def GdipSetInfinite (_r : GpRegion) : GpRegion := GpRegion.infinite

/-- Modelled from the spec: `GdipCreateRegionRect` builds a rectangular region. -/
def GdipCreateRegionRect (rect : GpRectF) : GpStatus × GpRegion :=
  (GpStatus.Ok, GpRegion.rect rect)

/-- Modelled from the spec: `GdipCloneRegion` copies a region; a null source is
refused and the destination pointer is then not written. -/
def GdipCloneRegion (region : Option GpRegion) : GpStatus × Option GpRegion :=
  match region with
  | none => (GpStatus.InvalidParameter, none)
  | some r => (GpStatus.Ok, some r)

/-- Modelled from the spec: `GdipTransformRegion` (transform-by-matrix). -/
def GdipTransformRegion (region : GpRegion) (m : GpMatrix) : GpStatus × GpRegion :=
  (GpStatus.Ok, GpRegion.transform region m)

/-- Modelled from the spec: `GdipTranslateRegion`. -/
def GdipTranslateRegion (region : GpRegion) (dx dy : ℚ) : GpStatus × GpRegion :=
  (GpStatus.Ok, GpRegion.translate region dx dy)

/-- Modelled from the spec: `GdipCombineRegionRegion` (combine-with-mode); mode
Replace makes the region a copy of the second operand. -/
def GdipCombineRegionRegion (region region2 : GpRegion) (mode : CombineMode) :
    GpStatus × GpRegion :=
  match mode with
  | CombineMode.Replace => (GpStatus.Ok, region2)
  | _ => (GpStatus.Ok, GpRegion.combine region region2 mode)

/-- Modelled from the spec: `GdipCombineRegionPath` (combine-with-mode, the
second operand being the region enclosed by a path). -/
def GdipCombineRegionPath (region : GpRegion) (path : GpPath) (mode : CombineMode) :
    GpStatus × GpRegion :=
  GdipCombineRegionRegion region (GpRegion.path path) mode

/-! ## Backend calls -/

set_option maxHeartbeats 1000000 in
/-- The calls that `graphics.c` forwards to the immediate (cairo) backend, to
the deferred (metafile) backend, or to the cairo context of the graphics. -/
inductive BackendCall where
  | cairo_set_matrix (m : GpMatrix)
  | cairo_SetGraphicsClip
  | cairo_ResetWorldTransform
  | metafile_ResetWorldTransform
  | cairo_SetWorldTransform (m : GpMatrix)
  | metafile_SetWorldTransform (m : GpMatrix)
  | metafile_MultiplyWorldTransform (m : GpMatrix) (order : GpMatrixOrder)
  | metafile_RotateWorldTransform (angle : ℚ) (order : GpMatrixOrder)
  | metafile_ScaleWorldTransform (sx sy : ℚ) (order : GpMatrixOrder)
  | metafile_TranslateWorldTransform (dx dy : ℚ) (order : GpMatrixOrder)
  | metafile_SetClipRect (x y width height : ℚ) (mode : CombineMode)
  | metafile_SetClipPath (path : GpPath) (mode : CombineMode)
  | metafile_SetClipRegion (region : GpRegion) (mode : CombineMode)
  | cairo_ResetClip
  | metafile_ResetClip
  | metafile_TranslateClip (dx dy : ℚ)
  | metafile_SetRenderingOrigin (x y : Int)
  | metafile_SetInterpolationMode (mode : Int)
  | metafile_SetTextRenderingHint (mode : Int)
  | metafile_SetPixelOffsetMode (mode : Int)
  | metafile_SetTextContrast (contrast : Nat)
  | cairo_SetSmoothingMode (mode : Int)
  | metafile_SetSmoothingMode (mode : Int)
  | cairo_SetCompositingMode (mode : Int)
  | metafile_SetCompositingMode (mode : Int)
  | metafile_SetCompositingQuality (quality : Int)
  | metafile_SetPageTransform (unit : Int) (scale : ℚ)
  | cairo_DrawLine (pen : Nat) (x1 y1 x2 y2 : ℚ)
  | metafile_DrawLine (pen : Nat) (x1 y1 x2 y2 : ℚ)
  | cairo_DrawArc (pen : Nat) (x y width height startAngle sweepAngle : ℚ)
  | metafile_DrawArc (pen : Nat) (x y width height startAngle sweepAngle : ℚ)
  | cairo_FillRectangle (brush : Nat) (x y width height : ℚ)
  | metafile_FillRectangle (brush : Nat) (x y width height : ℚ)
  | cairo_FillRectangleI (brush : Nat) (x y width height : Int)
  | metafile_FillRectangleI (brush : Nat) (x y width height : Int)
  | cairo_DrawBeziers (pen : Nat) (points : List GpPointF) (count : Int)
  | metafile_DrawBeziers (pen : Nat) (points : List GpPointF) (count : Int)
  | cairo_DrawBeziersI (pen : Nat) (points : List (Int × Int)) (count : Int)
  | metafile_DrawBeziersI (pen : Nat) (points : List (Int × Int)) (count : Int)
  | cairo_DrawLines (pen : Nat) (points : List GpPointF) (count : Int)
  | metafile_DrawLines (pen : Nat) (points : List GpPointF) (count : Int)
  | cairo_DrawLinesI (pen : Nat) (points : List (Int × Int)) (count : Int)
  | metafile_DrawLinesI (pen : Nat) (points : List (Int × Int)) (count : Int)
  | cairo_DrawPie (pen : Nat) (x y width height startAngle sweepAngle : ℚ)
  | metafile_DrawPie (pen : Nat) (x y width height startAngle sweepAngle : ℚ)
  | cairo_DrawPieI (pen : Nat) (x y width height : Int) (startAngle sweepAngle : ℚ)
  | metafile_DrawPieI (pen : Nat) (x y width height : Int) (startAngle sweepAngle : ℚ)
  | cairo_DrawCurve3 (pen : Nat) (points : List GpPointF) (count offset numOfSegments : Int)
      (tension : ℚ)
  | metafile_DrawCurve3 (pen : Nat) (points : List GpPointF) (count offset numOfSegments : Int)
      (tension : ℚ)
  deriving DecidableEq, Repr

/-- Which path object a `GdipDeletePath` call releases: the one owned by the
caller or the temporary copy made by the callee. -/
inductive PathOwner where
  | caller
  | callee
  deriving DecidableEq, Repr

/-- An externally visible effect of an operation, in program order. -/
inductive Effect where
  | call (c : BackendCall)
  | deletePath (owner : PathOwner)
  deriving DecidableEq, Repr

/-! ## The context -/

/-- A saved snapshot (`GpState`), one slot of the save stack. -/
structure GpState where
  matrix : GpMatrix
  previous_matrix : GpMatrix
  clip : Option GpRegion
  clip_matrix : GpMatrix
  composite_mode : Int
  composite_quality : Int
  interpolation : Int
  page_unit : Int
  scale : ℚ
  draw_mode : Int
  text_mode : Int
  pixel_mode : Int
  org_x : Int
  org_y : Int
  text_contrast : Nat
  deriving DecidableEq, Repr

/-- A zero-filled slot, as returned by `gdip_calloc`. -/
def GpState.zero : GpState :=
  { matrix := GpMatrix.zero, previous_matrix := GpMatrix.zero, clip := none,
    clip_matrix := GpMatrix.zero, composite_mode := 0, composite_quality := 0,
    interpolation := 0, page_unit := 0, scale := 0, draw_mode := 0, text_mode := 0,
    pixel_mode := 0, org_x := 0, org_y := 0, text_contrast := 0 }

/-- The fields of `GpGraphics` that the state engine reads or writes.
`self` is the identity (address) of the context, `saved_status` is `none`
for a null array pointer and otherwise gives the content of each slot, and
`effects` records the backend calls issued so far. -/
structure GpGraphics where
  self : Nat
  backend : GraphicsBackEnd
  copy_of_ctm : GpMatrix
  previous_matrix : GpMatrix
  clip : GpRegion
  clip_matrix : GpMatrix
  bounds : GpRect
  page_unit : Int
  scale : ℚ
  interpolation : Int
  composite_quality : Int
  composite_mode : Int
  text_mode : Int
  pixel_mode : Int
  text_contrast : Nat
  draw_mode : Int
  render_origin_x : Int
  render_origin_y : Int
  dpi_x : ℚ
  dpi_y : ℚ
  state : GraphicsState
  saved_status : Option (Nat → GpState)
  saved_status_pos : Nat
  effects : List Effect

/-- The collaborators of `graphics.c`: the status returned by a backend for a
call issued in a given context, the rotation matrix of an angle, and the two
observations of a boolean combination of regions that the region value type
computes (its bounding rectangle and whether it is infinite). -/
structure Env where
  backend : BackendCall → GpGraphics → GpStatus
  rotation : ℚ → GpMatrix
  combineBounds : GpRegion → GpRegion → CombineMode → GpRectF
  combineInfinite : GpRegion → GpRegion → CombineMode → Bool

/-- Forward a call to a backend: record it and return the backend status. -/
def invoke (env : Env) (c : BackendCall) (g : GpGraphics) : GpStatus × GpGraphics :=
  (env.backend c g, { g with effects := g.effects ++ [Effect.call c] })

/-! ## Exclusive handle (graphics.c lines 439-466) -/

/-- `GdipGetDC`: the handle written through `hdc` is the context itself. -/
def GdipGetDC (g : GpGraphics) : GpStatus × Option Nat × GpGraphics :=
  if g.state = GraphicsState.Busy then (GpStatus.ObjectBusy, none, g)
  else (GpStatus.Ok, some g.self, { g with state := GraphicsState.Busy })

/-- `GdipReleaseDC`: `hdc` is `none` for a null handle, else the address it
holds. -/
def GdipReleaseDC (g : GpGraphics) (hdc : Option Nat) : GpStatus × GpGraphics :=
  match hdc with
  | none => (GpStatus.InvalidParameter, g)
  | some h =>
    if g.state ≠ GraphicsState.Busy then (GpStatus.InvalidParameter, g)
    else if h ≠ g.self then (GpStatus.InvalidParameter, g)
    else (GpStatus.Ok, { g with state := GraphicsState.Valid })

/-! ## Hint setters and getters -/

/-- `GdipSetRenderingOrigin` (lines 1595-1615). -/
def GdipSetRenderingOrigin (env : Env) (g : GpGraphics) (x y : Int) : GpStatus × GpGraphics :=
  if g.state = GraphicsState.Busy then (GpStatus.ObjectBusy, g)
  else
    let g1 := { g with render_origin_x := x, render_origin_y := y }
    match g1.backend with
    | GraphicsBackEnd.Cairo => (GpStatus.Ok, g1)
    | GraphicsBackEnd.Metafile => invoke env (BackendCall.metafile_SetRenderingOrigin x y) g1
    | GraphicsBackEnd.Unknown => (GpStatus.GenericError, g1)

/-- `GdipGetRenderingOrigin` (lines 1617-1630); the out-values are `none` when
they are not written. -/
def GdipGetRenderingOrigin (g : GpGraphics) : GpStatus × Option (Int × Int) :=
  if g.state = GraphicsState.Busy then (GpStatus.ObjectBusy, none)
  else (GpStatus.Ok, some (g.render_origin_x, g.render_origin_y))

/-- `GdipSetInterpolationMode` (lines 1674-1704). -/
def GdipSetInterpolationMode (env : Env) (g : GpGraphics) (interpolationMode : Int) :
    GpStatus × GpGraphics :=
  if interpolationMode ≤ InterpolationModeInvalid
      ∨ interpolationMode > InterpolationModeHighQualityBicubic then
    (GpStatus.InvalidParameter, g)
  else if g.state = GraphicsState.Busy then (GpStatus.ObjectBusy, g)
  else
    let g1 := { g with interpolation :=
      if interpolationMode = InterpolationModeDefault
          ∨ interpolationMode = InterpolationModeLowQuality then InterpolationModeBilinear
      else if interpolationMode = InterpolationModeHighQuality then
        InterpolationModeHighQualityBicubic
      else interpolationMode }
    match g1.backend with
    | GraphicsBackEnd.Cairo => (GpStatus.Ok, g1)
    | GraphicsBackEnd.Metafile =>
      invoke env (BackendCall.metafile_SetInterpolationMode interpolationMode) g1
    | GraphicsBackEnd.Unknown => (GpStatus.GenericError, g1)

/-- `GdipSetTextRenderingHint` (lines 1719-1738). -/
def GdipSetTextRenderingHint (env : Env) (g : GpGraphics) (mode : Int) : GpStatus × GpGraphics :=
  if mode < TextRenderingHintSystemDefault ∨ mode > TextRenderingHintClearTypeGridFit then
    (GpStatus.InvalidParameter, g)
  else if g.state = GraphicsState.Busy then (GpStatus.ObjectBusy, g)
  else
    let g1 := { g with text_mode := mode }
    match g1.backend with
    | GraphicsBackEnd.Cairo => (GpStatus.Ok, g1)
    | GraphicsBackEnd.Metafile => invoke env (BackendCall.metafile_SetTextRenderingHint mode) g1
    | GraphicsBackEnd.Unknown => (GpStatus.GenericError, g1)

/-- `GdipSetPixelOffsetMode` (lines 1753-1774). -/
def GdipSetPixelOffsetMode (env : Env) (g : GpGraphics) (pixelOffsetMode : Int) :
    GpStatus × GpGraphics :=
  if pixelOffsetMode ≤ PixelOffsetModeInvalid ∨ pixelOffsetMode > PixelOffsetModeHalf then
    (GpStatus.InvalidParameter, g)
  else if g.state = GraphicsState.Busy then (GpStatus.ObjectBusy, g)
  else
    let g1 := { g with pixel_mode := pixelOffsetMode }
    match g1.backend with
    | GraphicsBackEnd.Cairo => (GpStatus.Ok, g1)
    | GraphicsBackEnd.Metafile =>
      invoke env (BackendCall.metafile_SetPixelOffsetMode pixelOffsetMode) g1
    | GraphicsBackEnd.Unknown => (GpStatus.GenericError, g1)

/-- `GdipSetTextContrast` (lines 1790-1812); `contrast` is a `UINT`. -/
def GdipSetTextContrast (env : Env) (g : GpGraphics) (contrast : Nat) : GpStatus × GpGraphics :=
  if contrast > 12 then (GpStatus.InvalidParameter, g)
  else if g.state = GraphicsState.Busy then (GpStatus.ObjectBusy, g)
  else
    let g1 := { g with text_contrast := contrast }
    match g1.backend with
    | GraphicsBackEnd.Cairo => (GpStatus.Ok, g1)
    | GraphicsBackEnd.Metafile => invoke env (BackendCall.metafile_SetTextContrast contrast) g1
    | GraphicsBackEnd.Unknown => (GpStatus.GenericError, g1)

/-- `GdipSetSmoothingMode` (lines 1828-1858). -/
def GdipSetSmoothingMode (env : Env) (g : GpGraphics) (mode : Int) : GpStatus × GpGraphics :=
  if mode ≤ SmoothingModeInvalid ∨ mode > SmoothingModeAntiAlias then
    (GpStatus.InvalidParameter, g)
  else if g.state = GraphicsState.Busy then (GpStatus.ObjectBusy, g)
  else
    let g1 := { g with draw_mode :=
      if mode = SmoothingModeDefault ∨ mode = SmoothingModeHighSpeed then SmoothingModeNone
      else if mode = SmoothingModeHighQuality then SmoothingModeAntiAlias
      else mode }
    match g1.backend with
    | GraphicsBackEnd.Cairo => invoke env (BackendCall.cairo_SetSmoothingMode mode) g1
    | GraphicsBackEnd.Metafile => invoke env (BackendCall.metafile_SetSmoothingMode mode) g1
    | GraphicsBackEnd.Unknown => (GpStatus.GenericError, g1)

/-- `GdipSetCompositingMode` (lines 2420-2439). -/
def GdipSetCompositingMode (env : Env) (g : GpGraphics) (compositingMode : Int) :
    GpStatus × GpGraphics :=
  if g.state = GraphicsState.Busy then (GpStatus.ObjectBusy, g)
  else
    let g1 := { g with composite_mode := compositingMode }
    match g1.backend with
    | GraphicsBackEnd.Cairo => invoke env (BackendCall.cairo_SetCompositingMode compositingMode) g1
    | GraphicsBackEnd.Metafile =>
      invoke env (BackendCall.metafile_SetCompositingMode compositingMode) g1
    | GraphicsBackEnd.Unknown => (GpStatus.GenericError, g1)

/-- `GdipSetCompositingQuality` (lines 2454-2474). -/
def GdipSetCompositingQuality (env : Env) (g : GpGraphics) (compositingQuality : Int) :
    GpStatus × GpGraphics :=
  if g.state = GraphicsState.Busy then (GpStatus.ObjectBusy, g)
  else
    let g1 := { g with composite_quality := compositingQuality }
    match g1.backend with
    | GraphicsBackEnd.Cairo => (GpStatus.Ok, g1)
    | GraphicsBackEnd.Metafile =>
      invoke env (BackendCall.metafile_SetCompositingQuality compositingQuality) g1
    | GraphicsBackEnd.Unknown => (GpStatus.GenericError, g1)

/-- `GdipSetPageScale` (lines 2495-2515). -/
def GdipSetPageScale (env : Env) (g : GpGraphics) (scale : ℚ) : GpStatus × GpGraphics :=
  if scale ≤ 0 ∨ scale > 1000000032 then (GpStatus.InvalidParameter, g)
  else if g.state = GraphicsState.Busy then (GpStatus.ObjectBusy, g)
  else
    let g1 := { g with scale := scale }
    match g1.backend with
    | GraphicsBackEnd.Cairo => (GpStatus.Ok, g1)
    | GraphicsBackEnd.Metafile =>
      invoke env (BackendCall.metafile_SetPageTransform g1.page_unit scale) g1
    | GraphicsBackEnd.Unknown => (GpStatus.GenericError, g1)

/-- `GdipSetPageUnit` (lines 2530-2550). -/
def GdipSetPageUnit (env : Env) (g : GpGraphics) (unit : Int) : GpStatus × GpGraphics :=
  if unit ≤ UnitWorld ∨ unit > UnitCairoPoint then (GpStatus.InvalidParameter, g)
  else if g.state = GraphicsState.Busy then (GpStatus.ObjectBusy, g)
  else
    let g1 := { g with page_unit := unit }
    match g1.backend with
    | GraphicsBackEnd.Cairo => (GpStatus.Ok, g1)
    | GraphicsBackEnd.Metafile => invoke env (BackendCall.metafile_SetPageTransform unit g1.scale) g1
    | GraphicsBackEnd.Unknown => (GpStatus.GenericError, g1)

/-! ## Clip operations -/

/-- Modelled from the spec: `GdipClonePath` (graphics-path.c, not in the
sources) copies a path. -/
def GdipClonePath (p : GpPath) : GpStatus × GpPath := (GpStatus.Ok, p)

/-- `GdipResetClip` (lines 2145-2165). -/
def GdipResetClip (env : Env) (g : GpGraphics) : GpStatus × GpGraphics :=
  if g.state = GraphicsState.Busy then (GpStatus.ObjectBusy, g)
  else
    let g1 := { g with clip := GdipSetInfinite g.clip, clip_matrix := GpMatrix.identity }
    match g1.backend with
    | GraphicsBackEnd.Cairo => invoke env BackendCall.cairo_ResetClip g1
    | GraphicsBackEnd.Metafile => invoke env BackendCall.metafile_ResetClip g1
    | GraphicsBackEnd.Unknown => (GpStatus.GenericError, g1)

/-- `GdipSetClipRect` (lines 1974-2027). -/
def GdipSetClipRect (env : Env) (g : GpGraphics) (x y width height : ℚ)
    (combineMode : CombineMode) : GpStatus × GpGraphics :=
  if g.state = GraphicsState.Busy then (GpStatus.ObjectBusy, g)
  else
    let created := GdipCreateRegionRect ⟨x, y, width, height⟩
    if created.1 ≠ GpStatus.Ok then (created.1, g)
    else
      let region :=
        if !gdip_is_matrix_empty g.clip_matrix then
          (GdipTransformRegion created.2 (cairo_matrix_invert g.clip_matrix).2).2
        else created.2
      let combined := GdipCombineRegionRegion g.clip region combineMode
      if combined.1 ≠ GpStatus.Ok then (combined.1, g)
      else
        let g1 := { g with clip := combined.2 }
        match g1.backend with
        | GraphicsBackEnd.Cairo => invoke env BackendCall.cairo_SetGraphicsClip g1
        | GraphicsBackEnd.Metafile =>
          invoke env (BackendCall.metafile_SetClipRect x y width height combineMode) g1
        | GraphicsBackEnd.Unknown => (GpStatus.GenericError, g1)

/-- `GdipSetClipRectI` (lines 2029-2033). -/
def GdipSetClipRectI (env : Env) (g : GpGraphics) (x y width height : Int)
    (combineMode : CombineMode) : GpStatus × GpGraphics :=
  GdipSetClipRect env g x y width height combineMode

/-- `GdipSetClipPath` (lines 2035-2080). The cleanup compares the pointers
`work` and `path`, which differ exactly when the copy was made, and then
passes `path` to `GdipDeletePath`. -/
def GdipSetClipPath (env : Env) (g : GpGraphics) (path : Option GpPath)
    (combineMode : CombineMode) : GpStatus × GpGraphics :=
  match path with
  | none => (GpStatus.InvalidParameter, g)
  | some p =>
    if gdip_is_matrix_empty g.clip_matrix then
      let combined := GdipCombineRegionPath g.clip p combineMode
      if combined.1 ≠ GpStatus.Ok then (combined.1, g)
      else
        let g1 := { g with clip := combined.2 }
        match g1.backend with
        | GraphicsBackEnd.Cairo => invoke env BackendCall.cairo_SetGraphicsClip g1
        | GraphicsBackEnd.Metafile => invoke env (BackendCall.metafile_SetClipPath p combineMode) g1
        | GraphicsBackEnd.Unknown => (GpStatus.GenericError, g1)
    else
      let inverted := (cairo_matrix_invert g.clip_matrix).2
      let cloned := GdipClonePath p
      if cloned.1 ≠ GpStatus.Ok then (cloned.1, g)
      else
        let work := GdipTransformPath cloned.2 inverted
        let combined := GdipCombineRegionPath g.clip work combineMode
        let r :=
          if combined.1 ≠ GpStatus.Ok then (combined.1, g)
          else
            let g1 := { g with clip := combined.2 }
            match g1.backend with
            | GraphicsBackEnd.Cairo => invoke env BackendCall.cairo_SetGraphicsClip g1
            | GraphicsBackEnd.Metafile =>
              invoke env (BackendCall.metafile_SetClipPath p combineMode) g1
            | GraphicsBackEnd.Unknown => (GpStatus.GenericError, g1)
        (r.1, { r.2 with effects := r.2.effects ++ [Effect.deletePath PathOwner.caller] })

/-- `GdipSetClipRegion` (lines 2082-2128). -/
def GdipSetClipRegion (env : Env) (g : GpGraphics) (region : Option GpRegion)
    (combineMode : CombineMode) : GpStatus × GpGraphics :=
  match region with
  | none => (GpStatus.InvalidParameter, g)
  | some r =>
    if g.state = GraphicsState.Busy then (GpStatus.ObjectBusy, g)
    else
      let work :=
        if gdip_is_matrix_empty g.clip_matrix then r
        else (GdipTransformRegion r (cairo_matrix_invert g.clip_matrix).2).2
      let combined := GdipCombineRegionRegion g.clip work combineMode
      if combined.1 ≠ GpStatus.Ok then (combined.1, g)
      else
        let g1 := { g with clip := combined.2 }
        match g1.backend with
        | GraphicsBackEnd.Cairo => invoke env BackendCall.cairo_SetGraphicsClip g1
        | GraphicsBackEnd.Metafile =>
          invoke env (BackendCall.metafile_SetClipRegion r combineMode) g1
        | GraphicsBackEnd.Unknown => (GpStatus.GenericError, g1)

/-- `GdipSetClipGraphics` (lines 1962-1972). -/
def GdipSetClipGraphics (env : Env) (g srcgraphics : GpGraphics) (combineMode : CombineMode) :
    GpStatus × GpGraphics :=
  if srcgraphics.state = GraphicsState.Busy then (GpStatus.ObjectBusy, g)
  else GdipSetClipRegion env g (some srcgraphics.clip) combineMode

/-- `GdipSetClipHrgn` (lines 2130-2143); the handle is used as a region. -/
def GdipSetClipHrgn (env : Env) (g : GpGraphics) (hRgn : Option GpRegion)
    (combineMode : CombineMode) : GpStatus × GpGraphics :=
  match hRgn with
  | none => (GpStatus.InvalidParameter, g)
  | some r =>
    if g.state = GraphicsState.Busy then (GpStatus.ObjectBusy, g)
    else GdipSetClipRegion env g (some r) combineMode

/-- `GdipTranslateClip` (lines 2167-2191). -/
def GdipTranslateClip (env : Env) (g : GpGraphics) (dx dy : ℚ) : GpStatus × GpGraphics :=
  if g.state = GraphicsState.Busy then (GpStatus.ObjectBusy, g)
  else
    let moved := GdipTranslateRegion g.clip dx dy
    if moved.1 ≠ GpStatus.Ok then (moved.1, g)
    else
      let g1 := { g with clip := moved.2 }
      match g1.backend with
      | GraphicsBackEnd.Cairo => invoke env BackendCall.cairo_SetGraphicsClip g1
      | GraphicsBackEnd.Metafile => invoke env (BackendCall.metafile_TranslateClip dx dy) g1
      | GraphicsBackEnd.Unknown => (GpStatus.GenericError, g1)

/-- `GdipTranslateClipI` (lines 2193-2197). -/
def GdipTranslateClipI (env : Env) (g : GpGraphics) (dx dy : Int) : GpStatus × GpGraphics :=
  GdipTranslateClip env g dx dy

/-! ## World transform -/

/-- The integral value of a `float` that is converted to `int`: truncation
toward zero. -/
def float_to_int (d : ℚ) : Int := if 0 ≤ d then d.floor else d.ceil

/-- Modelled from the spec: `iround` (gdiplus-private.h, not in the sources)
is the rounding of section 4.2; halves are rounded up. -/
def iround (d : ℚ) : Int := if d - d.floor ≥ 1 / 2 then d.floor + 1 else d.floor

/-- `apply_world_to_bounds` (lines 561-590). The corner coordinates are
assigned to the `float` fields of `pts` (the second corner after an `int`
addition), the images are `float` again, each new origin is a `float`
assigned to an `int` field, and each new extent is the `int` result of
`iround` applied to a `float` difference. -/
def apply_world_to_bounds (g : GpGraphics) : GpStatus × GpGraphics :=
  let p0 : GpPointF := ⟨floatOf g.bounds.X, floatOf g.bounds.Y⟩
  let p1 : GpPointF :=
    ⟨floatOf (wrapInt (g.bounds.X + g.bounds.Width)),
      floatOf (wrapInt (g.bounds.Y + g.bounds.Height))⟩
  let r := GdipTransformMatrixPoints g.clip_matrix [p0, p1]
  if r.1 ≠ GpStatus.Ok then (r.1, g)
  else
    let q0 := r.2.getD 0 p0
    let q1 := r.2.getD 1 p1
    let bx : Int × Int :=
      if q0.X > q1.X then
        (storeInt (float_to_int q1.X), storeInt (iround (floatOf (q0.X - q1.X))))
      else (storeInt (float_to_int q0.X), storeInt (iround (floatOf (q1.X - q0.X))))
    let by_ : Int × Int :=
      if q0.Y > q1.Y then
        (storeInt (float_to_int q1.Y), storeInt (iround (floatOf (q0.Y - q1.Y))))
      else (storeInt (float_to_int q0.Y), storeInt (iround (floatOf (q1.Y - q0.Y))))
    (GpStatus.Ok, { g with bounds := ⟨bx.1, by_.1, bx.2, by_.2⟩ })

/-- `GdipResetWorldTransform` (lines 592-612). -/
def GdipResetWorldTransform (env : Env) (g : GpGraphics) : GpStatus × GpGraphics :=
  let g1 := { g with clip_matrix := (GdipInvertMatrix g.clip_matrix).2 }
  let g2 := (apply_world_to_bounds g1).2
  let g3 := { g2 with copy_of_ctm := GpMatrix.identity, clip_matrix := GpMatrix.identity }
  match g3.backend with
  | GraphicsBackEnd.Cairo => invoke env BackendCall.cairo_ResetWorldTransform g3
  | GraphicsBackEnd.Metafile => invoke env BackendCall.metafile_ResetWorldTransform g3
  | GraphicsBackEnd.Unknown => (GpStatus.GenericError, g3)

/-- `GdipSetWorldTransform` (lines 614-649). -/
def GdipSetWorldTransform (env : Env) (g : GpGraphics) (matrix : Option GpMatrix) :
    GpStatus × GpGraphics :=
  match matrix with
  | none => (GpStatus.InvalidParameter, g)
  | some m =>
    if g.state = GraphicsState.Busy then (GpStatus.ObjectBusy, g)
    else if gdip_is_matrix_empty m then GdipResetWorldTransform env g
    else
      let inv := GdipIsMatrixInvertible (some m)
      if !inv.2 ∨ inv.1 ≠ GpStatus.Ok then (GpStatus.InvalidParameter, g)
      else
        let g1 := { g with copy_of_ctm := gdip_cairo_matrix_copy m,
                           clip_matrix := (GdipInvertMatrix (gdip_cairo_matrix_copy m)).2 }
        match g1.backend with
        | GraphicsBackEnd.Cairo => invoke env (BackendCall.cairo_SetWorldTransform m) g1
        | GraphicsBackEnd.Metafile => invoke env (BackendCall.metafile_SetWorldTransform m) g1
        | GraphicsBackEnd.Unknown => (GpStatus.GenericError, g1)

/-- `GdipGetWorldTransform` (lines 651-672); `matrix` is the content of the
matrix object of the caller and the result carries its content after the call. -/
def GdipGetWorldTransform (g : GpGraphics) (matrix : GpMatrix) : GpStatus × GpMatrix :=
  if g.state = GraphicsState.Busy then (GpStatus.ObjectBusy, matrix)
  else
    let copied := gdip_cairo_matrix_copy g.copy_of_ctm
    if !gdip_is_matrix_empty g.previous_matrix then
      let inverted := (cairo_matrix_invert (gdip_cairo_matrix_copy g.previous_matrix)).2
      GdipMultiplyMatrix copied inverted GpMatrixOrder.Append
    else (GpStatus.Ok, copied)

/-- `GdipMultiplyWorldTransform` (lines 674-714). -/
def GdipMultiplyWorldTransform (env : Env) (g : GpGraphics) (matrix : Option GpMatrix)
    (order : GpMatrixOrder) : GpStatus × GpGraphics :=
  let inv := GdipIsMatrixInvertible matrix
  if !inv.2 ∨ inv.1 ≠ GpStatus.Ok then (GpStatus.InvalidParameter, g)
  else
    match matrix with
    | none => (GpStatus.InvalidParameter, g)
    | some m =>
      let s1 := GdipMultiplyMatrix g.copy_of_ctm m order
      if s1.1 ≠ GpStatus.Ok then (s1.1, g)
      else
        let g1 := { g with copy_of_ctm := s1.2 }
        let s2 := GdipInvertMatrix (gdip_cairo_matrix_copy m)
        if s2.1 ≠ GpStatus.Ok then (s2.1, g1)
        else
          let s3 := GdipMultiplyMatrix g1.clip_matrix s2.2 order
          if s3.1 ≠ GpStatus.Ok then (s3.1, g1)
          else
            let g2 := { g1 with clip_matrix := s3.2 }
            let g3 := (apply_world_to_bounds g2).2
            match g3.backend with
            | GraphicsBackEnd.Cairo =>
              invoke env (BackendCall.cairo_SetWorldTransform g3.copy_of_ctm) g3
            | GraphicsBackEnd.Metafile =>
              invoke env (BackendCall.metafile_MultiplyWorldTransform m order) g3
            | GraphicsBackEnd.Unknown => (GpStatus.GenericError, g3)

/-- `GdipRotateWorldTransform` (lines 716-746). -/
def GdipRotateWorldTransform (env : Env) (g : GpGraphics) (angle : ℚ) (order : GpMatrixOrder) :
    GpStatus × GpGraphics :=
  if g.state = GraphicsState.Busy then (GpStatus.ObjectBusy, g)
  else
    let s1 := GdipRotateMatrix env.rotation g.copy_of_ctm angle order
    if s1.1 ≠ GpStatus.Ok then (s1.1, g)
    else
      let g1 := { g with copy_of_ctm := s1.2 }
      let s2 := GdipRotateMatrix env.rotation g1.clip_matrix (-angle)
        (gdip_matrix_reverse_order order)
      if s2.1 ≠ GpStatus.Ok then (s2.1, g1)
      else
        let g2 := { g1 with clip_matrix := s2.2 }
        let g3 := (apply_world_to_bounds g2).2
        match g3.backend with
        | GraphicsBackEnd.Cairo =>
          invoke env (BackendCall.cairo_SetWorldTransform g3.copy_of_ctm) g3
        | GraphicsBackEnd.Metafile =>
          invoke env (BackendCall.metafile_RotateWorldTransform angle order) g3
        | GraphicsBackEnd.Unknown => (GpStatus.GenericError, g3)

/-- `GdipScaleWorldTransform` (lines 748-775). -/
def GdipScaleWorldTransform (env : Env) (g : GpGraphics) (sx sy : ℚ) (order : GpMatrixOrder) :
    GpStatus × GpGraphics :=
  if sx = 0 ∨ sy = 0 then (GpStatus.InvalidParameter, g)
  else
    let s1 := GdipScaleMatrix g.copy_of_ctm sx sy order
    if s1.1 ≠ GpStatus.Ok then (s1.1, g)
    else
      let g1 := { g with copy_of_ctm := s1.2 }
      let s2 := GdipScaleMatrix g1.clip_matrix (1 / sx) (1 / sy) (gdip_matrix_reverse_order order)
      if s2.1 ≠ GpStatus.Ok then (s2.1, g1)
      else
        let g2 := { g1 with clip_matrix := s2.2 }
        let g3 := (apply_world_to_bounds g2).2
        match g3.backend with
        | GraphicsBackEnd.Cairo =>
          invoke env (BackendCall.cairo_SetWorldTransform g3.copy_of_ctm) g3
        | GraphicsBackEnd.Metafile =>
          invoke env (BackendCall.metafile_ScaleWorldTransform sx sy order) g3
        | GraphicsBackEnd.Unknown => (GpStatus.GenericError, g3)

/-- `GdipTranslateWorldTransform` (lines 777-804). -/
def GdipTranslateWorldTransform (env : Env) (g : GpGraphics) (dx dy : ℚ)
    (order : GpMatrixOrder) : GpStatus × GpGraphics :=
  let s1 := GdipTranslateMatrix g.copy_of_ctm dx dy order
  if s1.1 ≠ GpStatus.Ok then (s1.1, g)
  else
    let g1 := { g with copy_of_ctm := s1.2 }
    let s2 := GdipTranslateMatrix g1.clip_matrix (-dx) (-dy) (gdip_matrix_reverse_order order)
    if s2.1 ≠ GpStatus.Ok then (s2.1, g1)
    else
      let g2 := { g1 with clip_matrix := s2.2 }
      let g3 := (apply_world_to_bounds g2).2
      match g3.backend with
      | GraphicsBackEnd.Cairo =>
        invoke env (BackendCall.cairo_SetWorldTransform g3.copy_of_ctm) g3
      | GraphicsBackEnd.Metafile =>
        invoke env (BackendCall.metafile_TranslateWorldTransform dx dy order) g3
      | GraphicsBackEnd.Unknown => (GpStatus.GenericError, g3)

/-! ## Save, restore and containers -/

/-- `GdipSaveGraphics` (lines 515-559). The token written through `state` is
`none` when the function returns before writing it. The allocation by
`gdip_calloc` is taken to succeed (the code does not test its result). -/
def GdipSaveGraphics (g : GpGraphics) : GpStatus × Option Nat × GpGraphics :=
  let g0 : GpGraphics :=
    match g.saved_status with
    | none => { g with saved_status := some fun _ => GpState.zero, saved_status_pos := 0 }
    | some _ => g
  if g0.saved_status_pos ≥ MAX_GRAPHICS_STATE_STACK then (GpStatus.OutOfMemory, none, g0)
  else
    let slots : Nat → GpState := g0.saved_status.getD fun _ => GpState.zero
    let old := slots g0.saved_status_pos
    let org : Int × Int := (GdipGetRenderingOrigin g0).2.getD (old.org_x, old.org_y)
    let pos_state : GpState :=
      { matrix := gdip_cairo_matrix_copy g0.copy_of_ctm
        org_x := org.1
        org_y := org.2
        previous_matrix := gdip_cairo_matrix_copy g0.previous_matrix
        clip := (GdipCloneRegion (some g0.clip)).2
        clip_matrix := gdip_cairo_matrix_copy g0.clip_matrix
        composite_mode := g0.composite_mode
        composite_quality := g0.composite_quality
        interpolation := g0.interpolation
        page_unit := g0.page_unit
        scale := g0.scale
        draw_mode := g0.draw_mode
        text_mode := g0.text_mode
        pixel_mode := g0.pixel_mode
        text_contrast := g0.text_contrast }
    (GpStatus.Ok, some g0.saved_status_pos,
      { g0 with
        saved_status := some fun i => if i = g0.saved_status_pos then pos_state else slots i
        saved_status_pos := g0.saved_status_pos + 1 })

/-- `GdipRestoreGraphics` (lines 468-513). The result is `none` where the C
code has no defined behaviour: when it reads a slot through a null
`saved_status` pointer, and when the slot holds no region, so that
`GdipCloneRegion` fails after the live clip region has been deleted and the
dangling pointer is then used by `cairo_SetGraphicsClip`. -/
def GdipRestoreGraphics (env : Env) (g : GpGraphics) (graphicsState : Nat) :
    Option (GpStatus × GpGraphics) :=
  if graphicsState ≥ MAX_GRAPHICS_STATE_STACK ∨ graphicsState > g.saved_status_pos then
    some (GpStatus.InvalidParameter, g)
  else
    match g.saved_status with
    | none => none
    | some slots =>
      let pos_state := slots graphicsState
      let g1 := { g with copy_of_ctm := gdip_cairo_matrix_copy pos_state.matrix,
                         previous_matrix := gdip_cairo_matrix_copy pos_state.previous_matrix }
      let g2 := (GdipSetRenderingOrigin env g1 pos_state.org_x pos_state.org_y).2
      match (GdipCloneRegion pos_state.clip).2 with
      | none => none
      | some cloned =>
        let g3 := { g2 with
          clip := cloned
          clip_matrix := gdip_cairo_matrix_copy pos_state.clip_matrix
          composite_mode := pos_state.composite_mode
          composite_quality := pos_state.composite_quality
          interpolation := pos_state.interpolation
          page_unit := pos_state.page_unit
          scale := pos_state.scale }
        let g4 := (GdipSetSmoothingMode env g3 pos_state.draw_mode).2
        let g5 := { g4 with
          text_mode := pos_state.text_mode
          pixel_mode := pos_state.pixel_mode
          text_contrast := pos_state.text_contrast
          saved_status_pos := graphicsState }
        let g6 := { g5 with
          effects := g5.effects ++ [Effect.call (BackendCall.cairo_set_matrix g5.copy_of_ctm)] }
        some (invoke env BackendCall.cairo_SetGraphicsClip g6)

/-- `gdip_graphics_reset` (lines 114-131). -/
def gdip_graphics_reset (env : Env) (g : GpGraphics) : GpGraphics :=
  let g1 := { g with previous_matrix := GpMatrix.identity }
  let g2 := (GdipResetClip env g1).2
  let g3 := { g2 with
    clip_matrix := GpMatrix.identity
    page_unit := UnitDisplay
    scale := 1
    interpolation := InterpolationModeBilinear
    composite_quality := CompositingQualityDefault
    composite_mode := CompositingModeSourceOver
    text_mode := TextRenderingHintSystemDefault
    pixel_mode := PixelOffsetModeDefault
    text_contrast := DEFAULT_TEXT_CONTRAST }
  (GdipSetSmoothingMode env g3 SmoothingModeNone).2

/-- `GdipBeginContainer2` (lines 1883-1899). -/
def GdipBeginContainer2 (env : Env) (g : GpGraphics) : GpStatus × Option Nat × GpGraphics :=
  let saved := GdipSaveGraphics g
  if saved.1 = GpStatus.Ok then
    let g1 := gdip_graphics_reset env saved.2.2
    (saved.1, saved.2.1, { g1 with previous_matrix := gdip_cairo_matrix_copy g1.copy_of_ctm })
  else saved

/-- `GdipEndContainer` (lines 1923-1930). -/
def GdipEndContainer (env : Env) (g : GpGraphics) (state : Nat) : Option (GpStatus × GpGraphics) :=
  GdipRestoreGraphics env g state

/-! ## Construction -/

/-- `gdip_graphics_common_init` (lines 133-162); `raw` is the content of the
freshly allocated block. `GdipCreateMatrix` yields the identity and
`GdipCreateRegion` the infinite region. -/
def gdip_graphics_common_init (env : Env) (raw : GpGraphics) : GpGraphics :=
  gdip_graphics_reset env
    { raw with
      copy_of_ctm := GpMatrix.identity
      clip := GpRegion.infinite
      clip_matrix := GpMatrix.identity
      bounds := ⟨0, 0, 0, 0⟩
      saved_status := none
      saved_status_pos := 0
      render_origin_x := 0
      render_origin_y := 0
      dpi_x := 0
      dpi_y := 0
      state := GraphicsState.Valid }

/-- `gdip_graphics_new` (lines 164-190): a context on the immediate backend.
No backend call has been issued on a block that was just allocated. -/
def gdip_graphics_new (env : Env) (raw : GpGraphics) : GpGraphics :=
  gdip_graphics_common_init env { raw with backend := GraphicsBackEnd.Cairo, effects := [] }

/-- `gdip_metafile_graphics_new` (lines 192-213): a context on the deferred
backend. -/
def gdip_metafile_graphics_new (env : Env) (raw : GpGraphics) : GpGraphics :=
  gdip_graphics_common_init env { raw with backend := GraphicsBackEnd.Metafile, effects := [] }

/-! ## Drawing primitives

A pen or brush argument is `none` for a null pointer, else the identity of
the object. -/

/-- `GdipDrawArc` (lines 810-824). -/
def GdipDrawArc (env : Env) (g : GpGraphics) (pen : Option Nat)
    (x y width height startAngle sweepAngle : ℚ) : GpStatus × GpGraphics :=
  match pen with
  | none => (GpStatus.InvalidParameter, g)
  | some p =>
    match g.backend with
    | GraphicsBackEnd.Cairo =>
      invoke env (BackendCall.cairo_DrawArc p x y width height startAngle sweepAngle) g
    | GraphicsBackEnd.Metafile =>
      invoke env (BackendCall.metafile_DrawArc p x y width height startAngle sweepAngle) g
    | GraphicsBackEnd.Unknown => (GpStatus.GenericError, g)

/-- `GdipDrawLine` (lines 945-959). -/
def GdipDrawLine (env : Env) (g : GpGraphics) (pen : Option Nat) (x1 y1 x2 y2 : ℚ) :
    GpStatus × GpGraphics :=
  match pen with
  | none => (GpStatus.InvalidParameter, g)
  | some p =>
    match g.backend with
    | GraphicsBackEnd.Cairo => invoke env (BackendCall.cairo_DrawLine p x1 y1 x2 y2) g
    | GraphicsBackEnd.Metafile => invoke env (BackendCall.metafile_DrawLine p x1 y1 x2 y2) g
    | GraphicsBackEnd.Unknown => (GpStatus.GenericError, g)

/-- `GdipFillRectangle` (lines 1354-1372). -/
def GdipFillRectangle (env : Env) (g : GpGraphics) (brush : Option Nat) (x y width height : ℚ) :
    GpStatus × GpGraphics :=
  match brush with
  | none => (GpStatus.InvalidParameter, g)
  | some b =>
    if width < 0 ∨ height < 0 then (GpStatus.Ok, g)
    else
      match g.backend with
      | GraphicsBackEnd.Cairo => invoke env (BackendCall.cairo_FillRectangle b x y width height) g
      | GraphicsBackEnd.Metafile =>
        invoke env (BackendCall.metafile_FillRectangle b x y width height) g
      | GraphicsBackEnd.Unknown => (GpStatus.GenericError, g)

/-! ## Sequences of mutations

The public transform, clip and hint mutators, as one type, so that a
statement can range over every finite sequence of such calls. -/

/-- One call of a transform, clip or hint mutator, with its arguments. -/
inductive Mutation where
  | SetWorldTransform (matrix : Option GpMatrix)
  | ResetWorldTransform
  | MultiplyWorldTransform (matrix : Option GpMatrix) (order : GpMatrixOrder)
  | RotateWorldTransform (angle : ℚ) (order : GpMatrixOrder)
  | ScaleWorldTransform (sx sy : ℚ) (order : GpMatrixOrder)
  | TranslateWorldTransform (dx dy : ℚ) (order : GpMatrixOrder)
  | SetClipGraphics (srcgraphics : GpGraphics) (mode : CombineMode)
  | SetClipRect (x y width height : ℚ) (mode : CombineMode)
  | SetClipRectI (x y width height : Int) (mode : CombineMode)
  | SetClipPath (path : Option GpPath) (mode : CombineMode)
  | SetClipRegion (region : Option GpRegion) (mode : CombineMode)
  | SetClipHrgn (hRgn : Option GpRegion) (mode : CombineMode)
  | ResetClip
  | TranslateClip (dx dy : ℚ)
  | TranslateClipI (dx dy : Int)
  | SetRenderingOrigin (x y : Int)
  | SetInterpolationMode (mode : Int)
  | SetTextRenderingHint (mode : Int)
  | SetPixelOffsetMode (mode : Int)
  | SetTextContrast (contrast : Nat)
  | SetSmoothingMode (mode : Int)
  | SetCompositingMode (mode : Int)
  | SetCompositingQuality (quality : Int)
  | SetPageScale (scale : ℚ)
  | SetPageUnit (unit : Int)

/-- Perform one mutator call. -/
def Mutation.run (env : Env) (g : GpGraphics) : Mutation → GpStatus × GpGraphics
  | Mutation.SetWorldTransform m => GdipSetWorldTransform env g m
  | Mutation.ResetWorldTransform => GdipResetWorldTransform env g
  | Mutation.MultiplyWorldTransform m o => GdipMultiplyWorldTransform env g m o
  | Mutation.RotateWorldTransform a o => GdipRotateWorldTransform env g a o
  | Mutation.ScaleWorldTransform sx sy o => GdipScaleWorldTransform env g sx sy o
  | Mutation.TranslateWorldTransform dx dy o => GdipTranslateWorldTransform env g dx dy o
  | Mutation.SetClipGraphics src mode => GdipSetClipGraphics env g src mode
  | Mutation.SetClipRect x y w h mode => GdipSetClipRect env g x y w h mode
  | Mutation.SetClipRectI x y w h mode => GdipSetClipRectI env g x y w h mode
  | Mutation.SetClipPath p mode => GdipSetClipPath env g p mode
  | Mutation.SetClipRegion r mode => GdipSetClipRegion env g r mode
  | Mutation.SetClipHrgn r mode => GdipSetClipHrgn env g r mode
  | Mutation.ResetClip => GdipResetClip env g
  | Mutation.TranslateClip dx dy => GdipTranslateClip env g dx dy
  | Mutation.TranslateClipI dx dy => GdipTranslateClipI env g dx dy
  | Mutation.SetRenderingOrigin x y => GdipSetRenderingOrigin env g x y
  | Mutation.SetInterpolationMode m => GdipSetInterpolationMode env g m
  | Mutation.SetTextRenderingHint m => GdipSetTextRenderingHint env g m
  | Mutation.SetPixelOffsetMode m => GdipSetPixelOffsetMode env g m
  | Mutation.SetTextContrast c => GdipSetTextContrast env g c
  | Mutation.SetSmoothingMode m => GdipSetSmoothingMode env g m
  | Mutation.SetCompositingMode m => GdipSetCompositingMode env g m
  | Mutation.SetCompositingQuality q => GdipSetCompositingQuality env g q
  | Mutation.SetPageScale s => GdipSetPageScale env g s
  | Mutation.SetPageUnit u => GdipSetPageUnit env g u

/-- Perform a sequence of mutator calls, ignoring the statuses. -/
def runMutations (env : Env) (g : GpGraphics) : List Mutation → GpGraphics
  | [] => g
  | m :: ms => runMutations env (m.run env g).2 ms

/-- Perform `n` consecutive `GdipSaveGraphics` calls; the result lists the
status and token of each call in order, and the final context. -/
def saveTimes : Nat → GpGraphics → List (GpStatus × Option Nat) × GpGraphics
  | 0, g => ([], g)
  | n + 1, g =>
    let r := GdipSaveGraphics g
    let rest := saveTimes n r.2.2
    ((r.1, r.2.1) :: rest.1, rest.2)

/-- The smoothing mode stored in a context is one of the two values that
`GdipSetSmoothingMode` stores for every accepted argument other than the
out-of-table ones, i.e. `None` or `AntiAlias`. -/
def SmoothingStored (g : GpGraphics) : Prop :=
  g.draw_mode = SmoothingModeNone ∨ g.draw_mode = SmoothingModeAntiAlias

/-- The backend that accepts every call. -/
def acceptAll : Env :=
  { backend := fun _ _ => GpStatus.Ok
    rotation := fun _ => GpMatrix.identity
    combineBounds := fun _ _ _ => ⟨0, 0, 0, 0⟩
    combineInfinite := fun _ _ _ => false }

/-- A block of memory with arbitrary (here: zero and invalid) content, used as
the argument of the constructors in concrete evaluations. -/
def rawBlock : GpGraphics :=
  { self := 1, backend := GraphicsBackEnd.Unknown, copy_of_ctm := GpMatrix.zero,
    previous_matrix := GpMatrix.zero, clip := GpRegion.infinite, clip_matrix := GpMatrix.zero,
    bounds := ⟨0, 0, 0, 0⟩, page_unit := 0, scale := 0, interpolation := 0,
    composite_quality := 0, composite_mode := 0, text_mode := 0, pixel_mode := 0,
    text_contrast := 0, draw_mode := 0, render_origin_x := 0, render_origin_y := 0,
    dpi_x := 0, dpi_y := 0, state := GraphicsState.Busy, saved_status := none,
    saved_status_pos := 7, effects := [] }

/-- A fresh context on the immediate backend. -/
def freshCairo : GpGraphics := gdip_graphics_new acceptAll rawBlock

/-! ## Further drawing primitives -/

/-- `GdipFillRectangleI` (lines 1374-1392). -/
def GdipFillRectangleI (env : Env) (g : GpGraphics) (brush : Option Nat)
    (x y width height : Int) : GpStatus × GpGraphics :=
  match brush with
  | none => (GpStatus.InvalidParameter, g)
  | some b =>
    if width < 0 ∨ height < 0 then (GpStatus.Ok, g)
    else
      match g.backend with
      | GraphicsBackEnd.Cairo => invoke env (BackendCall.cairo_FillRectangleI b x y width height) g
      | GraphicsBackEnd.Metafile =>
        invoke env (BackendCall.metafile_FillRectangleI b x y width height) g
      | GraphicsBackEnd.Unknown => (GpStatus.GenericError, g)

/-! ## Unit conversion (graphics.c lines 45-112) -/

/-- Modelled from the spec: the output-device class `GraphicsType` is declared
in a header that is not part of the sources; `gtPostScript` is the
"page/print" device class, the other values are the ones graphics.c names. -/
inductive GraphicsType where
  | gtUndefined
  | gtX11Drawable
  | gtMemoryBitmap
  | gtOSXDrawable
  | gtPostScript
  deriving DecidableEq, Repr

/-- `gdip_unit_conversion` (lines 45-112). The first `switch` computes the
value in inches or returns the input for an unknown source unit; the second
converts the inches to the target unit or returns the input for an unknown
target unit. The constant `25.4f` is the rational 127/5. -/
def gdip_unit_conversion (fromUnit toUnit : Int) (dpi : ℚ) (type : GraphicsType) (nSrc : ℚ) : ℚ :=
  let inchs : Option ℚ :=
    if fromUnit = UnitDocument then some (nSrc / 300)
    else if fromUnit = UnitInch then some nSrc
    else if fromUnit = UnitMillimeter then some (nSrc / (127 / 5))
    else if fromUnit = UnitDisplay then
      (if type = GraphicsType.gtPostScript then some (nSrc / 100) else some (nSrc / dpi))
    else if fromUnit = UnitPixel ∨ fromUnit = UnitWorld then some (nSrc / dpi)
    else if fromUnit = UnitPoint then some (nSrc / 72)
    else if fromUnit = UnitCairoPoint then
      (if type = GraphicsType.gtPostScript then some (nSrc / 72) else some (nSrc / dpi))
    else none
  match inchs with
  | none => nSrc
  | some inchs =>
    if toUnit = UnitDocument then inchs * 300
    else if toUnit = UnitInch then inchs
    else if toUnit = UnitMillimeter then inchs * (127 / 5)
    else if toUnit = UnitDisplay then
      (if type = GraphicsType.gtPostScript then inchs * 100 else inchs * dpi)
    else if toUnit = UnitPixel ∨ toUnit = UnitWorld then inchs * dpi
    else if toUnit = UnitPoint then inchs * 72
    else if toUnit = UnitCairoPoint then
      (if type = GraphicsType.gtPostScript then inchs * 72 else inchs * dpi)
    else nSrc

/-- The value in inches of `v` measured in unit `u`, as section 4.1 of the
specification words it (units: World, Display, Pixel, Point, Inch, Document,
Millimeter); `none` for any other unit. -/
def inchesOf (u : Int) (dpi : ℚ) (type : GraphicsType) (v : ℚ) : Option ℚ :=
  if u = UnitDocument then some (v / 300)
  else if u = UnitInch then some v
  else if u = UnitMillimeter then some (v / (127 / 5))
  else if u = UnitPoint then some (v / 72)
  else if u = UnitPixel ∨ u = UnitWorld then some (v / dpi)
  else if u = UnitDisplay then
    some (if type = GraphicsType.gtPostScript then v / 100 else v / dpi)
  else none

/-- The number of units `u` in one inch ("the inverse constants" of section
4.1 of the specification); `none` for any other unit. -/
def perInch (u : Int) (dpi : ℚ) (type : GraphicsType) : Option ℚ :=
  if u = UnitDocument then some 300
  else if u = UnitInch then some 1
  else if u = UnitMillimeter then some (127 / 5)
  else if u = UnitPoint then some 72
  else if u = UnitPixel ∨ u = UnitWorld then some dpi
  else if u = UnitDisplay then some (if type = GraphicsType.gtPostScript then 100 else dpi)
  else none

/-- The units that `gdip_unit_conversion` has a `case` for. -/
abbrev recognisedUnit (u : Int) : Prop :=
  u = UnitWorld ∨ u = UnitDisplay ∨ u = UnitPixel ∨ u = UnitPoint ∨ u = UnitInch ∨
    u = UnitDocument ∨ u = UnitMillimeter ∨ u = UnitCairoPoint

/-- The units of the round-trip property: Document, Inch, Millimeter, Point
and Pixel. -/
abbrev roundTripUnit (u : Int) : Prop :=
  u = UnitDocument ∨ u = UnitInch ∨ u = UnitMillimeter ∨ u = UnitPoint ∨ u = UnitPixel

/-! ## Observations of a region

Modelled from the spec: region.c is not part of the sources. The spec words
the bounds of a transformed region as the region bounds transformed forward
(section 4.3), which is what the definitions below compute for rectangles,
transformations and translations; the observations of a boolean combination
are collaborators (`Env.combineBounds`, `Env.combineInfinite`). -/

/-- Modelled from the spec: the position of the rectangle that stands for the
infinite region (region-private.h, not in the sources; GDI+ value). -/
def REGION_INFINITE_POSITION : ℚ := -4194304

/-- Modelled from the spec: the extent of the rectangle that stands for the
infinite region (region-private.h, not in the sources; GDI+ value). -/
def REGION_INFINITE_LENGTH : ℚ := 8388608

/-- The image of a point under a matrix (`cairo_matrix_transform_point`). -/
def transformPoint (m : GpMatrix) (p : GpPointF) : GpPointF :=
  ⟨m.xx * p.X + m.xy * p.Y + m.x0, m.yx * p.X + m.yy * p.Y + m.y0⟩

/-- The smallest rectangle that holds the four given points. -/
def boundingRect (a b c d : GpPointF) : GpRectF :=
  let x0 := min (min a.X b.X) (min c.X d.X)
  let y0 := min (min a.Y b.Y) (min c.Y d.Y)
  let x1 := max (max a.X b.X) (max c.X d.X)
  let y1 := max (max a.Y b.Y) (max c.Y d.Y)
  ⟨x0, y0, x1 - x0, y1 - y0⟩

/-- A rectangle transformed forward by a matrix: the bounding rectangle of the
images of its four corners. -/
def transformRect (m : GpMatrix) (r : GpRectF) : GpRectF :=
  boundingRect (transformPoint m ⟨r.X, r.Y⟩) (transformPoint m ⟨r.X + r.Width, r.Y⟩)
    (transformPoint m ⟨r.X, r.Y + r.Height⟩)
    (transformPoint m ⟨r.X + r.Width, r.Y + r.Height⟩)

/-- The bounding rectangle of the points of a path (the zero rectangle for a
path without points). -/
def pathBounds (p : GpPath) : GpRectF :=
  match p.points with
  | [] => ⟨0, 0, 0, 0⟩
  | q :: qs =>
    let x0 := qs.foldl (fun a t => min a t.X) q.X
    let y0 := qs.foldl (fun a t => min a t.Y) q.Y
    let x1 := qs.foldl (fun a t => max a t.X) q.X
    let y1 := qs.foldl (fun a t => max a t.Y) q.Y
    ⟨x0, y0, x1 - x0, y1 - y0⟩

/-- Modelled from the spec: `gdip_is_InfiniteRegion` (region.c, not in the
sources), the "infinite test" of the region value type. -/
def gdip_is_InfiniteRegion (env : Env) : GpRegion → Bool
  | GpRegion.infinite => true
  | GpRegion.rect _ => false
  | GpRegion.path _ => false
  | GpRegion.transform r _ => gdip_is_InfiniteRegion env r
  | GpRegion.translate r _ _ => gdip_is_InfiniteRegion env r
  | GpRegion.combine r1 r2 mode => env.combineInfinite r1 r2 mode

/-- The bounding rectangle of a region expression. -/
def regionBounds (env : Env) : GpRegion → GpRectF
  | GpRegion.infinite =>
    ⟨REGION_INFINITE_POSITION, REGION_INFINITE_POSITION, REGION_INFINITE_LENGTH,
      REGION_INFINITE_LENGTH⟩
  | GpRegion.rect r => r
  | GpRegion.path p => pathBounds p
  | GpRegion.transform r m => transformRect m (regionBounds env r)
  | GpRegion.translate r dx dy =>
    ⟨(regionBounds env r).X + dx, (regionBounds env r).Y + dy, (regionBounds env r).Width,
      (regionBounds env r).Height⟩
  | GpRegion.combine r1 r2 mode => env.combineBounds r1 r2 mode

/-- Modelled from the spec: `GdipGetRegionBounds (region, graphics, rect)`
(region.c, not in the sources) writes the bounding rectangle of the region. -/
def GdipGetRegionBounds (env : Env) (region : GpRegion) (_g : GpGraphics) :
    GpStatus × GpRectF :=
  (GpStatus.Ok, regionBounds env region)

/-- Modelled from the spec: the meaning of a region expression as a set of
points, used to say that two regions are equal as regions. A rectangle holds
the points from its origin up to, not including, its far edges; a
transformed region holds the images of the points of the region; a boolean
combination is the corresponding set operation; `inPath` says which points
a path encloses. -/
def GpRegion.contains (inPath : GpPath → ℚ → ℚ → Prop) : GpRegion → ℚ → ℚ → Prop
  | GpRegion.infinite, _, _ => True
  | GpRegion.rect r, px, py => r.X ≤ px ∧ px < r.X + r.Width ∧ r.Y ≤ py ∧ py < r.Y + r.Height
  | GpRegion.path p, px, py => inPath p px py
  | GpRegion.transform r m, px, py =>
    ∃ qx qy, GpRegion.contains inPath r qx qy ∧
      m.xx * qx + m.xy * qy + m.x0 = px ∧ m.yx * qx + m.yy * qy + m.y0 = py
  | GpRegion.translate r dx dy, px, py => GpRegion.contains inPath r (px - dx) (py - dy)
  | GpRegion.combine r1 r2 mode, px, py =>
    match mode with
    | CombineMode.Replace => GpRegion.contains inPath r2 px py
    | CombineMode.Intersect =>
      GpRegion.contains inPath r1 px py ∧ GpRegion.contains inPath r2 px py
    | CombineMode.Union => GpRegion.contains inPath r1 px py ∨ GpRegion.contains inPath r2 px py
    | CombineMode.Xor =>
      (GpRegion.contains inPath r1 px py ∧ ¬ GpRegion.contains inPath r2 px py) ∨
        (¬ GpRegion.contains inPath r1 px py ∧ GpRegion.contains inPath r2 px py)
    | CombineMode.Exclude =>
      GpRegion.contains inPath r1 px py ∧ ¬ GpRegion.contains inPath r2 px py
    | CombineMode.Complement =>
      ¬ GpRegion.contains inPath r1 px py ∧ GpRegion.contains inPath r2 px py

/-! ## Clip queries -/

/-- `GdipGetClip` (lines 2199-2214); `region` is the content of the region
object of the caller and the result carries its content after the call. -/
def GdipGetClip (g : GpGraphics) (region : GpRegion) : GpStatus × GpRegion :=
  if g.state = GraphicsState.Busy then (GpStatus.ObjectBusy, region)
  else
    let copied := g.clip
    if gdip_is_matrix_empty g.clip_matrix then (GpStatus.Ok, copied)
    else GdipTransformRegion copied g.clip_matrix

/-- `GdipGetClipBounds` (lines 2216-2242); `rect` is the content of the
rectangle of the caller. -/
def GdipGetClipBounds (env : Env) (g : GpGraphics) (rect : GpRectF) : GpStatus × GpRectF :=
  if g.state = GraphicsState.Busy then (GpStatus.ObjectBusy, rect)
  else
    let work :=
      if gdip_is_matrix_empty g.clip_matrix then g.clip
      else (GdipTransformRegion ((GdipCloneRegion (some g.clip)).2.getD g.clip) g.clip_matrix).2
    GdipGetRegionBounds env work g

/-- `GdipSetVisibleClip_linux` (lines 2273-2284). -/
def GdipSetVisibleClip_linux (g : GpGraphics) (rect : GpRect) : GpStatus × GpGraphics :=
  (GpStatus.Ok, { g with bounds := ⟨rect.X, rect.Y, rect.Width, rect.Height⟩ })

/-- `GdipGetVisibleClipBounds` (lines 2286-2315). -/
def GdipGetVisibleClipBounds (env : Env) (g : GpGraphics) (rect : GpRectF) :
    GpStatus × GpRectF :=
  if g.state = GraphicsState.Busy then (GpStatus.ObjectBusy, rect)
  else if !gdip_is_InfiniteRegion env g.clip then
    let r := GdipGetClipBounds env g ⟨0, 0, 0, 0⟩
    if r.1 ≠ GpStatus.Ok then (r.1, rect)
    else
      let clipbound := r.2
      let X : ℚ := if clipbound.X > g.bounds.X then clipbound.X else g.bounds.X
      let Y : ℚ := if clipbound.Y > g.bounds.Y then clipbound.Y else g.bounds.Y
      let Width : ℚ :=
        (if clipbound.X + clipbound.Width < (g.bounds.X + g.bounds.Width : Int) then
          clipbound.X + clipbound.Width
        else ((g.bounds.X + g.bounds.Width : Int) : ℚ)) - X
      let Height : ℚ :=
        (if clipbound.Y + clipbound.Height < (g.bounds.Y + g.bounds.Height : Int) then
          clipbound.Y + clipbound.Height
        else ((g.bounds.Y + g.bounds.Height : Int) : ℚ)) - Y
      (GpStatus.Ok, ⟨X, Y, Width, Height⟩)
  else (GpStatus.Ok, ⟨g.bounds.X, g.bounds.Y, g.bounds.Width, g.bounds.Height⟩)

/-! ## Drawing primitives with array arguments

A points argument is `none` for a null pointer, else the content of the
array; `count` is passed separately, as in the C signature. -/

/-- `GdipDrawBeziers` (lines 875-892). -/
def GdipDrawBeziers (env : Env) (g : GpGraphics) (pen : Option Nat)
    (points : Option (List GpPointF)) (count : Int) : GpStatus × GpGraphics :=
  if count = 0 then (GpStatus.Ok, g)
  else
    match pen, points with
    | some p, some pts =>
      match g.backend with
      | GraphicsBackEnd.Cairo => invoke env (BackendCall.cairo_DrawBeziers p pts count) g
      | GraphicsBackEnd.Metafile => invoke env (BackendCall.metafile_DrawBeziers p pts count) g
      | GraphicsBackEnd.Unknown => (GpStatus.GenericError, g)
    | _, _ => (GpStatus.InvalidParameter, g)

/-- `GdipDrawBeziersI` (lines 894-911). -/
def GdipDrawBeziersI (env : Env) (g : GpGraphics) (pen : Option Nat)
    (points : Option (List (Int × Int))) (count : Int) : GpStatus × GpGraphics :=
  if count = 0 then (GpStatus.Ok, g)
  else
    match pen, points with
    | some p, some pts =>
      match g.backend with
      | GraphicsBackEnd.Cairo => invoke env (BackendCall.cairo_DrawBeziersI p pts count) g
      | GraphicsBackEnd.Metafile => invoke env (BackendCall.metafile_DrawBeziersI p pts count) g
      | GraphicsBackEnd.Unknown => (GpStatus.GenericError, g)
    | _, _ => (GpStatus.InvalidParameter, g)

/-- `GdipDrawLines` (lines 977-991). -/
def GdipDrawLines (env : Env) (g : GpGraphics) (pen : Option Nat)
    (points : Option (List GpPointF)) (count : Int) : GpStatus × GpGraphics :=
  match pen, points with
  | some p, some pts =>
    if count < 2 then (GpStatus.InvalidParameter, g)
    else
      match g.backend with
      | GraphicsBackEnd.Cairo => invoke env (BackendCall.cairo_DrawLines p pts count) g
      | GraphicsBackEnd.Metafile => invoke env (BackendCall.metafile_DrawLines p pts count) g
      | GraphicsBackEnd.Unknown => (GpStatus.GenericError, g)
  | _, _ => (GpStatus.InvalidParameter, g)

/-- `GdipDrawLinesI` (lines 993-1007). -/
def GdipDrawLinesI (env : Env) (g : GpGraphics) (pen : Option Nat)
    (points : Option (List (Int × Int))) (count : Int) : GpStatus × GpGraphics :=
  match pen, points with
  | some p, some pts =>
    if count < 2 then (GpStatus.InvalidParameter, g)
    else
      match g.backend with
      | GraphicsBackEnd.Cairo => invoke env (BackendCall.cairo_DrawLinesI p pts count) g
      | GraphicsBackEnd.Metafile => invoke env (BackendCall.metafile_DrawLinesI p pts count) g
      | GraphicsBackEnd.Unknown => (GpStatus.GenericError, g)
  | _, _ => (GpStatus.InvalidParameter, g)

/-- `GdipDrawPie` (lines 1025-1043). -/
def GdipDrawPie (env : Env) (g : GpGraphics) (pen : Option Nat)
    (x y width height startAngle sweepAngle : ℚ) : GpStatus × GpGraphics :=
  match pen with
  | none => (GpStatus.InvalidParameter, g)
  | some p =>
    if sweepAngle = 0 then (GpStatus.Ok, g)
    else
      match g.backend with
      | GraphicsBackEnd.Cairo =>
        invoke env (BackendCall.cairo_DrawPie p x y width height startAngle sweepAngle) g
      | GraphicsBackEnd.Metafile =>
        invoke env (BackendCall.metafile_DrawPie p x y width height startAngle sweepAngle) g
      | GraphicsBackEnd.Unknown => (GpStatus.GenericError, g)

/-- `GdipDrawPieI` (lines 1045-1063). -/
def GdipDrawPieI (env : Env) (g : GpGraphics) (pen : Option Nat) (x y width height : Int)
    (startAngle sweepAngle : ℚ) : GpStatus × GpGraphics :=
  match pen with
  | none => (GpStatus.InvalidParameter, g)
  | some p =>
    if sweepAngle = 0 then (GpStatus.Ok, g)
    else
      match g.backend with
      | GraphicsBackEnd.Cairo =>
        invoke env (BackendCall.cairo_DrawPieI p x y width height startAngle sweepAngle) g
      | GraphicsBackEnd.Metafile =>
        invoke env (BackendCall.metafile_DrawPieI p x y width height startAngle sweepAngle) g
      | GraphicsBackEnd.Unknown => (GpStatus.GenericError, g)

/-! ## Destruction (graphics.c lines 373-437) -/

/-- A resource released by `GdipDeleteGraphics`, in program order. -/
inductive Release where
  | matrix_copy_of_ctm
  | region_clip
  | matrix_clip_matrix
  | cairo_context
  | metafile_stop_recording
  | metasurface
  | snapshot_regions (regions : List GpRegion)
  | saved_status
  | graphics
  deriving DecidableEq, Repr

/-- The regions that the loop of `GdipDeleteGraphics` deletes: those of the
slots, among the `n` first ones, whose `clip` pointer is not null. -/
def snapshotRegions (slots : Nat → GpState) (n : Nat) : List GpRegion :=
  (List.range n).filterMap fun i => (slots i).clip

/-- `GdipDeleteGraphics` (lines 373-437). The second component is the context
that is still alive after the call (`none` once it has been freed), the
third lists what was released. `recording` is `graphics->metafile->recording`.
The members `copy_of_ctm`, `clip`, `clip_matrix` and `ct` are not null on a
constructed context. -/
def GdipDeleteGraphics (g : GpGraphics) (recording : Bool) :
    GpStatus × Option GpGraphics × List Release :=
  if g.state ≠ GraphicsState.Valid then (GpStatus.ObjectBusy, some g, [])
  else
    let r1 := [Release.matrix_copy_of_ctm, Release.region_clip, Release.matrix_clip_matrix,
      Release.cairo_context]
    let r2 :=
      if g.backend = GraphicsBackEnd.Metafile then
        (if recording then [Release.metafile_stop_recording] else []) ++ [Release.metasurface]
      else []
    let r3 :=
      match g.saved_status with
      | none => []
      | some slots =>
        [Release.snapshot_regions (snapshotRegions slots MAX_GRAPHICS_STATE_STACK),
          Release.saved_status]
    (GpStatus.Ok, none, r1 ++ r2 ++ r3 ++ [Release.graphics])

/-! ## Sequences of public operations -/

/-- One call of a public operation of the context, with its arguments. -/
inductive Operation where
  | Mutate (m : Mutation)
  | SaveGraphics
  | RestoreGraphics (graphicsState : Nat)
  | BeginContainer2
  | EndContainer (state : Nat)
  | GetDC
  | ReleaseDC (hdc : Option Nat)
  | SetVisibleClip_linux (rect : GpRect)
  | DrawArc (pen : Option Nat) (x y width height startAngle sweepAngle : ℚ)
  | DrawLine (pen : Option Nat) (x1 y1 x2 y2 : ℚ)
  | DrawBeziers (pen : Option Nat) (points : Option (List GpPointF)) (count : Int)
  | DrawBeziersI (pen : Option Nat) (points : Option (List (Int × Int))) (count : Int)
  | DrawLines (pen : Option Nat) (points : Option (List GpPointF)) (count : Int)
  | DrawLinesI (pen : Option Nat) (points : Option (List (Int × Int))) (count : Int)
  | DrawPie (pen : Option Nat) (x y width height startAngle sweepAngle : ℚ)
  | DrawPieI (pen : Option Nat) (x y width height : Int) (startAngle sweepAngle : ℚ)
  | FillRectangle (brush : Option Nat) (x y width height : ℚ)
  | FillRectangleI (brush : Option Nat) (x y width height : Int)

/-- Perform one operation; `none` where the C code has no defined behaviour
(see `GdipRestoreGraphics`). -/
def Operation.run (env : Env) (g : GpGraphics) : Operation → Option (GpStatus × GpGraphics)
  | Operation.Mutate m => some (m.run env g)
  | Operation.SaveGraphics => some ((GdipSaveGraphics g).1, (GdipSaveGraphics g).2.2)
  | Operation.RestoreGraphics t => GdipRestoreGraphics env g t
  | Operation.BeginContainer2 =>
    some ((GdipBeginContainer2 env g).1, (GdipBeginContainer2 env g).2.2)
  | Operation.EndContainer t => GdipEndContainer env g t
  | Operation.GetDC => some ((GdipGetDC g).1, (GdipGetDC g).2.2)
  | Operation.ReleaseDC hdc => some (GdipReleaseDC g hdc)
  | Operation.SetVisibleClip_linux rect => some (GdipSetVisibleClip_linux g rect)
  | Operation.DrawArc pen x y w h a b => some (GdipDrawArc env g pen x y w h a b)
  | Operation.DrawLine pen x1 y1 x2 y2 => some (GdipDrawLine env g pen x1 y1 x2 y2)
  | Operation.DrawBeziers pen pts n => some (GdipDrawBeziers env g pen pts n)
  | Operation.DrawBeziersI pen pts n => some (GdipDrawBeziersI env g pen pts n)
  | Operation.DrawLines pen pts n => some (GdipDrawLines env g pen pts n)
  | Operation.DrawLinesI pen pts n => some (GdipDrawLinesI env g pen pts n)
  | Operation.DrawPie pen x y w h a b => some (GdipDrawPie env g pen x y w h a b)
  | Operation.DrawPieI pen x y w h a b => some (GdipDrawPieI env g pen x y w h a b)
  | Operation.FillRectangle brush x y w h => some (GdipFillRectangle env g brush x y w h)
  | Operation.FillRectangleI brush x y w h => some (GdipFillRectangleI env g brush x y w h)

/-- Perform a sequence of operations, ignoring the statuses; `none` as soon as
one of them has no defined behaviour. -/
def runOperations (env : Env) (g : GpGraphics) : List Operation → Option GpGraphics
  | [] => some g
  | op :: ops =>
    match op.run env g with
    | none => none
    | some r => runOperations env r.2 ops

/-! ## The inverse pair and the re-projection of the device bounds -/

/-- The two matrices are inverse to each other. -/
def IsInversePair (a b : GpMatrix) : Prop :=
  cairo_matrix_multiply a b = GpMatrix.identity ∧ cairo_matrix_multiply b a = GpMatrix.identity

/-- The image of a point under a matrix, stored in `float` coordinates. -/
def floatImage (m : GpMatrix) (p : GpPointF) : GpPointF :=
  ⟨floatOf (transformPoint m p).X, floatOf (transformPoint m p).Y⟩

/-- The re-projection of section 4.2 of the specification, in the number
types of the code: the two opposite corners of the device bounds, as `float`
points, are transformed through the matrix; the origin is the component-wise
minimum, converted to `int`, and the extent is the rounded component-wise
difference, as an `int`. -/
def reproject (m : GpMatrix) (b : GpRect) : GpRect :=
  let p0 := floatImage m ⟨floatOf b.X, floatOf b.Y⟩
  let p1 := floatImage m ⟨floatOf (wrapInt (b.X + b.Width)), floatOf (wrapInt (b.Y + b.Height))⟩
  ⟨storeInt (float_to_int (min p0.X p1.X)), storeInt (float_to_int (min p0.Y p1.Y)),
    storeInt (iround (floatOf (max p0.X p1.X - min p0.X p1.X))),
    storeInt (iround (floatOf (max p0.Y p1.Y - min p0.Y p1.Y)))⟩

/-! ## Curves (graphics.c lines 1221-1290) -/

/-- `GdipDrawCurve3` (lines 1265-1290). -/
def GdipDrawCurve3 (env : Env) (g : GpGraphics) (pen : Option Nat)
    (points : Option (List GpPointF)) (count offset numOfSegments : Int) (tension : ℚ) :
    GpStatus × GpGraphics :=
  if tension = 0 then GdipDrawLines env g pen points count
  else
    match pen, points with
    | some p, some pts =>
      if numOfSegments < 1 then (GpStatus.InvalidParameter, g)
      else if offset = 0 ∧ numOfSegments = 1 ∧ count < 3 then (GpStatus.InvalidParameter, g)
      else if numOfSegments ≥ wrapInt (count - offset) then (GpStatus.InvalidParameter, g)
      else
        match g.backend with
        | GraphicsBackEnd.Cairo =>
          invoke env (BackendCall.cairo_DrawCurve3 p pts count offset numOfSegments tension) g
        | GraphicsBackEnd.Metafile =>
          invoke env (BackendCall.metafile_DrawCurve3 p pts count offset numOfSegments tension) g
        | GraphicsBackEnd.Unknown => (GpStatus.GenericError, g)
    | _, _ => (GpStatus.InvalidParameter, g)

/-- `GdipDrawCurve2` (lines 1243-1252). -/
def GdipDrawCurve2 (env : Env) (g : GpGraphics) (pen : Option Nat)
    (points : Option (List GpPointF)) (count : Int) (tension : ℚ) : GpStatus × GpGraphics :=
  if count = 2 then GdipDrawLines env g pen points count
  else
    let segments : Int := if count > 3 then wrapInt (count - 1) else wrapInt (count - 2)
    GdipDrawCurve3 env g pen points count 0 segments tension

/-- `GdipDrawCurve` (lines 1221-1230); the constant `0.5f` is the rational 1/2. -/
def GdipDrawCurve (env : Env) (g : GpGraphics) (pen : Option Nat)
    (points : Option (List GpPointF)) (count : Int) : GpStatus × GpGraphics :=
  if count = 2 then GdipDrawLines env g pen points count
  else
    let segments : Int := if count > 3 then wrapInt (count - 1) else wrapInt (count - 2)
    GdipDrawCurve3 env g pen points count 0 segments (1 / 2)

/-! ## Hint getters -/

/-- `GdipGetInterpolationMode` (lines 1706-1717); the value written through
`imode` is `none` when the function returns before writing it. -/
def GdipGetInterpolationMode (g : GpGraphics) : GpStatus × Option Int :=
  if g.state = GraphicsState.Busy then (GpStatus.ObjectBusy, none)
  else (GpStatus.Ok, some g.interpolation)

/-- `GdipGetSmoothingMode` (lines 1860-1871); the value written through `mode`
is `none` when the function returns before writing it. -/
def GdipGetSmoothingMode (g : GpGraphics) : GpStatus × Option Int :=
  if g.state = GraphicsState.Busy then (GpStatus.ObjectBusy, none)
  else (GpStatus.Ok, some g.draw_mode)

/-! ## Visibility queries -/

/-- `GdipIsVisibleClipEmpty` (lines 2334-2349). `visibleClipBounds` is the
content of the local rectangle before the call of `GdipGetVisibleClipBounds`,
whose status is not looked at; the flag written through `result` is `none`
when the function returns before writing it. -/
def GdipIsVisibleClipEmpty (env : Env) (g : GpGraphics) (visibleClipBounds : GpRectF) :
    GpStatus × Option Bool :=
  if g.state = GraphicsState.Busy then (GpStatus.ObjectBusy, none)
  else
    let r := (GdipGetVisibleClipBounds env g visibleClipBounds).2
    (GpStatus.Ok, some (decide (r.Width = 0 ∨ r.Height = 0)))

/-! ### Rectangle visibility (graphics.c lines 2375-2418)

The two loop counters of `GdipIsVisibleRect` are `float` variables and the
loops end only if the counters pass the bounds, so the rounding of `float`
arithmetic decides whether the function returns. This function is therefore
embedded with the rounding of a 24-bit significand (`roundToFloat`). All the
values that `GdipIsVisibleRectI` makes it handle are integers: a `float` that
holds an integer is represented by that integer. -/

/-- Modelled from the spec: `gdip_is_Point_in_RectF_inclusive` (general.c, not
in the sources) tells whether the point lies in the rectangle, the four
edges included. -/
def gdip_is_Point_in_RectF_inclusive (x y : Int) (rect : GpRect) : Bool :=
  decide (x ≥ rect.X ∧ x ≤ roundToFloat (rect.X + rect.Width) ∧
    y ≥ rect.Y ∧ y ≤ roundToFloat (rect.Y + rect.Height))

/-- The inner loop of `GdipIsVisibleRect` (lines 2402-2407) for the row `posy`,
from the counter value `posx` on: `some true` when it is left by `break`,
`some false` when the counter passes the bound, `none` when it is still
running after as many iterations as the first argument says. -/
def visibleRow (boundsF recthit : GpRect) (posy : Int) : Nat → Int → Option Bool
  | 0, _ => none
  | fuel + 1, posx =>
    if posx < roundToFloat (recthit.Width + 1) then
      if gdip_is_Point_in_RectF_inclusive (roundToFloat (recthit.X + posx))
          (roundToFloat (recthit.Y + posy)) boundsF then some true
      else visibleRow boundsF recthit posy fuel (roundToFloat (posx + 1))
    else some false

/-- The outer loop of `GdipIsVisibleRect` (lines 2401-2408) from the counter
value `posy` on, with the current value of `found`; every inner loop may run
`rowFuel` iterations. The `break` leaves the inner loop only. -/
def visibleRows (boundsF recthit : GpRect) (rowFuel : Nat) : Nat → Int → Bool → Option Bool
  | 0, _, _ => none
  | fuel + 1, posy, found =>
    if posy < roundToFloat (recthit.Height + 1) then
      match visibleRow boundsF recthit posy rowFuel 0 with
      | none => none
      | some hit => visibleRows boundsF recthit rowFuel fuel (roundToFloat (posy + 1)) (found || hit)
    else some found

/-- `GdipIsVisibleRect` (lines 2375-2412) on `float` arguments that hold
integers; `none` when a loop is still running after `fuel` iterations. -/
def GdipIsVisibleRect (fuel : Nat) (g : GpGraphics) (x y width height : Int) :
    Option (GpStatus × Bool) :=
  if width = 0 ∨ height = 0 then some (GpStatus.Ok, false)
  else
    let boundsF : GpRect :=
      ⟨roundToFloat g.bounds.X, roundToFloat g.bounds.Y, roundToFloat g.bounds.Width,
        roundToFloat g.bounds.Height⟩
    let recthit : GpRect := ⟨x, y, width, height⟩
    (visibleRows boundsF recthit fuel fuel 0 false).map fun found => (GpStatus.Ok, found)

/-- `GdipIsVisibleRectI` (lines 2414-2418): the four `INT` arguments are
converted to `float`. -/
def GdipIsVisibleRectI (fuel : Nat) (g : GpGraphics) (x y width height : Int) :
    Option (GpStatus × Bool) :=
  GdipIsVisibleRect fuel g (roundToFloat x) (roundToFloat y) (roundToFloat width)
    (roundToFloat height)

/-! ## Views of the context used by the statements -/

/-- Fields that no transform, clip or hint mutator writes: the snapshot array,
the snapshot count, the validity flag, the identity and the backend kind. -/
def stackView (g : GpGraphics) : Option (Nat → GpState) × Nat × GraphicsState × Nat × GraphicsBackEnd :=
  (g.saved_status, g.saved_status_pos, g.state, g.self, g.backend)

/-- The device bounds computed by `apply_world_to_bounds`. -/
def boundsAfter (g : GpGraphics) : GpRect := (apply_world_to_bounds g).2.bounds

/-- The effects recorded in the context that an operation returns. -/
def effectsOf (r : GpStatus × GpGraphics) : List Effect := r.2.effects

/-- The value that `GdipSetSmoothingMode` stores for an accepted mode. -/
def storedSmoothing (mode : Int) : Int :=
  if mode = SmoothingModeDefault ∨ mode = SmoothingModeHighSpeed then SmoothingModeNone
  else if mode = SmoothingModeHighQuality then SmoothingModeAntiAlias
  else mode

/-- The snapshot count as `GdipSaveGraphics` sees it: 0 while the array is
not allocated. -/
def savedPos (g : GpGraphics) : Nat :=
  match g.saved_status with
  | none => 0
  | some _ => g.saved_status_pos

/-- The part of a context that a snapshot captures. -/
def GpGraphics.saved (g : GpGraphics) : GpState :=
  { matrix := g.copy_of_ctm, previous_matrix := g.previous_matrix, clip := some g.clip,
    clip_matrix := g.clip_matrix, composite_mode := g.composite_mode,
    composite_quality := g.composite_quality, interpolation := g.interpolation,
    page_unit := g.page_unit, scale := g.scale, draw_mode := g.draw_mode,
    text_mode := g.text_mode, pixel_mode := g.pixel_mode, org_x := g.render_origin_x,
    org_y := g.render_origin_y, text_contrast := g.text_contrast }

/-- Fields that a hint mutator cannot write while the context is Busy. -/
def busyView (g : GpGraphics) : Int × Int × Int :=
  (g.render_origin_x, g.render_origin_y, g.draw_mode)

/-- A Busy context: the fresh context after `GdipGetDC`. -/
def busyCairo : GpGraphics := (GdipGetDC freshCairo).2.2

/-- A fresh context on the deferred backend. -/
def freshMetafile : GpGraphics := gdip_metafile_graphics_new acceptAll rawBlock

/-- A concrete run: save (token 0, count 1), restore token 0 (count 0, the
token is consumed), set the text contrast to 9, restore token 0 again. -/
def staleTokenRun : Option (GpStatus × GpGraphics) :=
  (GdipRestoreGraphics acceptAll (GdipSaveGraphics freshCairo).2.2 0).bind fun r =>
    GdipRestoreGraphics acceptAll (GdipSetTextContrast acceptAll r.2 9).2 0

/-- A Valid context whose effective transform is the translation by (3, 4). -/
def translatedCairo : GpGraphics :=
  (GdipTranslateWorldTransform acceptAll freshCairo 3 4 GpMatrixOrder.Prepend).2

/-- A context with device bounds (0, 0, 50, 50) whose clip is the rectangle
(100, 100, 10, 10), outside the device bounds. -/
def clippedOutside : GpGraphics :=
  (GdipSetClipRect acceptAll (GdipSetVisibleClip_linux freshCairo ⟨0, 0, 50, 50⟩).2
    100 100 10 10 CombineMode.Replace).2

/-- The snapshot count does not exceed the capacity of the array, and it is 0
while the array is not allocated. -/
def CountWithinArray (g : GpGraphics) : Prop :=
  g.saved_status_pos ≤ MAX_GRAPHICS_STATE_STACK ∧ (g.saved_status = none → g.saved_status_pos = 0)

/-- The index of the slot of `saved_status` that an operation reads or writes
(`pos_state += graphics->saved_status_pos` at line 533 for a save,
`pos_state += graphicsState` at line 482 for a restore); `none` when the
operation returns before it touches the array, or never touches it. -/
def slotAccess (g : GpGraphics) : Operation → Option Nat
  | Operation.SaveGraphics | Operation.BeginContainer2 =>
    if savedPos g ≥ MAX_GRAPHICS_STATE_STACK then none else some (savedPos g)
  | Operation.RestoreGraphics t | Operation.EndContainer t =>
    if t ≥ MAX_GRAPHICS_STATE_STACK ∨ t > g.saved_status_pos then none else some t
  | _ => none

/-- A Valid context with device bounds (0, 0, 50, 50). -/
def boundedCairo : GpGraphics := (GdipSetVisibleClip_linux freshCairo ⟨0, 0, 50, 50⟩).2

/-- A Valid context whose effective transform is the scaling by (2, 2) and
whose clip-space transform is the scaling by (1/2, 1/2). -/
def scaledCairo : GpGraphics :=
  (GdipScaleWorldTransform acceptAll freshCairo 2 2 GpMatrixOrder.Prepend).2

/-- The result of multiplying the world transform of `scaledCairo` by the
translation by (1, 0), in prepend order. -/
def multipliedCairo : GpStatus × GpGraphics :=
  GdipMultiplyWorldTransform acceptAll scaledCairo (some ⟨1, 0, 0, 1, 1, 0⟩) GpMatrixOrder.Prepend

/-- The result of setting the world transform of `boundedCairo` to the
translation by (10, 10). -/
def setTranslation : GpStatus × GpGraphics :=
  GdipSetWorldTransform acceptAll boundedCairo (some ⟨1, 0, 0, 1, 10, 10⟩)

/-- A sequence of `GdipTranslateWorldTransform` calls with integer offsets. -/
def translations (ds : List (Int × Int × GpMatrixOrder)) : List Mutation :=
  ds.map fun d => Mutation.TranslateWorldTransform d.1 d.2.1 d.2.2

/-- The image of the integer coordinate `x` under a translation by the
integer `a`, as `apply_world_to_bounds` obtains it: `x` is converted to
`float`, and the sum is stored in a `float`. -/
def floatShift (x a : Int) : Int := roundToFloat (roundToFloat x + a)

/-- The re-projection of the rectangle `r` through the translation by the
integers `(a, b)`, written with integer operations only. -/
def reprojectShift (a b : Int) (r : GpRect) : GpRect :=
  let x0 := floatShift r.X a
  let x1 := floatShift (wrapInt (r.X + r.Width)) a
  let y0 := floatShift r.Y b
  let y1 := floatShift (wrapInt (r.Y + r.Height)) b
  ⟨storeInt (min x0 x1), storeInt (min y0 y1),
    storeInt (roundToFloat (max x0 x1 - min x0 x1)),
    storeInt (roundToFloat (max y0 y1 - min y0 y1))⟩

/-- The context `boundedCairo` after a translation of the world by
(-1000000000, 0). -/
def farCairo : GpGraphics :=
  (GdipTranslateWorldTransform acceptAll boundedCairo ((-1000000000 : Int) : ℚ) ((0 : Int) : ℚ)
    GpMatrixOrder.Prepend).2

/-- The context `farCairo` with the device bounds (1000000000, 0, 50, 50). -/
def farBounded : GpGraphics := (GdipSetVisibleClip_linux farCairo ⟨1000000000, 0, 50, 50⟩).2

/-- A backend that rejects every call with GenericError. -/
def failingBackend : Env :=
  { backend := fun _ _ => GpStatus.GenericError
    rotation := fun _ => GpMatrix.identity
    combineBounds := fun _ _ _ => ⟨0, 0, 0, 0⟩
    combineInfinite := fun _ _ _ => false }

/-- Two translations by (1, 0) followed by a reset, on `boundedCairo`. -/
def translateTwiceReset : GpGraphics :=
  (GdipResetWorldTransform acceptAll
    (runMutations acceptAll boundedCairo
      (translations [(1, 0, GpMatrixOrder.Prepend), (1, 0, GpMatrixOrder.Prepend)]))).2

/-- A concrete sequence of operations: save, translate, draw a line, restore
the token 0, take and release the device-context handle. -/
def sampleOperations : List Operation :=
  [Operation.SaveGraphics,
    Operation.Mutate (Mutation.TranslateWorldTransform 1 2 GpMatrixOrder.Prepend),
    Operation.DrawLine (some 1) 0 0 5 5,
    Operation.RestoreGraphics 0,
    Operation.GetDC,
    Operation.ReleaseDC (some 1)]

/-- The context after `sampleOperations` on a fresh context of the immediate
backend. -/
def sampleRun : GpGraphics :=
  (runOperations acceptAll freshCairo sampleOperations).getD freshCairo

/-- The number of units `u` in one inch for each of the eight units that
`gdip_unit_conversion` has a `case` for (1 for any other value). -/
def unitsPerInch (u : Int) (dpi : ℚ) (type : GraphicsType) : ℚ :=
  if u = UnitDocument then 300
  else if u = UnitInch then 1
  else if u = UnitMillimeter then 127 / 5
  else if u = UnitDisplay then (if type = GraphicsType.gtPostScript then 100 else dpi)
  else if u = UnitPixel ∨ u = UnitWorld then dpi
  else if u = UnitPoint then 72
  else if u = UnitCairoPoint then (if type = GraphicsType.gtPostScript then 72 else dpi)
  else 1

/-- The width of the intersection of the clip bounds with the device bounds
(negative when they are apart). -/
def overlapWidth (clip : GpRectF) (bounds : GpRect) : ℚ :=
  min (clip.X + clip.Width) ((bounds.X + bounds.Width : Int) : ℚ) - max clip.X bounds.X

/-- The height of the intersection of the clip bounds with the device bounds
(negative when they are apart). -/
def overlapHeight (clip : GpRectF) (bounds : GpRect) : ℚ :=
  min (clip.Y + clip.Height) ((bounds.Y + bounds.Height : Int) : ℚ) - max clip.Y bounds.Y

/-- The rectangle (0, 1000, 16777218, 1), queried on `boundedCairo`. -/
def wideRowQuery (fuel : Nat) : Option (GpStatus × Bool) :=
  GdipIsVisibleRectI fuel boundedCairo 0 1000 16777218 1

/-! ## Supporting lemmas and the verified claims -/

theorem invoke_snd (env : Env) (c : BackendCall) (g : GpGraphics) :
    (invoke env c g).2 = { g with effects := g.effects ++ [Effect.call c] } := rfl

theorem apply_world_to_bounds_snd (g : GpGraphics) :
    (apply_world_to_bounds g).2 = { g with bounds := boundsAfter g } := by
  unfold boundsAfter apply_world_to_bounds
  simp only []
  split <;> rfl

theorem GdipSetRenderingOrigin_snd (env : Env) (g : GpGraphics) (x y : Int) :
    (GdipSetRenderingOrigin env g x y).2 =
      { g with
        render_origin_x := if g.state = GraphicsState.Busy then g.render_origin_x else x
        render_origin_y := if g.state = GraphicsState.Busy then g.render_origin_y else y
        effects := effectsOf (GdipSetRenderingOrigin env g x y) } := by
  unfold effectsOf GdipSetRenderingOrigin
  by_cases h : g.state = GraphicsState.Busy
  · simp only [if_pos h]
  · simp only [if_neg h]
    split <;> rfl

theorem GdipSetSmoothingMode_snd (env : Env) (g : GpGraphics) (mode : Int) :
    (GdipSetSmoothingMode env g mode).2 =
      { g with
        draw_mode :=
          if (mode ≤ SmoothingModeInvalid ∨ mode > SmoothingModeAntiAlias)
              ∨ g.state = GraphicsState.Busy then g.draw_mode
          else storedSmoothing mode
        effects := effectsOf (GdipSetSmoothingMode env g mode) } := by
  unfold effectsOf GdipSetSmoothingMode storedSmoothing
  by_cases h1 : mode ≤ SmoothingModeInvalid ∨ mode > SmoothingModeAntiAlias
  · simp only [if_pos h1, if_pos (Or.inl h1 : _ ∨ g.state = GraphicsState.Busy)]
  · by_cases h : g.state = GraphicsState.Busy
    · simp only [if_neg h1, if_pos h, if_pos (Or.inr h : (mode ≤ SmoothingModeInvalid ∨ mode > SmoothingModeAntiAlias) ∨ _)]
    · have h2 : ¬ ((mode ≤ SmoothingModeInvalid ∨ mode > SmoothingModeAntiAlias)
          ∨ g.state = GraphicsState.Busy) := fun hh => hh.elim h1 h
      simp only [if_neg h1, if_neg h, if_neg h2]
      split <;> rfl

theorem GdipResetClip_snd (env : Env) (g : GpGraphics) :
    (GdipResetClip env g).2 =
      { g with
        clip := if g.state = GraphicsState.Busy then g.clip else GpRegion.infinite
        clip_matrix := if g.state = GraphicsState.Busy then g.clip_matrix else GpMatrix.identity
        effects := effectsOf (GdipResetClip env g) } := by
  unfold effectsOf GdipResetClip
  by_cases h : g.state = GraphicsState.Busy
  · simp only [if_pos h]
  · simp only [if_neg h]
    split <;> rfl

theorem restore_of_slot (env : Env) (g : GpGraphics) (t : Nat) (slots : Nat → GpState)
    (c : GpRegion) (ht : t < MAX_GRAPHICS_STATE_STACK) (hpos : t ≤ g.saved_status_pos)
    (hs : g.saved_status = some slots) (hc : (slots t).clip = some c) :
    ∃ s e, GdipRestoreGraphics env g t = some (s,
      { g with
        copy_of_ctm := (slots t).matrix
        previous_matrix := (slots t).previous_matrix
        render_origin_x := if g.state = GraphicsState.Busy then g.render_origin_x else (slots t).org_x
        render_origin_y := if g.state = GraphicsState.Busy then g.render_origin_y else (slots t).org_y
        clip := c
        clip_matrix := (slots t).clip_matrix
        composite_mode := (slots t).composite_mode
        composite_quality := (slots t).composite_quality
        interpolation := (slots t).interpolation
        page_unit := (slots t).page_unit
        scale := (slots t).scale
        draw_mode :=
          if ((slots t).draw_mode ≤ SmoothingModeInvalid ∨ (slots t).draw_mode > SmoothingModeAntiAlias)
              ∨ g.state = GraphicsState.Busy then g.draw_mode
          else storedSmoothing (slots t).draw_mode
        text_mode := (slots t).text_mode
        pixel_mode := (slots t).pixel_mode
        text_contrast := (slots t).text_contrast
        saved_status_pos := t
        effects := e }) := by
  have hv : ¬ (t ≥ MAX_GRAPHICS_STATE_STACK ∨ t > g.saved_status_pos) := by omega
  unfold GdipRestoreGraphics
  rw [if_neg hv]
  simp only [hs, hc, GdipCloneRegion, gdip_cairo_matrix_copy, GdipSetRenderingOrigin_snd,
    GdipSetSmoothingMode_snd, invoke]
  exact ⟨_, _, rfl⟩

theorem save_ok (g : GpGraphics) (t : Nat) (g1 : GpGraphics)
    (h : GdipSaveGraphics g = (GpStatus.Ok, some t, g1)) :
    t = savedPos g ∧ t < MAX_GRAPHICS_STATE_STACK ∧
    ∃ slots, g1 = { g with saved_status := some slots, saved_status_pos := t + 1 } ∧
      (∀ i, i ≠ t → ∀ old, g.saved_status = some old → slots i = old i) ∧
      (slots t).matrix = g.copy_of_ctm ∧ (slots t).previous_matrix = g.previous_matrix ∧
      (slots t).clip = some g.clip ∧ (slots t).clip_matrix = g.clip_matrix ∧
      (slots t).composite_mode = g.composite_mode ∧
      (slots t).composite_quality = g.composite_quality ∧
      (slots t).interpolation = g.interpolation ∧ (slots t).page_unit = g.page_unit ∧
      (slots t).scale = g.scale ∧ (slots t).draw_mode = g.draw_mode ∧
      (slots t).text_mode = g.text_mode ∧ (slots t).pixel_mode = g.pixel_mode ∧
      (slots t).text_contrast = g.text_contrast ∧
      (g.state = GraphicsState.Valid →
        (slots t).org_x = g.render_origin_x ∧ (slots t).org_y = g.render_origin_y) := by
  unfold GdipSaveGraphics at h
  cases hs : g.saved_status with
  | none =>
    simp only [hs, savedPos] at h ⊢
    split at h
    · simp at h
    · rename_i hlt
      simp only [Prod.mk.injEq, Option.some.injEq] at h
      obtain ⟨-, ht, hg⟩ := h
      subst ht
      refine ⟨rfl, by simp [MAX_GRAPHICS_STATE_STACK], _, hg.symm, ?_⟩
      simp [GdipCloneRegion, gdip_cairo_matrix_copy, GdipGetRenderingOrigin]
      intro hv; simp [hv]
  | some old =>
    simp only [hs, savedPos] at h ⊢
    split at h
    · simp at h
    · rename_i hlt
      simp only [Prod.mk.injEq, Option.some.injEq] at h
      obtain ⟨-, ht, hg⟩ := h
      subst ht
      refine ⟨rfl, by omega, _, hg.symm, ?_⟩
      simp [GdipCloneRegion, gdip_cairo_matrix_copy, GdipGetRenderingOrigin]
      refine ⟨fun i hi => by simp [hi], ?_⟩
      intro hv; simp [hv]

theorem stackView_run (env : Env) (g : GpGraphics) (m : Mutation) :
    stackView (m.run env g).2 = stackView g := by
  cases m <;>
    simp only [Mutation.run, GdipSetWorldTransform, GdipResetWorldTransform,
      GdipMultiplyWorldTransform, GdipRotateWorldTransform, GdipScaleWorldTransform,
      GdipTranslateWorldTransform, GdipSetClipGraphics, GdipSetClipRect, GdipSetClipRectI,
      GdipSetClipPath, GdipSetClipRegion, GdipSetClipHrgn, GdipResetClip, GdipTranslateClip,
      GdipTranslateClipI, GdipSetRenderingOrigin, GdipSetInterpolationMode,
      GdipSetTextRenderingHint, GdipSetPixelOffsetMode, GdipSetTextContrast,
      GdipSetSmoothingMode, GdipSetCompositingMode, GdipSetCompositingQuality,
      GdipSetPageScale, GdipSetPageUnit, apply_world_to_bounds_snd] <;>
    (repeat' split) <;> simp [invoke_snd, stackView]

theorem busyView_run (env : Env) (g : GpGraphics) (m : Mutation)
    (hb : g.state = GraphicsState.Busy) : busyView (m.run env g).2 = busyView g := by
  cases m <;>
    simp only [Mutation.run, GdipSetWorldTransform, GdipResetWorldTransform,
      GdipMultiplyWorldTransform, GdipRotateWorldTransform, GdipScaleWorldTransform,
      GdipTranslateWorldTransform, GdipSetClipGraphics, GdipSetClipRect, GdipSetClipRectI,
      GdipSetClipPath, GdipSetClipRegion, GdipSetClipHrgn, GdipResetClip, GdipTranslateClip,
      GdipTranslateClipI, GdipSetRenderingOrigin, GdipSetInterpolationMode,
      GdipSetTextRenderingHint, GdipSetPixelOffsetMode, GdipSetTextContrast,
      GdipSetSmoothingMode, GdipSetCompositingMode, GdipSetCompositingQuality,
      GdipSetPageScale, GdipSetPageUnit, apply_world_to_bounds_snd, hb] <;>
    (repeat' split) <;> simp_all [invoke_snd, busyView]

theorem stackView_runMutations (env : Env) (ms : List Mutation) (g : GpGraphics) :
    stackView (runMutations env g ms) = stackView g := by
  induction ms generalizing g with
  | nil => rfl
  | cons m ms ih => simp only [runMutations]; rw [ih, stackView_run]

theorem busyView_runMutations (env : Env) (ms : List Mutation) (g : GpGraphics)
    (hb : g.state = GraphicsState.Busy) : busyView (runMutations env g ms) = busyView g := by
  induction ms generalizing g with
  | nil => rfl
  | cons m ms ih =>
    simp only [runMutations]
    have hst : (m.run env g).2.state = GraphicsState.Busy := by
      have := stackView_run env g m
      simp only [stackView, Prod.mk.injEq] at this
      rw [this.2.2.1, hb]
    rw [ih _ hst, busyView_run env g m hb]

theorem storedSmoothing_stored (g : GpGraphics) (h : SmoothingStored g) :
    ¬ (g.draw_mode ≤ SmoothingModeInvalid ∨ g.draw_mode > SmoothingModeAntiAlias) ∧
      storedSmoothing g.draw_mode = g.draw_mode := by
  rcases h with h | h <;> rw [h] <;> decide

/-- C1. Save/restore round trip: when `GdipSaveGraphics` returns token `t`,
any sequence of transform, clip and hint mutators follows, and then
`GdipRestoreGraphics` is called with `t`, the call completes and the
effective transform, the container baseline transform, the clip region, the
clip-space transform, the rendering origin and every scalar hint have their
values from the moment of the save. -/
theorem save_restore_round_trip (env : Env) (g : GpGraphics) (ms : List Mutation) (t : Nat)
    (g1 : GpGraphics) (hmode : SmoothingStored g)
    (hsave : GdipSaveGraphics g = (GpStatus.Ok, some t, g1)) :
    ∃ s g3, GdipRestoreGraphics env (runMutations env g1 ms) t = some (s, g3) ∧
      g3.saved = g.saved := by
  obtain ⟨-, ht, slots, hg1, -, hm, hp, hc, hcm, h1, h2, h3, h4, h5, h6, h7, h8, h9, horg⟩ :=
    save_ok g t g1 hsave
  have hsv := stackView_runMutations env ms g1
  simp only [stackView, Prod.mk.injEq] at hsv
  obtain ⟨hss, hpos, hstate, -, -⟩ := hsv
  have hss1 : g1.saved_status = some slots := by rw [hg1]
  have hpos1 : g1.saved_status_pos = t + 1 := by rw [hg1]
  have hst1 : g1.state = g.state := by rw [hg1]
  obtain ⟨s, e, hr⟩ := restore_of_slot env (runMutations env g1 ms) t slots g.clip ht
    (by rw [hpos, hpos1]; omega) (by rw [hss, hss1]) hc
  refine ⟨s, _, hr, ?_⟩
  obtain ⟨hbad, hsm⟩ := storedSmoothing_stored g hmode
  simp only [GpGraphics.saved, hm, hp, hcm, h1, h2, h3, h4, h5, h6, h7, h8, h9, hstate, hst1]
  cases hv : g.state with
  | Valid =>
    obtain ⟨hx, hy⟩ := horg hv
    simp [hx, hy, hbad, hsm]
  | Busy =>
    have hb := busyView_runMutations env ms g1 (by rw [hst1, hv])
    simp only [busyView, Prod.mk.injEq] at hb
    obtain ⟨bx, by_, bd⟩ := hb
    have e1 : g1.render_origin_x = g.render_origin_x := by rw [hg1]
    have e2 : g1.render_origin_y = g.render_origin_y := by rw [hg1]
    have e3 : g1.draw_mode = g.draw_mode := by rw [hg1]
    simp [bx, by_, bd, e1, e2, e3]

theorem save_succeeds (g : GpGraphics) (h : savedPos g < MAX_GRAPHICS_STATE_STACK) :
    ∃ g1, GdipSaveGraphics g = (GpStatus.Ok, some (savedPos g), g1) ∧
      savedPos g1 = savedPos g + 1 := by
  unfold GdipSaveGraphics
  cases hs : g.saved_status with
  | none =>
    simp only [savedPos, hs] at h ⊢
    rw [if_neg (by simp [MAX_GRAPHICS_STATE_STACK])]
    exact ⟨_, rfl, rfl⟩
  | some old =>
    simp only [savedPos, hs] at h ⊢
    rw [if_neg (by omega)]
    exact ⟨_, rfl, rfl⟩

theorem save_exhausted (g : GpGraphics) (h : savedPos g ≥ MAX_GRAPHICS_STATE_STACK) :
    GdipSaveGraphics g = (GpStatus.OutOfMemory, none, g) := by
  unfold GdipSaveGraphics
  cases hs : g.saved_status with
  | none => simp [savedPos, hs, MAX_GRAPHICS_STATE_STACK] at h
  | some old =>
    simp only [savedPos, hs] at h ⊢
    rw [if_pos h]

theorem saveTimes_spec (n : Nat) (g : GpGraphics)
    (h : savedPos g + n ≤ MAX_GRAPHICS_STATE_STACK) :
    (saveTimes n g).1 = (List.range' (savedPos g) n).map (fun i => (GpStatus.Ok, some i)) ∧
      savedPos (saveTimes n g).2 = savedPos g + n := by
  induction n generalizing g with
  | zero => simp [saveTimes]
  | succ n ih =>
    obtain ⟨g1, hs, hp⟩ := save_succeeds g (by omega)
    obtain ⟨h1, h2⟩ := ih g1 (by omega)
    refine ⟨?_, ?_⟩
    · simp only [saveTimes, hs, h1, hp, List.range'_succ, List.map_cons]
    · simp only [saveTimes, hs, h2, hp]
      omega

theorem saved_status_common_init (env : Env) (raw : GpGraphics) :
    (gdip_graphics_common_init env raw).saved_status = none := by
  simp [gdip_graphics_common_init, gdip_graphics_reset, GdipResetClip_snd,
    GdipSetSmoothingMode_snd]

theorem savedPos_new (env : Env) (raw : GpGraphics) :
    savedPos (gdip_graphics_new env raw) = 0 ∧
      savedPos (gdip_metafile_graphics_new env raw) = 0 := by
  simp [savedPos, gdip_graphics_new, gdip_metafile_graphics_new, saved_status_common_init]

/-- C2. Stack exhaustion: on a fresh context (either constructor), 512
consecutive `GdipSaveGraphics` calls return Ok with the tokens 0, 1, ..., 511
in that order, and the 513th call returns OutOfMemory, writes no token and
leaves the whole context (live fields, snapshot slots, snapshot count)
unchanged. -/
theorem stack_exhaustion (env : Env) (raw g : GpGraphics)
    (hg : g = gdip_graphics_new env raw ∨ g = gdip_metafile_graphics_new env raw) :
    (saveTimes 512 g).1 = (List.range 512).map (fun i => (GpStatus.Ok, some i)) ∧
      GdipSaveGraphics (saveTimes 512 g).2 =
        (GpStatus.OutOfMemory, none, (saveTimes 512 g).2) := by
  have h0 : savedPos g = 0 := by
    rcases hg with h | h <;> rw [h]
    · exact (savedPos_new env raw).1
    · exact (savedPos_new env raw).2
  obtain ⟨h1, h2⟩ := saveTimes_spec 512 g (by rw [h0]; simp [MAX_GRAPHICS_STATE_STACK])
  refine ⟨?_, save_exhausted _ (by rw [h2, h0]; simp [MAX_GRAPHICS_STATE_STACK])⟩
  rw [h1, h0, List.range_eq_range']

theorem stack_exhaustion_witness :
    (freshCairo = gdip_graphics_new acceptAll rawBlock
        ∨ freshCairo = gdip_metafile_graphics_new acceptAll rawBlock) ∧
      (saveTimes 512 freshCairo).1 = (List.range 512).map (fun i => (GpStatus.Ok, some i)) ∧
      GdipSaveGraphics (saveTimes 512 freshCairo).2 =
        (GpStatus.OutOfMemory, none, (saveTimes 512 freshCairo).2) :=
  ⟨Or.inl rfl, stack_exhaustion acceptAll rawBlock freshCairo (Or.inl rfl)⟩

theorem restore_rejects (env : Env) (g : GpGraphics) (token : Nat)
    (h : token ≥ MAX_GRAPHICS_STATE_STACK ∨ token > g.saved_status_pos) :
    GdipRestoreGraphics env g token = some (GpStatus.InvalidParameter, g) := by
  unfold GdipRestoreGraphics
  rw [if_pos h]

/-- C4. Restore token validation: a token that is at least 512 or greater
than the current snapshot count makes `GdipRestoreGraphics` return
InvalidParameter and leave every field of the context unchanged. -/
theorem restore_token_validation (env : Env) (g : GpGraphics) (token : Nat)
    (h : token ≥ MAX_GRAPHICS_STATE_STACK ∨ token > g.saved_status_pos) :
    GdipRestoreGraphics env g token = some (GpStatus.InvalidParameter, g) :=
  restore_rejects env g token h

theorem restore_token_validation_witness :
    (1 ≥ MAX_GRAPHICS_STATE_STACK ∨ 1 > freshCairo.saved_status_pos) ∧
      GdipRestoreGraphics acceptAll freshCairo 1 = some (GpStatus.InvalidParameter, freshCairo) :=
  ⟨Or.inr (by decide), restore_token_validation acceptAll freshCairo 1 (Or.inr (by decide))⟩

theorem save_restore_round_trip_witness :
    SmoothingStored freshCairo ∧
      GdipSaveGraphics freshCairo = (GpStatus.Ok, some 0, (GdipSaveGraphics freshCairo).2.2) ∧
      ∃ s g3,
        GdipRestoreGraphics acceptAll
            (runMutations acceptAll (GdipSaveGraphics freshCairo).2.2
              [Mutation.TranslateWorldTransform 3 4 GpMatrixOrder.Prepend,
                Mutation.SetTextContrast 7, Mutation.SetSmoothingMode 2]) 0 = some (s, g3) ∧
          g3.saved = freshCairo.saved :=
  ⟨Or.inl rfl, rfl,
    save_restore_round_trip acceptAll freshCairo
      [Mutation.TranslateWorldTransform 3 4 GpMatrixOrder.Prepend,
        Mutation.SetTextContrast 7, Mutation.SetSmoothingMode 2] 0 _ (Or.inl rfl) rfl⟩

/-- C5 (code defect). The token equal to the snapshot count is accepted. On a
fresh context, where no save was ever made, token 0 passes the validation
and the call reads the slot through the null array pointer (no defined
result, in particular not InvalidParameter). After save, restore(0), a
change of the text contrast to 9 and a second restore(0), the second restore
of the consumed token returns Ok, reads slot 0 and sets the text contrast
back to 4. -/
theorem restore_accepts_unissued_token :
    GdipRestoreGraphics acceptAll freshCairo 0 = none ∧
      freshCairo.saved_status_pos = 0 ∧
      staleTokenRun.map (fun r => (r.1, r.2.text_contrast, r.2.saved_status_pos)) =
        some (GpStatus.Ok, 4, 0) := by
  refine ⟨rfl, rfl, rfl⟩

/-- C7. Exclusive-handle state machine: `GdipGetDC` on a Valid context returns
Ok, yields the context identity as handle and makes the context Busy; on a
Busy context it returns ObjectBusy and changes nothing. `GdipReleaseDC`
returns Ok exactly when the context is Busy and the handle is that context,
and then makes it Valid; in every other case it returns InvalidParameter
and changes nothing. -/
theorem exclusive_handle_state_machine (g : GpGraphics) (hdc : Option Nat) :
    (g.state = GraphicsState.Valid →
        GdipGetDC g = (GpStatus.Ok, some g.self, { g with state := GraphicsState.Busy })) ∧
      (g.state = GraphicsState.Busy → GdipGetDC g = (GpStatus.ObjectBusy, none, g)) ∧
      ((GdipReleaseDC g hdc).1 = GpStatus.Ok ↔
        (g.state = GraphicsState.Busy ∧ hdc = some g.self)) ∧
      (g.state = GraphicsState.Busy ∧ hdc = some g.self →
        GdipReleaseDC g hdc = (GpStatus.Ok, { g with state := GraphicsState.Valid })) ∧
      (¬ (g.state = GraphicsState.Busy ∧ hdc = some g.self) →
        GdipReleaseDC g hdc = (GpStatus.InvalidParameter, g)) := by
  refine ⟨?_, ?_, ?_, ?_, ?_⟩
  · intro h; simp [GdipGetDC, h]
  · intro h; simp [GdipGetDC, h]
  · unfold GdipReleaseDC
    cases hdc with
    | none => simp
    | some a =>
      by_cases hb : g.state = GraphicsState.Busy <;> by_cases ha : a = g.self <;>
        simp [hb, ha]
  · rintro ⟨hb, rfl⟩; simp [GdipReleaseDC, hb]
  · intro hn
    unfold GdipReleaseDC
    cases hdc with
    | none => rfl
    | some a =>
      by_cases hb : g.state = GraphicsState.Busy <;> by_cases ha : a = g.self <;>
        simp_all

theorem exclusive_handle_state_machine_witness :
    GdipGetDC freshCairo =
        (GpStatus.Ok, some freshCairo.self, { freshCairo with state := GraphicsState.Busy }) ∧
      GdipGetDC busyCairo = (GpStatus.ObjectBusy, none, busyCairo) ∧
      GdipReleaseDC busyCairo (some 1) =
        (GpStatus.Ok, { busyCairo with state := GraphicsState.Valid }) ∧
      GdipReleaseDC busyCairo (some 2) = (GpStatus.InvalidParameter, busyCairo) :=
  ⟨(exclusive_handle_state_machine freshCairo none).1 rfl,
    (exclusive_handle_state_machine busyCairo none).2.1 rfl,
    (exclusive_handle_state_machine busyCairo (some 1)).2.2.2.1 ⟨rfl, rfl⟩,
    (exclusive_handle_state_machine busyCairo (some 2)).2.2.2.2 (by decide)⟩

theorem matrix_mul_inverse (m : GpMatrix) (h : m.det ≠ 0) :
    cairo_matrix_multiply m (cairo_matrix_invert m).2 = GpMatrix.identity := by
  unfold cairo_matrix_invert
  rw [if_neg h]
  have h2 : m.xx * m.yy - m.yx * m.xy ≠ 0 := h
  simp only [cairo_matrix_multiply, GpMatrix.identity, GpMatrix.det, GpMatrix.mk.injEq]
  refine ⟨?_, ?_, ?_, ?_, ?_, ?_⟩ <;> field_simp <;> ring

theorem gdip_graphics_reset_stack (env : Env) (g : GpGraphics) :
    stackView (gdip_graphics_reset env g) = stackView g := by
  simp [gdip_graphics_reset, GdipResetClip_snd, GdipSetSmoothingMode_snd, stackView]

theorem begin_ok (env : Env) (g : GpGraphics) (t : Nat) (g1 : GpGraphics)
    (h : GdipBeginContainer2 env g = (GpStatus.Ok, some t, g1)) :
    ∃ gs, GdipSaveGraphics g = (GpStatus.Ok, some t, gs) ∧
      stackView g1 = stackView gs ∧ g1.copy_of_ctm = g.copy_of_ctm ∧
      g1.previous_matrix = g.copy_of_ctm := by
  unfold GdipBeginContainer2 at h
  by_cases hs : (GdipSaveGraphics g).1 = GpStatus.Ok
  · simp only [hs, if_true, Prod.mk.injEq, true_and] at h
    obtain ⟨ht, hg1⟩ := h
    refine ⟨(GdipSaveGraphics g).2.2, ?_, ?_, ?_, ?_⟩
    · rw [← hs, ← ht]
    · rw [← hg1, ← gdip_graphics_reset_stack env (GdipSaveGraphics g).2.2]
      rfl
    · have hsave : GdipSaveGraphics g = (GpStatus.Ok, some t, (GdipSaveGraphics g).2.2) := by
        rw [← hs, ← ht]
      obtain ⟨-, -, slots, hgs, -⟩ := save_ok g t _ hsave
      rw [← hg1]
      simp only [gdip_graphics_reset, GdipResetClip_snd, GdipSetSmoothingMode_snd,
        gdip_cairo_matrix_copy]
      rw [hgs]
    · have hsave : GdipSaveGraphics g = (GpStatus.Ok, some t, (GdipSaveGraphics g).2.2) := by
        rw [← hs, ← ht]
      obtain ⟨-, -, slots, hgs, -⟩ := save_ok g t _ hsave
      rw [← hg1]
      simp only [gdip_graphics_reset, GdipResetClip_snd, GdipSetSmoothingMode_snd,
        gdip_cairo_matrix_copy]
      rw [hgs]
  · rw [if_neg hs] at h
    rw [h] at hs
    exact absurd rfl hs

/-- C9. Container hiding on entry: on a Valid context whose effective
transform is invertible, right after a successful `GdipBeginContainer2` the
matrix reported by `GdipGetWorldTransform` is the identity and the call
returns Ok (exact arithmetic). -/
theorem container_hides_on_entry (env : Env) (g : GpGraphics) (t : Nat) (g1 : GpGraphics)
    (m0 : GpMatrix) (hv : g.state = GraphicsState.Valid) (hinv : g.copy_of_ctm.det ≠ 0)
    (hb : GdipBeginContainer2 env g = (GpStatus.Ok, some t, g1)) :
    GdipGetWorldTransform g1 m0 = (GpStatus.Ok, GpMatrix.identity) := by
  obtain ⟨gs, hsave, hsv, hctm, hprev⟩ := begin_ok env g t g1 hb
  obtain ⟨-, -, slots, hgs, -⟩ := save_ok g t gs hsave
  have hst : g1.state = GraphicsState.Valid := by
    simp only [stackView, Prod.mk.injEq] at hsv
    rw [hsv.2.2.1, hgs]; exact hv
  unfold GdipGetWorldTransform
  simp only [hst, hctm, hprev, gdip_cairo_matrix_copy, GdipMultiplyMatrix]
  by_cases hid : g.copy_of_ctm = GpMatrix.identity
  · simp [gdip_is_matrix_empty, hid]
  · simp [gdip_is_matrix_empty, hid, matrix_mul_inverse _ hinv]

/-- C10. Container exit restores: when `GdipBeginContainer2` returns token `t`,
any sequence of transform, clip and hint mutators follows and
`GdipEndContainer` is called with `t`, the call completes and the effective
transform, the container baseline transform and the result of
`GdipGetWorldTransform` are what they were before `GdipBeginContainer2`.
This holds for every context, in particular for every Valid one. -/
theorem container_exit_restores (env : Env) (g : GpGraphics) (ms : List Mutation) (t : Nat)
    (g1 : GpGraphics) (hb : GdipBeginContainer2 env g = (GpStatus.Ok, some t, g1)) :
    ∃ s g3, GdipEndContainer env (runMutations env g1 ms) t = some (s, g3) ∧
      g3.copy_of_ctm = g.copy_of_ctm ∧ g3.previous_matrix = g.previous_matrix ∧
      ∀ m0, GdipGetWorldTransform g3 m0 = GdipGetWorldTransform g m0 := by
  obtain ⟨gs, hsave, hsv1, -, -⟩ := begin_ok env g t g1 hb
  obtain ⟨-, ht, slots, hgs, -, hm, hp, hc, -⟩ := save_ok g t gs hsave
  have hsv := stackView_runMutations env ms g1
  rw [hsv1] at hsv
  simp only [stackView, Prod.mk.injEq] at hsv
  obtain ⟨hss, hpos, hstate, -, -⟩ := hsv
  have hss1 : gs.saved_status = some slots := by rw [hgs]
  have hpos1 : gs.saved_status_pos = t + 1 := by rw [hgs]
  have hst1 : gs.state = g.state := by rw [hgs]
  obtain ⟨s, e, hr⟩ := restore_of_slot env (runMutations env g1 ms) t slots g.clip ht
    (by rw [hpos, hpos1]; omega) (by rw [hss, hss1]) hc
  refine ⟨s, _, hr, ?_, ?_, ?_⟩
  · exact hm
  · exact hp
  · intro m0
    simp only [GdipGetWorldTransform, hm, hp, hstate, hst1]
theorem translatedCairo_ctm : translatedCairo.copy_of_ctm = ⟨1, 0, 0, 1, 3, 4⟩ := by
  simp [translatedCairo, GdipTranslateWorldTransform, GdipTranslateMatrix, GdipMultiplyMatrix,
    apply_world_to_bounds_snd, invoke_snd, freshCairo, gdip_graphics_new,
    gdip_graphics_common_init, gdip_graphics_reset, GdipResetClip_snd,
    GdipSetSmoothingMode_snd, cairo_matrix_multiply, GpMatrix.identity,
    gdip_matrix_reverse_order, invoke]

theorem container_hides_on_entry_witness :
    translatedCairo.state = GraphicsState.Valid ∧ translatedCairo.copy_of_ctm.det ≠ 0 ∧
      translatedCairo.copy_of_ctm ≠ GpMatrix.identity ∧
      GdipBeginContainer2 acceptAll translatedCairo =
        (GpStatus.Ok, some 0, (GdipBeginContainer2 acceptAll translatedCairo).2.2) ∧
      GdipGetWorldTransform (GdipBeginContainer2 acceptAll translatedCairo).2.2 GpMatrix.zero =
        (GpStatus.Ok, GpMatrix.identity) :=
  ⟨rfl, by rw [translatedCairo_ctm]; norm_num [GpMatrix.det],
    by rw [translatedCairo_ctm]; simp [GpMatrix.identity], rfl,
    container_hides_on_entry acceptAll translatedCairo 0 _ GpMatrix.zero rfl
      (by rw [translatedCairo_ctm]; norm_num [GpMatrix.det]) rfl⟩

theorem container_exit_restores_witness :
    GdipBeginContainer2 acceptAll translatedCairo =
        (GpStatus.Ok, some 0, (GdipBeginContainer2 acceptAll translatedCairo).2.2) ∧
      ∃ s g3,
        GdipEndContainer acceptAll
            (runMutations acceptAll (GdipBeginContainer2 acceptAll translatedCairo).2.2
              [Mutation.ScaleWorldTransform 2 5 GpMatrixOrder.Append, Mutation.SetPageUnit 2]) 0 =
          some (s, g3) ∧
        g3.copy_of_ctm = translatedCairo.copy_of_ctm ∧
        g3.previous_matrix = translatedCairo.previous_matrix ∧
        ∀ m0, GdipGetWorldTransform g3 m0 = GdipGetWorldTransform translatedCairo m0 :=
  ⟨rfl,
    container_exit_restores acceptAll translatedCairo
      [Mutation.ScaleWorldTransform 2 5 GpMatrixOrder.Append, Mutation.SetPageUnit 2] 0 _ rfl⟩
theorem singular_not_identity (m : GpMatrix) (h : (GdipIsMatrixInvertible (some m)).2 = false) :
    gdip_is_matrix_empty m = false ∧ m.det = 0 := by
  have hd : m.det = 0 := by
    simpa [GdipIsMatrixInvertible] using h
  refine ⟨?_, hd⟩
  simp only [gdip_is_matrix_empty, decide_eq_false_iff_not]
  intro hid
  rw [hid] at hd
  norm_num [GpMatrix.det, GpMatrix.identity] at hd

/-- C8 (as stated, refuted). On a Busy context `GdipSetWorldTransform` with the
singular all-zero matrix returns ObjectBusy, not InvalidParameter. -/
theorem invertibility_guard_busy_counterexample :
    busyCairo.state = GraphicsState.Busy ∧
      (GdipIsMatrixInvertible (some GpMatrix.zero)).2 = false ∧
      GdipSetWorldTransform acceptAll busyCairo (some GpMatrix.zero) =
        (GpStatus.ObjectBusy, busyCairo) ∧
      (GdipSetWorldTransform acceptAll busyCairo (some GpMatrix.zero)).1 ≠
        GpStatus.InvalidParameter := by
  refine ⟨rfl, ?_, rfl, ?_⟩
  · simp [GdipIsMatrixInvertible, GpMatrix.det, GpMatrix.zero]
  · have h : GdipSetWorldTransform acceptAll busyCairo (some GpMatrix.zero) =
        (GpStatus.ObjectBusy, busyCairo) := rfl
    rw [h]
    decide

/-- C8 (amended). Invertibility guard: with a non-invertible matrix,
`GdipMultiplyWorldTransform` returns InvalidParameter on every context and
`GdipSetWorldTransform` returns InvalidParameter on every Valid context
(ObjectBusy on a Busy one); `GdipScaleWorldTransform` with sx = 0 or sy = 0
returns InvalidParameter on every context. In each of these calls the whole
context, hence the effective transform, the clip-space transform, the clip
region and the device bounds, is unchanged. -/
theorem invertibility_guard (env : Env) (g : GpGraphics) (m : GpMatrix)
    (order : GpMatrixOrder) (sx sy : ℚ)
    (hm : (GdipIsMatrixInvertible (some m)).2 = false) (hs : sx = 0 ∨ sy = 0) :
    GdipMultiplyWorldTransform env g (some m) order = (GpStatus.InvalidParameter, g) ∧
      GdipSetWorldTransform env g (some m) =
        (if g.state = GraphicsState.Busy then GpStatus.ObjectBusy
          else GpStatus.InvalidParameter, g) ∧
      GdipScaleWorldTransform env g sx sy order = (GpStatus.InvalidParameter, g) := by
  obtain ⟨hne, -⟩ := singular_not_identity m hm
  refine ⟨?_, ?_, ?_⟩
  · unfold GdipMultiplyWorldTransform
    simp [hm]
  · unfold GdipSetWorldTransform
    by_cases hb : g.state = GraphicsState.Busy
    · simp [hb]
    · simp [hb, hne, hm]
  · unfold GdipScaleWorldTransform
    rw [if_pos hs]

theorem invertibility_guard_witness :
    ((GdipIsMatrixInvertible (some GpMatrix.zero)).2 = false ∧ ((0 : ℚ) = 0 ∨ (5 : ℚ) = 0)) ∧
      GdipMultiplyWorldTransform acceptAll translatedCairo (some GpMatrix.zero)
          GpMatrixOrder.Prepend = (GpStatus.InvalidParameter, translatedCairo) ∧
      GdipSetWorldTransform acceptAll translatedCairo (some GpMatrix.zero) =
        (if translatedCairo.state = GraphicsState.Busy then GpStatus.ObjectBusy
          else GpStatus.InvalidParameter, translatedCairo) ∧
      GdipScaleWorldTransform acceptAll translatedCairo 0 5 GpMatrixOrder.Prepend =
        (GpStatus.InvalidParameter, translatedCairo) :=
  ⟨⟨by simp [GdipIsMatrixInvertible, GpMatrix.det, GpMatrix.zero], Or.inl rfl⟩,
    invertibility_guard acceptAll translatedCairo GpMatrix.zero GpMatrixOrder.Prepend 0 5
      (by simp [GdipIsMatrixInvertible, GpMatrix.det, GpMatrix.zero]) (Or.inl rfl)⟩

theorem GdipMultiplyMatrix_fst (a b : GpMatrix) (o : GpMatrixOrder) :
    (GdipMultiplyMatrix a b o).1 = GpStatus.Ok := by
  cases o <;> rfl

/-- C3. Busy exclusion holds only where the state flag is tested. On a Busy
context `GdipSetWorldTransform`, `GdipRotateWorldTransform`, `GdipSetClipRect`,
`GdipSetClipRegion`, `GdipResetClip` and `GdipTranslateClip` return ObjectBusy
and change nothing, and after `GdipReleaseDC` with the handle of the context
the identical calls return Ok (on a backend that accepts every call; for
`GdipSetWorldTransform` with an invertible matrix). Their siblings have no
such test: on the same Busy context `GdipTranslateWorldTransform`,
`GdipResetWorldTransform`, `GdipDrawLine`, `GdipDrawArc` and
`GdipFillRectangle` return Ok where the claim says ObjectBusy. On the fresh
context after `GdipGetDC`, a save, a translation by (1, 1) and a line all
return Ok, while a rotation returns ObjectBusy. -/
theorem busy_exclusion_gaps (env : Env) (g : GpGraphics) (m : GpMatrix) (angle : ℚ)
    (order : GpMatrixOrder) (x y w h dx dy : ℚ) (mode : CombineMode) (r : GpRegion)
    (pen : Nat) (hbusy : g.state = GraphicsState.Busy)
    (hbe : ∀ c x, env.backend c x = GpStatus.Ok) (hk : g.backend ≠ GraphicsBackEnd.Unknown)
    (hm : m.det ≠ 0) :
    (GdipSetWorldTransform env g (some m) = (GpStatus.ObjectBusy, g) ∧
        GdipRotateWorldTransform env g angle order = (GpStatus.ObjectBusy, g) ∧
        GdipSetClipRect env g x y w h mode = (GpStatus.ObjectBusy, g) ∧
        GdipSetClipRegion env g (some r) mode = (GpStatus.ObjectBusy, g) ∧
        GdipResetClip env g = (GpStatus.ObjectBusy, g) ∧
        GdipTranslateClip env g dx dy = (GpStatus.ObjectBusy, g)) ∧
      (GdipReleaseDC g (some g.self) = (GpStatus.Ok, { g with state := GraphicsState.Valid }) ∧
        (GdipSetWorldTransform env { g with state := GraphicsState.Valid } (some m)).1 =
          GpStatus.Ok ∧
        (GdipRotateWorldTransform env { g with state := GraphicsState.Valid } angle order).1 =
          GpStatus.Ok ∧
        (GdipSetClipRect env { g with state := GraphicsState.Valid } x y w h mode).1 =
          GpStatus.Ok ∧
        (GdipSetClipRegion env { g with state := GraphicsState.Valid } (some r) mode).1 =
          GpStatus.Ok ∧
        (GdipResetClip env { g with state := GraphicsState.Valid }).1 = GpStatus.Ok ∧
        (GdipTranslateClip env { g with state := GraphicsState.Valid } dx dy).1 =
          GpStatus.Ok) ∧
      ((GdipTranslateWorldTransform env g dx dy order).1 = GpStatus.Ok ∧
        (GdipResetWorldTransform env g).1 = GpStatus.Ok ∧
        (GdipDrawLine env g (some pen) x y w h).1 = GpStatus.Ok ∧
        (GdipDrawArc env g (some pen) x y w h dx dy).1 = GpStatus.Ok ∧
        (GdipFillRectangle env g (some pen) x y w h).1 = GpStatus.Ok) ∧
      (busyCairo.state = GraphicsState.Busy ∧
        (GdipSaveGraphics busyCairo).1 = GpStatus.Ok ∧
        (GdipTranslateWorldTransform acceptAll busyCairo 1 1 GpMatrixOrder.Prepend).1 =
          GpStatus.Ok ∧
        (GdipDrawLine acceptAll busyCairo (some 1) 0 0 1 1).1 = GpStatus.Ok ∧
        (GdipRotateWorldTransform acceptAll busyCairo 0 GpMatrixOrder.Prepend).1 =
          GpStatus.ObjectBusy) := by
  refine ⟨⟨?_, ?_, ?_, ?_, ?_, ?_⟩, ⟨?_, ?_, ?_, ?_, ?_, ?_, ?_⟩, ⟨?_, ?_, ?_, ?_, ?_⟩,
    ⟨rfl, rfl, rfl, rfl, rfl⟩⟩
  · simp [GdipSetWorldTransform, hbusy]
  · simp [GdipRotateWorldTransform, hbusy]
  · simp [GdipSetClipRect, hbusy]
  · simp [GdipSetClipRegion, hbusy]
  · simp [GdipResetClip, hbusy]
  · simp [GdipTranslateClip, hbusy]
  · simp [GdipReleaseDC, hbusy]
  · unfold GdipSetWorldTransform GdipResetWorldTransform
    cases hb : g.backend <;> simp_all [invoke, GdipIsMatrixInvertible, apply_world_to_bounds_snd] <;>
      split <;> simp
  · unfold GdipRotateWorldTransform
    cases hb : g.backend <;>
      simp_all [invoke, GdipRotateMatrix, GdipMultiplyMatrix, apply_world_to_bounds_snd] <;>
      cases order <;> simp [gdip_matrix_reverse_order]
  · unfold GdipSetClipRect
    cases hb : g.backend <;> cases mode <;>
      simp_all [invoke, GdipCreateRegionRect, GdipCombineRegionRegion]
  · unfold GdipSetClipRegion
    cases hb : g.backend <;> cases mode <;>
      simp_all [invoke, GdipCombineRegionRegion]
  · unfold GdipResetClip
    cases hb : g.backend <;> simp_all [invoke]
  · unfold GdipTranslateClip
    cases hb : g.backend <;> simp_all [invoke, GdipTranslateRegion]
  · unfold GdipTranslateWorldTransform
    cases hb : g.backend <;>
      simp_all [invoke, GdipTranslateMatrix, GdipMultiplyMatrix_fst, apply_world_to_bounds_snd]
  · unfold GdipResetWorldTransform
    cases hb : g.backend <;> simp_all [invoke, apply_world_to_bounds_snd]
  · unfold GdipDrawLine
    cases hb : g.backend <;> simp_all [invoke]
  · unfold GdipDrawArc
    cases hb : g.backend <;> simp_all [invoke]
  · unfold GdipFillRectangle
    cases hb : g.backend <;> simp_all [invoke] <;> split <;> rfl
theorem busy_exclusion_gaps_witness :
    (busyCairo.state = GraphicsState.Busy ∧
        (∀ c x, acceptAll.backend c x = GpStatus.Ok) ∧
        busyCairo.backend ≠ GraphicsBackEnd.Unknown ∧ GpMatrix.identity.det ≠ 0) ∧
      GdipSetWorldTransform acceptAll busyCairo (some GpMatrix.identity) =
        (GpStatus.ObjectBusy, busyCairo) ∧
      GdipReleaseDC busyCairo (some busyCairo.self) =
        (GpStatus.Ok, { busyCairo with state := GraphicsState.Valid }) ∧
      (GdipSetWorldTransform acceptAll { busyCairo with state := GraphicsState.Valid }
          (some GpMatrix.identity)).1 = GpStatus.Ok ∧
      (GdipTranslateWorldTransform acceptAll busyCairo 0 0 GpMatrixOrder.Prepend).1 =
        GpStatus.Ok :=
  have hd : GpMatrix.identity.det ≠ 0 := by norm_num [GpMatrix.det, GpMatrix.identity]
  have hk : busyCairo.backend ≠ GraphicsBackEnd.Unknown := by decide
  have w := busy_exclusion_gaps acceptAll busyCairo GpMatrix.identity 0
    GpMatrixOrder.Prepend 0 0 1 1 0 0 CombineMode.Replace GpRegion.infinite 1 rfl
    (fun _ _ => rfl) hk hd
  ⟨⟨rfl, fun _ _ => rfl, hk, hd⟩, w.1.1, w.2.1.1, w.2.1.2.1, w.2.2.1.1⟩

theorem storedSmoothing_range (mode : Int)
    (h : ¬ (mode ≤ SmoothingModeInvalid ∨ mode > SmoothingModeAntiAlias)) :
    storedSmoothing mode = SmoothingModeNone ∨ storedSmoothing mode = SmoothingModeAntiAlias := by
  simp only [storedSmoothing, SmoothingModeInvalid, SmoothingModeAntiAlias, SmoothingModeNone,
    SmoothingModeDefault, SmoothingModeHighSpeed, SmoothingModeHighQuality] at h ⊢
  split
  · exact Or.inl rfl
  · split
    · exact Or.inr rfl
    · omega

theorem SmoothingStored_set (env : Env) (g : GpGraphics) (mode : Int) (h : SmoothingStored g) :
    SmoothingStored (GdipSetSmoothingMode env g mode).2 := by
  rw [GdipSetSmoothingMode_snd]
  unfold SmoothingStored
  simp only []
  split
  · exact h
  · rename_i hn
    exact storedSmoothing_range mode (fun hh => hn (Or.inl hh))

/-- The invariant behind the hypothesis of the round-trip theorem: the stored
smoothing mode of a new context is `None`, and every transform, clip and hint
mutator, `GdipSaveGraphics`, `GdipRestoreGraphics`, `GdipBeginContainer2`,
`GdipGetDC` and `GdipReleaseDC` keep it one of `None` and `AntiAlias`. -/
theorem SmoothingStored_invariant (env : Env) (raw g : GpGraphics) (h : SmoothingStored g) :
    SmoothingStored (gdip_graphics_new env raw) ∧
      SmoothingStored (gdip_metafile_graphics_new env raw) ∧
      (∀ m : Mutation, SmoothingStored (m.run env g).2) ∧
      SmoothingStored (GdipSaveGraphics g).2.2 ∧
      (∀ t s g1, GdipRestoreGraphics env g t = some (s, g1) → SmoothingStored g1) ∧
      SmoothingStored (GdipBeginContainer2 env g).2.2 ∧
      SmoothingStored (GdipGetDC g).2.2 ∧
      ∀ hdc, SmoothingStored (GdipReleaseDC g hdc).2 := by
  have hreset : ∀ x : GpGraphics, x.state = GraphicsState.Valid ∨ SmoothingStored x →
      SmoothingStored (gdip_graphics_reset env x) := by
    intro x hx
    simp only [gdip_graphics_reset, GdipSetSmoothingMode_snd, GdipResetClip_snd, SmoothingStored]
    rcases hx with hx | hx
    · simp [hx, storedSmoothing, SmoothingModeNone, SmoothingModeInvalid,
        SmoothingModeAntiAlias, SmoothingModeDefault, SmoothingModeHighSpeed,
        SmoothingModeHighQuality]
    · split
      · exact hx
      · exact Or.inl (by decide)
  have hsave : SmoothingStored (GdipSaveGraphics g).2.2 := by
    unfold GdipSaveGraphics SmoothingStored
    cases hs : g.saved_status <;> simp only [] <;> split <;> exact h
  refine ⟨hreset _ (Or.inl rfl), hreset _ (Or.inl rfl), ?_, hsave, ?_, ?_, ?_, ?_⟩
  · intro m
    cases m
    case SetSmoothingMode mode => exact SmoothingStored_set env g mode h
    all_goals
      simp only [Mutation.run, GdipSetWorldTransform, GdipResetWorldTransform,
        GdipMultiplyWorldTransform, GdipRotateWorldTransform, GdipScaleWorldTransform,
        GdipTranslateWorldTransform, GdipSetClipGraphics, GdipSetClipRect, GdipSetClipRectI,
        GdipSetClipPath, GdipSetClipRegion, GdipSetClipHrgn, GdipResetClip, GdipTranslateClip,
        GdipTranslateClipI, GdipSetRenderingOrigin, GdipSetInterpolationMode,
        GdipSetTextRenderingHint, GdipSetPixelOffsetMode, GdipSetTextContrast,
        GdipSetCompositingMode, GdipSetCompositingQuality,
        GdipSetPageScale, GdipSetPageUnit, apply_world_to_bounds_snd]
      (repeat' split) <;> simpa [invoke_snd, SmoothingStored] using h
  · intro t s g1 hr
    by_cases hv : t ≥ MAX_GRAPHICS_STATE_STACK ∨ t > g.saved_status_pos
    · rw [restore_rejects env g t hv] at hr
      simp only [Option.some.injEq, Prod.mk.injEq] at hr
      rw [← hr.2]; exact h
    · have hshape : ∃ slots c, g.saved_status = some slots ∧ (slots t).clip = some c := by
        unfold GdipRestoreGraphics at hr
        rw [if_neg hv] at hr
        cases hs : g.saved_status with
        | none => simp [hs] at hr
        | some slots =>
          cases hc : (slots t).clip with
          | none => simp [hs, hc, GdipCloneRegion] at hr
          | some c => exact ⟨slots, c, rfl, hc⟩
      obtain ⟨slots, c, hs, hc⟩ := hshape
      obtain ⟨s1, e, hr1⟩ := restore_of_slot env g t slots c (by omega) (by omega) hs hc
      rw [hr1] at hr
      simp only [Option.some.injEq, Prod.mk.injEq] at hr
      rw [← hr.2]
      unfold SmoothingStored
      simp only []
      split
      · exact h
      · rename_i hn
        exact storedSmoothing_range _ (fun hh => hn (Or.inl hh))
  · unfold GdipBeginContainer2
    by_cases hs : (GdipSaveGraphics g).1 = GpStatus.Ok
    · simp only [if_pos hs]
      exact hreset _ (Or.inr hsave)
    · simp only [if_neg hs]
      exact hsave
  · unfold GdipGetDC SmoothingStored
    split <;> exact h
  · intro hdc
    unfold GdipReleaseDC SmoothingStored
    cases hdc with
    | none => exact h
    | some a => simp only []; (repeat' split) <;> exact h
/-- C17. Unit identity fallback: when the source unit or the target unit is
not one of the recognised units, `gdip_unit_conversion` returns its input
unchanged, for every dpi (0 included), device class and value. -/
theorem unit_identity_fallback (fromUnit toUnit : Int) (dpi : ℚ) (type : GraphicsType) (v : ℚ)
    (h : ¬ recognisedUnit fromUnit ∨ ¬ recognisedUnit toUnit) :
    gdip_unit_conversion fromUnit toUnit dpi type v = v := by
  unfold recognisedUnit at h
  unfold gdip_unit_conversion
  rcases h with h | h
  · simp only [not_or] at h
    obtain ⟨h0, h1, h2, h3, h4, h5, h6, h7⟩ := h
    simp [h0, h1, h2, h3, h4, h5, h6, h7]
  · simp only [not_or] at h
    obtain ⟨h0, h1, h2, h3, h4, h5, h6, h7⟩ := h
    simp only [h0, h1, h2, h3, h4, h5, h6, h7, if_false, or_self]
    split <;> rfl

theorem unit_identity_fallback_witness :
    (¬ recognisedUnit 8 ∨ ¬ recognisedUnit UnitInch) ∧
      gdip_unit_conversion 8 UnitInch 0 GraphicsType.gtPostScript 5 = 5 ∧
      gdip_unit_conversion UnitInch (-1) 96 GraphicsType.gtUndefined 5 = 5 :=
  ⟨Or.inl (by decide),
    unit_identity_fallback 8 UnitInch 0 GraphicsType.gtPostScript 5 (Or.inl (by decide)),
    unit_identity_fallback UnitInch (-1) 96 GraphicsType.gtUndefined 5 (Or.inr (by decide))⟩
/-- C15. Unit round trip: for units among Document, Inch, Millimeter, Point
and Pixel, every dpi > 0, every device class and every value, converting
from one unit to the other and back gives the value again (exact rational
arithmetic). -/
theorem unit_round_trip (fromUnit toUnit : Int) (dpi : ℚ) (type : GraphicsType) (v : ℚ)
    (hf : roundTripUnit fromUnit) (ht : roundTripUnit toUnit) (hdpi : 0 < dpi) :
    gdip_unit_conversion toUnit fromUnit dpi type
      (gdip_unit_conversion fromUnit toUnit dpi type v) = v := by
  have hd : dpi ≠ 0 := ne_of_gt hdpi
  rcases hf with h | h | h | h | h <;> rcases ht with h' | h' | h' | h' | h' <;>
    subst h <;> subst h' <;>
    simp [gdip_unit_conversion, UnitWorld, UnitDisplay, UnitPixel, UnitPoint, UnitInch,
      UnitDocument, UnitMillimeter, UnitCairoPoint] <;>
    field_simp <;> ring

theorem unit_round_trip_witness :
    (roundTripUnit UnitMillimeter ∧ roundTripUnit UnitPixel ∧ (0 : ℚ) < 96) ∧
      gdip_unit_conversion UnitPixel UnitMillimeter 96 GraphicsType.gtUndefined
        (gdip_unit_conversion UnitMillimeter UnitPixel 96 GraphicsType.gtUndefined (193 / 2)) =
          193 / 2 :=
  ⟨⟨by decide, by decide, by norm_num⟩,
    unit_round_trip UnitMillimeter UnitPixel 96 GraphicsType.gtUndefined (193 / 2)
      (by decide) (by decide) (by norm_num)⟩

theorem inchesOf_cases (u : Int) (dpi : ℚ) (type : GraphicsType) (v i : ℚ)
    (h : inchesOf u dpi type v = some i) :
    (u = UnitDocument ∧ i = v / 300) ∨ (u = UnitInch ∧ i = v) ∨
      (u = UnitMillimeter ∧ i = v / (127 / 5)) ∨ (u = UnitPoint ∧ i = v / 72) ∨
      ((u = UnitPixel ∨ u = UnitWorld) ∧ i = v / dpi) ∨
      (u = UnitDisplay ∧ i = if type = GraphicsType.gtPostScript then v / 100 else v / dpi) := by
  unfold inchesOf at h
  split_ifs at h <;> simp only [Option.some.injEq, reduceCtorEq] at h <;> simp_all

theorem perInch_cases (u : Int) (dpi : ℚ) (type : GraphicsType) (k : ℚ)
    (h : perInch u dpi type = some k) :
    (u = UnitDocument ∧ k = 300) ∨ (u = UnitInch ∧ k = 1) ∨
      (u = UnitMillimeter ∧ k = 127 / 5) ∨ (u = UnitPoint ∧ k = 72) ∨
      ((u = UnitPixel ∨ u = UnitWorld) ∧ k = dpi) ∨
      (u = UnitDisplay ∧ k = if type = GraphicsType.gtPostScript then 100 else dpi) := by
  unfold perInch at h
  split_ifs at h <;> simp only [Option.some.injEq, reduceCtorEq] at h <;> simp_all

/-- C16. Unit conversion reference: for the units World, Display, Pixel, Point,
Inch, Document and Millimeter, `gdip_unit_conversion` equals the value in
inches of the source (v/300, v, v/25.4, v/72, v/dpi for Pixel and World, and
for Display v/100 on a PostScript device and v/dpi otherwise) multiplied by
the number of target units per inch (the reciprocal constant). -/
theorem unit_conversion_reference (fromUnit toUnit : Int) (dpi : ℚ) (type : GraphicsType)
    (v i k : ℚ) (hi : inchesOf fromUnit dpi type v = some i)
    (hk : perInch toUnit dpi type = some k) :
    gdip_unit_conversion fromUnit toUnit dpi type v = i * k := by
  rcases inchesOf_cases fromUnit dpi type v i hi with
    ⟨h, e⟩ | ⟨h, e⟩ | ⟨h, e⟩ | ⟨h, e⟩ | ⟨h | h, e⟩ | ⟨h, e⟩ <;>
  rcases perInch_cases toUnit dpi type k hk with
    ⟨h', e'⟩ | ⟨h', e'⟩ | ⟨h', e'⟩ | ⟨h', e'⟩ | ⟨h' | h', e'⟩ | ⟨h', e'⟩ <;>
  subst h <;> subst h' <;> subst e <;> subst e' <;>
  by_cases hp : type = GraphicsType.gtPostScript <;>
  simp [gdip_unit_conversion, UnitWorld, UnitDisplay, UnitPixel, UnitPoint, UnitInch,
    UnitDocument, UnitMillimeter, UnitCairoPoint, hp]

theorem unit_conversion_reference_witness :
    (inchesOf UnitDisplay 96 GraphicsType.gtPostScript 50 = some (50 / 100) ∧
        perInch UnitPoint 96 GraphicsType.gtPostScript = some 72) ∧
      gdip_unit_conversion UnitDisplay UnitPoint 96 GraphicsType.gtPostScript 50 =
        50 / 100 * 72 :=
  ⟨⟨by simp [inchesOf, UnitWorld, UnitDisplay, UnitPixel, UnitPoint, UnitInch,
      UnitDocument, UnitMillimeter],
    by simp [perInch, UnitWorld, UnitDisplay, UnitPixel, UnitPoint, UnitInch,
      UnitDocument, UnitMillimeter]⟩,
    unit_conversion_reference UnitDisplay UnitPoint 96 GraphicsType.gtPostScript 50 _ _
      (by simp [inchesOf, UnitWorld, UnitDisplay, UnitPixel, UnitPoint, UnitInch,
        UnitDocument, UnitMillimeter])
      (by simp [perInch, UnitWorld, UnitDisplay, UnitPixel, UnitPoint, UnitInch,
        UnitDocument, UnitMillimeter])⟩
/-- C20. Degenerate fill: with a brush and width < 0 or height < 0,
`GdipFillRectangle` and `GdipFillRectangleI` return Ok and hand back the
identical context: no backend call is issued or recorded and no field
changes, on either backend and in either validity state. -/
theorem degenerate_fill (env : Env) (g : GpGraphics) (brush : Nat) (x y width height : ℚ)
    (xi yi wi hi : Int) (h : width < 0 ∨ height < 0) (hI : wi < 0 ∨ hi < 0) :
    GdipFillRectangle env g (some brush) x y width height = (GpStatus.Ok, g) ∧
      GdipFillRectangleI env g (some brush) xi yi wi hi = (GpStatus.Ok, g) := by
  constructor
  · unfold GdipFillRectangle
    simp only [if_pos h]
  · unfold GdipFillRectangleI
    simp only [if_pos hI]

theorem degenerate_fill_witness :
    (((-1 : ℚ) < 0 ∨ (5 : ℚ) < 0) ∧ ((3 : Int) < 0 ∨ (-2 : Int) < 0)) ∧
      GdipFillRectangle acceptAll freshMetafile (some 1) 0 0 (-1) 5 =
        (GpStatus.Ok, freshMetafile) ∧
      GdipFillRectangleI acceptAll freshMetafile (some 1) 0 0 3 (-2) =
        (GpStatus.Ok, freshMetafile) :=
  ⟨⟨Or.inl (by norm_num), Or.inr (by decide)⟩,
    degenerate_fill acceptAll freshMetafile 1 0 0 (-1) 5 0 0 3 (-2) (Or.inl (by norm_num))
      (Or.inr (by decide))⟩

/-- C18. Out-of-range scalars: on a backend that does not itself answer
InvalidParameter, `GdipSetTextContrast` returns InvalidParameter exactly when
contrast > 12, `GdipSetPageScale` exactly when scale <= 0 or
scale > 1000000032, and `GdipSetPageUnit` exactly when the unit is World (or
below) or above the last supported unit; a rejected call returns the
identical context, so the stored hint keeps its value. -/
theorem out_of_range_scalars (env : Env) (g : GpGraphics) (contrast : Nat) (scale : ℚ)
    (unit : Int) (hbe : ∀ c x, env.backend c x ≠ GpStatus.InvalidParameter) :
    (((GdipSetTextContrast env g contrast).1 = GpStatus.InvalidParameter ↔ contrast > 12) ∧
        (contrast > 12 → GdipSetTextContrast env g contrast = (GpStatus.InvalidParameter, g))) ∧
      (((GdipSetPageScale env g scale).1 = GpStatus.InvalidParameter ↔
          (scale ≤ 0 ∨ scale > 1000000032)) ∧
        (scale ≤ 0 ∨ scale > 1000000032 →
          GdipSetPageScale env g scale = (GpStatus.InvalidParameter, g))) ∧
      (((GdipSetPageUnit env g unit).1 = GpStatus.InvalidParameter ↔
          (unit ≤ UnitWorld ∨ unit > UnitCairoPoint)) ∧
        (unit ≤ UnitWorld ∨ unit > UnitCairoPoint →
          GdipSetPageUnit env g unit = (GpStatus.InvalidParameter, g))) := by
  refine ⟨⟨?_, ?_⟩, ⟨?_, ?_⟩, ⟨?_, ?_⟩⟩
  · unfold GdipSetTextContrast
    by_cases hc : contrast > 12
    · simp [hc]
    · by_cases hb : g.state = GraphicsState.Busy
      · simp [hc, hb]
      · cases hk : g.backend <;> simp [hc, hb, hk, invoke, hbe]
  · intro hc
    unfold GdipSetTextContrast
    rw [if_pos hc]
  · unfold GdipSetPageScale
    by_cases hc : scale ≤ 0 ∨ scale > 1000000032
    · simp [hc]
    · by_cases hb : g.state = GraphicsState.Busy
      · simp [hc, hb]
      · cases hk : g.backend <;> simp [hc, hb, hk, invoke, hbe]
  · intro hc
    unfold GdipSetPageScale
    rw [if_pos hc]
  · unfold GdipSetPageUnit
    by_cases hc : unit ≤ UnitWorld ∨ unit > UnitCairoPoint
    · simp [hc]
    · by_cases hb : g.state = GraphicsState.Busy
      · simp [hc, hb]
      · cases hk : g.backend <;> simp [hc, hb, hk, invoke, hbe]
  · intro hc
    unfold GdipSetPageUnit
    rw [if_pos hc]
theorem out_of_range_scalars_witness :
    (∀ c x, acceptAll.backend c x ≠ GpStatus.InvalidParameter) ∧
      GdipSetTextContrast acceptAll freshMetafile 13 =
        (GpStatus.InvalidParameter, freshMetafile) ∧
      GdipSetPageScale acceptAll freshMetafile 0 = (GpStatus.InvalidParameter, freshMetafile) ∧
      GdipSetPageUnit acceptAll freshMetafile UnitWorld =
        (GpStatus.InvalidParameter, freshMetafile) ∧
      (GdipSetTextContrast acceptAll freshMetafile 12).1 ≠ GpStatus.InvalidParameter :=
  have hbe : ∀ c x, acceptAll.backend c x ≠ GpStatus.InvalidParameter := by
    intro c x; simp [acceptAll]
  have w := out_of_range_scalars acceptAll freshMetafile 13 0 UnitWorld hbe
  ⟨hbe, w.1.2 (by decide), w.2.1.2 (Or.inl (le_refl 0)), w.2.2.2 (Or.inl (le_refl _)),
    fun h => absurd ((out_of_range_scalars acceptAll freshMetafile 12 0 UnitWorld hbe).1.1.mp h)
      (by decide)⟩

theorem save_failure_unchanged (g : GpGraphics) (h : (GdipSaveGraphics g).1 ≠ GpStatus.Ok) :
    GdipSaveGraphics g = (GpStatus.OutOfMemory, none, g) := by
  by_cases hp : savedPos g < MAX_GRAPHICS_STATE_STACK
  · obtain ⟨g1, hs, -⟩ := save_succeeds g hp
    rw [hs] at h
    exact absurd rfl h
  · exact save_exhausted g (by omega)

theorem GdipInvertMatrix_fst (m : GpMatrix)
    (h : (GdipIsMatrixInvertible (some m)).2 = true) : (GdipInvertMatrix m).1 = GpStatus.Ok := by
  have hd : m.det ≠ 0 := by simpa [GdipIsMatrixInvertible] using h
  simp [GdipInvertMatrix, cairo_matrix_invert, hd]

theorem GdipCombineRegionRegion_fst (a b : GpRegion) (mode : CombineMode) :
    (GdipCombineRegionRegion a b mode).1 = GpStatus.Ok := by
  cases mode <;> rfl

theorem mutation_failure_before_backend (env : Env) (g : GpGraphics) (m : Mutation)
    (hk : g.backend ≠ GraphicsBackEnd.Unknown) (h : (m.run env g).1 ≠ GpStatus.Ok)
    (he : (m.run env g).2.effects = g.effects) :
    (m.run env g).2 = g := by
  revert h he
  cases m <;>
    simp only [Mutation.run, GdipSetWorldTransform, GdipResetWorldTransform,
      GdipMultiplyWorldTransform, GdipRotateWorldTransform, GdipScaleWorldTransform,
      GdipTranslateWorldTransform, GdipSetClipGraphics, GdipSetClipRect, GdipSetClipRectI,
      GdipSetClipPath, GdipSetClipRegion, GdipSetClipHrgn, GdipResetClip, GdipTranslateClip,
      GdipTranslateClipI, GdipSetRenderingOrigin, GdipSetInterpolationMode,
      GdipSetTextRenderingHint, GdipSetPixelOffsetMode, GdipSetTextContrast,
      GdipSetSmoothingMode, GdipSetCompositingMode, GdipSetCompositingQuality,
      GdipSetPageScale, GdipSetPageUnit, apply_world_to_bounds_snd, invoke,
      GdipMultiplyMatrix_fst, GdipScaleMatrix, GdipTranslateMatrix, GdipRotateMatrix,
      gdip_cairo_matrix_copy, GdipCombineRegionPath, GdipCombineRegionRegion_fst] <;>
    (repeat' split) <;> simp_all [GdipInvertMatrix_fst]

theorem origin_effects_length (env : Env) (g : GpGraphics) (x y : Int) :
    g.effects.length ≤ (GdipSetRenderingOrigin env g x y).2.effects.length := by
  unfold GdipSetRenderingOrigin
  split
  · exact le_refl _
  · simp only [invoke]
    split <;> simp

theorem smoothing_effects_length (env : Env) (g : GpGraphics) (mode : Int) :
    g.effects.length ≤ (GdipSetSmoothingMode env g mode).2.effects.length := by
  unfold GdipSetSmoothingMode
  split
  · exact le_refl _
  · split
    · exact le_refl _
    · simp only [invoke]
      split <;> simp

theorem restore_failure_before_backend (env : Env) (g : GpGraphics) (t : Nat) (s : GpStatus)
    (g1 : GpGraphics) (h : GdipRestoreGraphics env g t = some (s, g1))
    (he : g1.effects = g.effects) : g1 = g := by
  by_cases hv : t ≥ MAX_GRAPHICS_STATE_STACK ∨ t > g.saved_status_pos
  · rw [restore_rejects env g t hv] at h
    simp only [Option.some.injEq, Prod.mk.injEq] at h
    exact h.2.symm
  · exfalso
    unfold GdipRestoreGraphics at h
    rw [if_neg hv] at h
    cases hss : g.saved_status with
    | none => simp [hss] at h
    | some slots =>
      cases hc : (slots t).clip with
      | none => simp [hss, hc, GdipCloneRegion] at h
      | some c =>
        simp only [hss, hc, GdipCloneRegion, invoke, Option.some.injEq, Prod.mk.injEq] at h
        have hl := congrArg (fun x : GpGraphics => x.effects.length) h.2
        simp only [List.length_append, List.length_singleton, he] at hl
        have h1 := origin_effects_length env
          { g with copy_of_ctm := gdip_cairo_matrix_copy (slots t).matrix,
                   previous_matrix := gdip_cairo_matrix_copy (slots t).previous_matrix,
                   saved_status := some slots }
          (slots t).org_x (slots t).org_y
        have h2 := smoothing_effects_length env
          { (GdipSetRenderingOrigin env
              { g with copy_of_ctm := gdip_cairo_matrix_copy (slots t).matrix,
                       previous_matrix := gdip_cairo_matrix_copy (slots t).previous_matrix,
                       saved_status := some slots }
              (slots t).org_x (slots t).org_y).2 with
            clip := c
            clip_matrix := gdip_cairo_matrix_copy (slots t).clip_matrix
            composite_mode := (slots t).composite_mode
            composite_quality := (slots t).composite_quality
            interpolation := (slots t).interpolation
            page_unit := (slots t).page_unit
            scale := (slots t).scale } (slots t).draw_mode
        have key : ∀ a b : Nat, b + 1 + 1 = a → a ≤ b → False := by
          intro a b e1 e2
          omega
        exact key _ _ hl (le_trans h1 h2)

/-- C19 (as stated, refuted). With a backend that rejects the forwarded call,
`GdipSetRenderingOrigin` on a fresh context of the deferred backend returns
GenericError after it has stored the origin (3, 4) over (0, 0), and
`GdipRestoreGraphics` of the token 0, on a context saved with text contrast 4
and then set to 9, returns GenericError after it has put the contrast back
to 4. -/
theorem no_partial_mutation_counterexample :
    (GdipSetRenderingOrigin failingBackend freshMetafile 3 4).1 = GpStatus.GenericError ∧
      (freshMetafile.render_origin_x, freshMetafile.render_origin_y) = (0, 0) ∧
      ((GdipSetRenderingOrigin failingBackend freshMetafile 3 4).2.render_origin_x,
        (GdipSetRenderingOrigin failingBackend freshMetafile 3 4).2.render_origin_y) = (3, 4) ∧
      (GdipSetRenderingOrigin failingBackend freshMetafile 3 4).2 ≠ freshMetafile ∧
      (GdipSetTextContrast acceptAll (GdipSaveGraphics freshCairo).2.2 9).2.text_contrast = 9 ∧
      (GdipRestoreGraphics failingBackend
        (GdipSetTextContrast acceptAll (GdipSaveGraphics freshCairo).2.2 9).2 0).map
          (fun r => (r.1, r.2.text_contrast)) = some (GpStatus.GenericError, 4) := by
  refine ⟨rfl, rfl, rfl, ?_, rfl, rfl⟩
  intro h
  have h3 := congrArg GpGraphics.render_origin_x h
  revert h3
  rw [show (GdipSetRenderingOrigin failingBackend freshMetafile 3 4).2.render_origin_x = 3
    from rfl, show freshMetafile.render_origin_x = 0 from rfl]
  decide

/-- C19 (amended). No partial mutation on a failure that precedes the backend:
on a context of a known backend kind, when a hint setter, a transform
mutator, a clip mutator, `GdipRestoreGraphics` or `GdipEndContainer` returns
a status other than Ok without having forwarded a call to the backend (the
log of backend calls is the one before the call), and when `GdipSaveGraphics`
or `GdipBeginContainer2` returns a status other than Ok, the context it hands
back is identical to the one before the call. -/
theorem no_partial_mutation_before_backend (env : Env) (g : GpGraphics)
    (hk : g.backend ≠ GraphicsBackEnd.Unknown) :
    (∀ m : Mutation, (m.run env g).1 ≠ GpStatus.Ok → (m.run env g).2.effects = g.effects →
        (m.run env g).2 = g) ∧
      ((GdipSaveGraphics g).1 ≠ GpStatus.Ok → (GdipSaveGraphics g).2.2 = g) ∧
      (∀ t s g1, GdipRestoreGraphics env g t = some (s, g1) → s ≠ GpStatus.Ok →
        g1.effects = g.effects → g1 = g) ∧
      ((GdipBeginContainer2 env g).1 ≠ GpStatus.Ok → (GdipBeginContainer2 env g).2.2 = g) ∧
      (∀ t s g1, GdipEndContainer env g t = some (s, g1) → s ≠ GpStatus.Ok →
        g1.effects = g.effects → g1 = g) := by
  refine ⟨fun m h he => mutation_failure_before_backend env g m hk h he, ?_, ?_, ?_, ?_⟩
  · intro h
    rw [save_failure_unchanged g h]
  · intro t s g1 h _ he
    exact restore_failure_before_backend env g t s g1 h he
  · intro h
    unfold GdipBeginContainer2 at h ⊢
    by_cases hs : (GdipSaveGraphics g).1 = GpStatus.Ok
    · simp only [if_pos hs] at h
      exact absurd hs h
    · simp only [if_neg hs]
      rw [save_failure_unchanged g hs]
  · intro t s g1 h _ he
    exact restore_failure_before_backend env g t s g1 h he

theorem no_partial_mutation_before_backend_witness :
    busyCairo.backend ≠ GraphicsBackEnd.Unknown ∧
      (Mutation.run failingBackend busyCairo (Mutation.SetTextContrast 5)).1 ≠ GpStatus.Ok ∧
      (Mutation.run failingBackend busyCairo (Mutation.SetTextContrast 5)).2.effects =
        busyCairo.effects ∧
      (Mutation.run failingBackend busyCairo (Mutation.SetTextContrast 5)).2 = busyCairo ∧
      (Mutation.run failingBackend freshCairo (Mutation.SetPageScale 0)).2 = freshCairo :=
  have hk : busyCairo.backend ≠ GraphicsBackEnd.Unknown := by decide
  have hk2 : freshCairo.backend ≠ GraphicsBackEnd.Unknown := by decide
  have h1 : (Mutation.run failingBackend busyCairo (Mutation.SetTextContrast 5)).1 ≠
      GpStatus.Ok := by decide
  ⟨hk, h1, rfl, (no_partial_mutation_before_backend failingBackend busyCairo hk).1 _ h1 rfl,
    (no_partial_mutation_before_backend failingBackend freshCairo hk2).1
      (Mutation.SetPageScale 0) (by simp [Mutation.run, GdipSetPageScale])
      (by simp [Mutation.run, GdipSetPageScale])⟩

theorem matrix_inverse_mul (m : GpMatrix) (h : m.det ≠ 0) :
    cairo_matrix_multiply (cairo_matrix_invert m).2 m = GpMatrix.identity := by
  unfold cairo_matrix_invert
  rw [if_neg h]
  have h2 : m.xx * m.yy - m.yx * m.xy ≠ 0 := h
  simp only [cairo_matrix_multiply, GpMatrix.identity, GpMatrix.det, GpMatrix.mk.injEq]
  refine ⟨?_, ?_, ?_, ?_, ?_, ?_⟩ <;> field_simp <;> ring

theorem matrix_mul_assoc (a b c : GpMatrix) :
    cairo_matrix_multiply (cairo_matrix_multiply a b) c =
      cairo_matrix_multiply a (cairo_matrix_multiply b c) := by
  simp only [cairo_matrix_multiply, GpMatrix.mk.injEq]
  refine ⟨?_, ?_, ?_, ?_, ?_, ?_⟩ <;> ring

theorem matrix_mul_identity (a : GpMatrix) :
    cairo_matrix_multiply a GpMatrix.identity = a := by
  cases a
  simp [cairo_matrix_multiply, GpMatrix.identity]

theorem multiply_world_fields (env : Env) (g : GpGraphics) (m : GpMatrix) (o : GpMatrixOrder)
    (hm : m.det ≠ 0) :
    (GdipMultiplyWorldTransform env g (some m) o).2.copy_of_ctm =
        (GdipMultiplyMatrix g.copy_of_ctm m o).2 ∧
      (GdipMultiplyWorldTransform env g (some m) o).2.previous_matrix = g.previous_matrix ∧
      (GdipMultiplyWorldTransform env g (some m) o).2.state = g.state := by
  have hi : (GdipIsMatrixInvertible (some m)).2 = true := by simp [GdipIsMatrixInvertible, hm]
  have hc : ¬ ((!(GdipIsMatrixInvertible (some m)).2) = true
      ∨ (GdipIsMatrixInvertible (some m)).1 ≠ GpStatus.Ok) := by
    simp [GdipIsMatrixInvertible, hm]
  have h2 : ¬ ((GdipMultiplyMatrix g.copy_of_ctm m o).1 ≠ GpStatus.Ok) := by
    simp [GdipMultiplyMatrix_fst]
  have h3 : ¬ ((GdipInvertMatrix (gdip_cairo_matrix_copy m)).1 ≠ GpStatus.Ok) := by
    simp [GdipInvertMatrix_fst m hi, gdip_cairo_matrix_copy]
  unfold GdipMultiplyWorldTransform
  simp only [if_neg hc, if_neg h2, if_neg h3, GdipMultiplyMatrix_fst, ne_eq, not_true_eq_false,
    if_false, apply_world_to_bounds_snd]
  cases hb : g.backend <;> simp [invoke]

/-- C11. Container-aware world transform: on a Valid context
`GdipGetWorldTransform` returns Ok with the effective transform itself when
the container baseline transform is the identity, and otherwise with the
effective transform multiplied (append order) by the inverse of the
baseline (a two-sided inverse when the baseline is invertible). Hence after
`GdipBeginContainer2` on a context with an invertible effective transform,
followed by a prepend-order `GdipMultiplyWorldTransform` with an invertible
`M`, it reports exactly `M`. -/
theorem container_aware_world_transform (env : Env) (g : GpGraphics) (m0 M : GpMatrix)
    (hv : g.state = GraphicsState.Valid) :
    (g.previous_matrix = GpMatrix.identity →
        GdipGetWorldTransform g m0 = (GpStatus.Ok, g.copy_of_ctm)) ∧
      (g.previous_matrix ≠ GpMatrix.identity →
        GdipGetWorldTransform g m0 =
          (GpStatus.Ok,
            cairo_matrix_multiply g.copy_of_ctm (cairo_matrix_invert g.previous_matrix).2)) ∧
      (g.previous_matrix.det ≠ 0 →
        cairo_matrix_multiply g.previous_matrix (cairo_matrix_invert g.previous_matrix).2 =
            GpMatrix.identity ∧
          cairo_matrix_multiply (cairo_matrix_invert g.previous_matrix).2 g.previous_matrix =
            GpMatrix.identity) ∧
      (g.copy_of_ctm.det ≠ 0 → M.det ≠ 0 →
        ∀ t g1, GdipBeginContainer2 env g = (GpStatus.Ok, some t, g1) →
          GdipGetWorldTransform
              (GdipMultiplyWorldTransform env g1 (some M) GpMatrixOrder.Prepend).2 m0 =
            (GpStatus.Ok, M)) := by
  refine ⟨?_, ?_, ?_, ?_⟩
  · intro h
    simp [GdipGetWorldTransform, hv, h, gdip_is_matrix_empty, gdip_cairo_matrix_copy]
  · intro h
    simp [GdipGetWorldTransform, hv, h, gdip_is_matrix_empty, gdip_cairo_matrix_copy,
      GdipMultiplyMatrix]
  · intro h
    exact ⟨matrix_mul_inverse _ h, matrix_inverse_mul _ h⟩
  · intro hT hM t g1 hb
    obtain ⟨gs, hsave, hsv, hctm, hprev⟩ := begin_ok env g t g1 hb
    obtain ⟨-, -, slots, hgs, -⟩ := save_ok g t gs hsave
    have hst : g1.state = GraphicsState.Valid := by
      simp only [stackView, Prod.mk.injEq] at hsv
      rw [hsv.2.2.1, hgs]; exact hv
    obtain ⟨e1, e2, e3⟩ := multiply_world_fields env g1 M GpMatrixOrder.Prepend hM
    unfold GdipGetWorldTransform
    simp only [e1, e2, e3, hst, hctm, hprev, gdip_cairo_matrix_copy, GdipMultiplyMatrix]
    by_cases hid : g.copy_of_ctm = GpMatrix.identity
    · simp [gdip_is_matrix_empty, hid, matrix_mul_identity]
    · simp [gdip_is_matrix_empty, hid, matrix_mul_assoc, matrix_mul_inverse _ hT,
        matrix_mul_identity]

theorem container_aware_world_transform_witness :
    (translatedCairo.state = GraphicsState.Valid ∧ translatedCairo.copy_of_ctm.det ≠ 0 ∧
        (⟨2, 0, 0, 5, 1, 1⟩ : GpMatrix).det ≠ 0 ∧
        GdipBeginContainer2 acceptAll translatedCairo =
          (GpStatus.Ok, some 0, (GdipBeginContainer2 acceptAll translatedCairo).2.2)) ∧
      GdipGetWorldTransform translatedCairo GpMatrix.zero =
        (GpStatus.Ok, translatedCairo.copy_of_ctm) ∧
      GdipGetWorldTransform
          (GdipMultiplyWorldTransform acceptAll (GdipBeginContainer2 acceptAll translatedCairo).2.2
            (some ⟨2, 0, 0, 5, 1, 1⟩) GpMatrixOrder.Prepend).2 GpMatrix.zero =
        (GpStatus.Ok, ⟨2, 0, 0, 5, 1, 1⟩) :=
  have hT : translatedCairo.copy_of_ctm.det ≠ 0 := by
    rw [translatedCairo_ctm]; norm_num [GpMatrix.det]
  have hM : (⟨2, 0, 0, 5, 1, 1⟩ : GpMatrix).det ≠ 0 := by norm_num [GpMatrix.det]
  have w := container_aware_world_transform acceptAll translatedCairo GpMatrix.zero
    ⟨2, 0, 0, 5, 1, 1⟩ rfl
  ⟨⟨rfl, hT, hM, rfl⟩, w.1 rfl, w.2.2.2 hT hM 0 _ rfl⟩
theorem fresh_fields (env : Env) (raw : GpGraphics) :
    (gdip_graphics_new env raw).state = GraphicsState.Valid ∧
      (gdip_graphics_new env raw).clip_matrix = GpMatrix.identity ∧
      (gdip_graphics_new env raw).backend = GraphicsBackEnd.Cairo := by
  simp [gdip_graphics_new, gdip_graphics_common_init, gdip_graphics_reset, GdipResetClip_snd,
    GdipSetSmoothingMode_snd]

theorem set_clip_rect_fields (env : Env) (g : GpGraphics) (x y w h : ℚ)
    (hv : g.state = GraphicsState.Valid) :
    (GdipSetClipRect env g x y w h CombineMode.Replace).2.clip =
        (if g.clip_matrix = GpMatrix.identity then GpRegion.rect ⟨x, y, w, h⟩
          else GpRegion.transform (GpRegion.rect ⟨x, y, w, h⟩)
            (cairo_matrix_invert g.clip_matrix).2) ∧
      (GdipSetClipRect env g x y w h CombineMode.Replace).2.clip_matrix = g.clip_matrix ∧
      (GdipSetClipRect env g x y w h CombineMode.Replace).2.state = g.state := by
  unfold GdipSetClipRect
  by_cases hid : g.clip_matrix = GpMatrix.identity <;>
    cases hb : g.backend <;>
    simp [hv, hid, hb, invoke, GdipCreateRegionRect, GdipCombineRegionRegion,
      GdipTransformRegion, gdip_is_matrix_empty]

theorem translate_world_fields (env : Env) (g : GpGraphics) (dx dy : ℚ) (o : GpMatrixOrder) :
    (GdipTranslateWorldTransform env g dx dy o).2.clip = g.clip ∧
      (GdipTranslateWorldTransform env g dx dy o).2.clip_matrix =
        (GdipTranslateMatrix g.clip_matrix (-dx) (-dy) (gdip_matrix_reverse_order o)).2 ∧
      (GdipTranslateWorldTransform env g dx dy o).2.state = g.state := by
  unfold GdipTranslateWorldTransform
  simp only [GdipTranslateMatrix, GdipMultiplyMatrix_fst, ne_eq, not_true_eq_false, if_false,
    apply_world_to_bounds_snd]
  cases hb : g.backend <;> simp [invoke]
theorem transformRect_translation (a b : ℚ) (r : GpRectF) :
    transformRect ⟨1, 0, 0, 1, a, b⟩ r =
      ⟨min r.X (r.X + r.Width) + a, min r.Y (r.Y + r.Height) + b, |r.Width|, |r.Height|⟩ := by
  simp only [transformRect, boundingRect, transformPoint, one_mul, zero_mul, add_zero, zero_add,
    GpRectF.mk.injEq]
  rcases le_total 0 r.Width with hw | hw <;> rcases le_total 0 r.Height with hh | hh
  · have e1 : min (r.X + a) (r.X + r.Width + a) = r.X + a := min_eq_left (by linarith)
    have e2 : max (r.X + a) (r.X + r.Width + a) = r.X + r.Width + a := max_eq_right (by linarith)
    have e3 : min (r.Y + b) (r.Y + r.Height + b) = r.Y + b := min_eq_left (by linarith)
    have e4 : max (r.Y + b) (r.Y + r.Height + b) = r.Y + r.Height + b :=
      max_eq_right (by linarith)
    have e5 : min r.X (r.X + r.Width) = r.X := min_eq_left (by linarith)
    have e6 : min r.Y (r.Y + r.Height) = r.Y := min_eq_left (by linarith)
    simp only [e1, e2, e3, e4, e5, e6, min_self, max_self, abs_of_nonneg hw, abs_of_nonneg hh]
    refine ⟨trivial, trivial, ?_, ?_⟩ <;> ring
  · have e1 : min (r.X + a) (r.X + r.Width + a) = r.X + a := min_eq_left (by linarith)
    have e2 : max (r.X + a) (r.X + r.Width + a) = r.X + r.Width + a := max_eq_right (by linarith)
    have e3 : min (r.Y + b) (r.Y + r.Height + b) = r.Y + r.Height + b :=
      min_eq_right (by linarith)
    have e4 : max (r.Y + b) (r.Y + r.Height + b) = r.Y + b := max_eq_left (by linarith)
    have e5 : min r.X (r.X + r.Width) = r.X := min_eq_left (by linarith)
    have e6 : min r.Y (r.Y + r.Height) = r.Y + r.Height := min_eq_right (by linarith)
    simp only [e1, e2, e3, e4, e5, e6, min_self, max_self, abs_of_nonneg hw, abs_of_nonpos hh]
    refine ⟨trivial, trivial, ?_, ?_⟩ <;> ring
  · have e1 : min (r.X + a) (r.X + r.Width + a) = r.X + r.Width + a :=
      min_eq_right (by linarith)
    have e2 : max (r.X + a) (r.X + r.Width + a) = r.X + a := max_eq_left (by linarith)
    have e3 : min (r.Y + b) (r.Y + r.Height + b) = r.Y + b := min_eq_left (by linarith)
    have e4 : max (r.Y + b) (r.Y + r.Height + b) = r.Y + r.Height + b :=
      max_eq_right (by linarith)
    have e5 : min r.X (r.X + r.Width) = r.X + r.Width := min_eq_right (by linarith)
    have e6 : min r.Y (r.Y + r.Height) = r.Y := min_eq_left (by linarith)
    simp only [e1, e2, e3, e4, e5, e6, min_self, max_self, abs_of_nonpos hw, abs_of_nonneg hh]
    refine ⟨trivial, trivial, ?_, ?_⟩ <;> ring
  · have e1 : min (r.X + a) (r.X + r.Width + a) = r.X + r.Width + a :=
      min_eq_right (by linarith)
    have e2 : max (r.X + a) (r.X + r.Width + a) = r.X + a := max_eq_left (by linarith)
    have e3 : min (r.Y + b) (r.Y + r.Height + b) = r.Y + r.Height + b :=
      min_eq_right (by linarith)
    have e4 : max (r.Y + b) (r.Y + r.Height + b) = r.Y + b := max_eq_left (by linarith)
    have e5 : min r.X (r.X + r.Width) = r.X + r.Width := min_eq_right (by linarith)
    have e6 : min r.Y (r.Y + r.Height) = r.Y + r.Height := min_eq_right (by linarith)
    simp only [e1, e2, e3, e4, e5, e6, min_self, max_self, abs_of_nonpos hw, abs_of_nonpos hh]
    refine ⟨trivial, trivial, ?_, ?_⟩ <;> ring
theorem translate_identity_clip (dx dy : ℚ) (o : GpMatrixOrder) :
    (GdipTranslateMatrix GpMatrix.identity (-dx) (-dy) o).2 = ⟨1, 0, 0, 1, -dx, -dy⟩ := by
  cases o <;> simp [GdipTranslateMatrix, GdipMultiplyMatrix, cairo_matrix_multiply,
    GpMatrix.identity]

theorem translation_is_identity (dx dy : ℚ) :
    (⟨1, 0, 0, 1, -dx, -dy⟩ : GpMatrix) = GpMatrix.identity ↔ (dx = 0 ∧ dy = 0) := by
  simp [GpMatrix.identity]

theorem translation_inverse (dx dy : ℚ) :
    (cairo_matrix_invert ⟨1, 0, 0, 1, -dx, -dy⟩).2 = ⟨1, 0, 0, 1, dx, dy⟩ := by
  simp [cairo_matrix_invert, GpMatrix.det]

theorem clip_bounds_two_orders (env : Env) (g : GpGraphics) (x y w h dx dy : ℚ)
    (o : GpMatrixOrder) (r0 : GpRectF) (hv : g.state = GraphicsState.Valid)
    (hid : g.clip_matrix = GpMatrix.identity) :
    GdipGetClipBounds env
        (GdipTranslateWorldTransform env
          (GdipSetClipRect env g x y w h CombineMode.Replace).2 dx dy o).2 r0 =
      (GpStatus.Ok,
        if dx = 0 ∧ dy = 0 then ⟨x, y, w, h⟩
        else ⟨min x (x + w) - dx, min y (y + h) - dy, |w|, |h|⟩) ∧
    GdipGetClipBounds env
        (GdipSetClipRect env (GdipTranslateWorldTransform env g dx dy o).2 x y w h
          CombineMode.Replace).2 r0 =
      (GpStatus.Ok,
        if dx = 0 ∧ dy = 0 then ⟨x, y, w, h⟩ else ⟨min x (x + w), min y (y + h), |w|, |h|⟩) := by
  constructor
  · obtain ⟨c1, m1, s1⟩ := set_clip_rect_fields env g x y w h hv
    obtain ⟨c2, m2, s2⟩ := translate_world_fields env
      (GdipSetClipRect env g x y w h CombineMode.Replace).2 dx dy o
    unfold GdipGetClipBounds
    simp only [c2, m2, s2, c1, m1, s1, hv, hid, translate_identity_clip, gdip_is_matrix_empty,
      translation_is_identity, GdipCloneRegion, GdipTransformRegion, GdipGetRegionBounds]
    by_cases hd : dx = 0 ∧ dy = 0
    · simp [hd, regionBounds]
    · simp [hd, regionBounds, transformRect_translation, sub_eq_add_neg]
  · obtain ⟨c2, m2, s2⟩ := translate_world_fields env g dx dy o
    obtain ⟨c1, m1, s1⟩ := set_clip_rect_fields env (GdipTranslateWorldTransform env g dx dy o).2
      x y w h (by rw [s2, hv])
    unfold GdipGetClipBounds
    simp only [c1, m1, s1, c2, m2, s2, hv, hid, translate_identity_clip, gdip_is_matrix_empty,
      translation_is_identity, GdipCloneRegion, GdipTransformRegion, GdipGetRegionBounds,
      translation_inverse]
    by_cases hd : dx = 0 ∧ dy = 0
    · simp [hd, regionBounds]
    · simp [hd, regionBounds, transformRect_translation]
/-- C12 (as stated, refuted). On the fresh context, with the rectangle
(0, 0, 10, 10) and the translation (3, 4): set-clip then translate gives the
clip bounds (-3, -4, 10, 10), translate then set-clip gives (0, 0, 10, 10). -/
theorem clip_bounds_order_counterexample :
    GdipGetClipBounds acceptAll
        (GdipTranslateWorldTransform acceptAll
          (GdipSetClipRect acceptAll freshCairo 0 0 10 10 CombineMode.Replace).2 3 4
          GpMatrixOrder.Prepend).2 ⟨0, 0, 0, 0⟩ = (GpStatus.Ok, ⟨-3, -4, 10, 10⟩) ∧
      GdipGetClipBounds acceptAll
        (GdipSetClipRect acceptAll
          (GdipTranslateWorldTransform acceptAll freshCairo 3 4 GpMatrixOrder.Prepend).2
          0 0 10 10 CombineMode.Replace).2 ⟨0, 0, 0, 0⟩ = (GpStatus.Ok, ⟨0, 0, 10, 10⟩) ∧
      GdipGetClipBounds acceptAll
        (GdipTranslateWorldTransform acceptAll
          (GdipSetClipRect acceptAll freshCairo 0 0 10 10 CombineMode.Replace).2 3 4
          GpMatrixOrder.Prepend).2 ⟨0, 0, 0, 0⟩ ≠
      GdipGetClipBounds acceptAll
        (GdipSetClipRect acceptAll
          (GdipTranslateWorldTransform acceptAll freshCairo 3 4 GpMatrixOrder.Prepend).2
          0 0 10 10 CombineMode.Replace).2 ⟨0, 0, 0, 0⟩ := by
  obtain ⟨hA, hB⟩ := clip_bounds_two_orders acceptAll freshCairo 0 0 10 10 3 4
    GpMatrixOrder.Prepend ⟨0, 0, 0, 0⟩ rfl rfl
  rw [hA, hB]
  norm_num

/-- C12 (amended). Clip bounds follow the world transform: on a Valid context
with the identity clip-space transform (every fresh context), for every
rectangle and translation, `GdipGetClipBounds` returns Ok after both call
orders, and the bounds after `GdipSetClipRect` (Replace) followed by
`GdipTranslateWorldTransform` are the bounds after the opposite order moved
by (-dx, -dy), with the same width and height. After translate-then-set the
bounds are the rectangle itself when its width and height are not negative.
The two results coincide exactly when dx = dy = 0. -/
theorem clip_bounds_follow_translation (env : Env) (g : GpGraphics) (x y w h dx dy : ℚ)
    (o : GpMatrixOrder) (r0 : GpRectF) (hv : g.state = GraphicsState.Valid)
    (hid : g.clip_matrix = GpMatrix.identity) :
    (GdipGetClipBounds env
        (GdipTranslateWorldTransform env
          (GdipSetClipRect env g x y w h CombineMode.Replace).2 dx dy o).2 r0).1 = GpStatus.Ok ∧
    (GdipGetClipBounds env
        (GdipSetClipRect env (GdipTranslateWorldTransform env g dx dy o).2 x y w h
          CombineMode.Replace).2 r0).1 = GpStatus.Ok ∧
    (GdipGetClipBounds env
        (GdipTranslateWorldTransform env
          (GdipSetClipRect env g x y w h CombineMode.Replace).2 dx dy o).2 r0).2 =
      ⟨(GdipGetClipBounds env
          (GdipSetClipRect env (GdipTranslateWorldTransform env g dx dy o).2 x y w h
            CombineMode.Replace).2 r0).2.X - dx,
        (GdipGetClipBounds env
          (GdipSetClipRect env (GdipTranslateWorldTransform env g dx dy o).2 x y w h
            CombineMode.Replace).2 r0).2.Y - dy,
        (GdipGetClipBounds env
          (GdipSetClipRect env (GdipTranslateWorldTransform env g dx dy o).2 x y w h
            CombineMode.Replace).2 r0).2.Width,
        (GdipGetClipBounds env
          (GdipSetClipRect env (GdipTranslateWorldTransform env g dx dy o).2 x y w h
            CombineMode.Replace).2 r0).2.Height⟩ ∧
    (0 ≤ w → 0 ≤ h →
      (GdipGetClipBounds env
        (GdipSetClipRect env (GdipTranslateWorldTransform env g dx dy o).2 x y w h
          CombineMode.Replace).2 r0).2 = ⟨x, y, w, h⟩) ∧
    (GdipGetClipBounds env
        (GdipTranslateWorldTransform env
          (GdipSetClipRect env g x y w h CombineMode.Replace).2 dx dy o).2 r0 =
      GdipGetClipBounds env
        (GdipSetClipRect env (GdipTranslateWorldTransform env g dx dy o).2 x y w h
          CombineMode.Replace).2 r0 ↔ (dx = 0 ∧ dy = 0)) := by
  obtain ⟨hA, hB⟩ := clip_bounds_two_orders env g x y w h dx dy o r0 hv hid
  rw [hA, hB]
  by_cases hd : dx = 0 ∧ dy = 0
  · obtain ⟨h1, h2⟩ := hd
    subst h1; subst h2
    simp
  · simp only [hd, if_false, true_and, Prod.mk.injEq, GpRectF.mk.injEq, and_true, iff_false]
    refine ⟨?_, ?_⟩
    · intro hw hh
      exact ⟨min_eq_left (by linarith), min_eq_left (by linarith), abs_of_nonneg hw,
        abs_of_nonneg hh⟩
    · intro hc
      apply hd
      constructor <;> linarith [hc.1, hc.2]

theorem clip_bounds_follow_translation_witness :
    (freshCairo.state = GraphicsState.Valid ∧ freshCairo.clip_matrix = GpMatrix.identity) ∧
      (GdipGetClipBounds acceptAll
        (GdipTranslateWorldTransform acceptAll
          (GdipSetClipRect acceptAll freshCairo 0 0 10 10 CombineMode.Replace).2 3 4
          GpMatrixOrder.Prepend).2 ⟨0, 0, 0, 0⟩).1 = GpStatus.Ok ∧
      (GdipGetClipBounds acceptAll
        (GdipSetClipRect acceptAll
          (GdipTranslateWorldTransform acceptAll freshCairo 3 4 GpMatrixOrder.Prepend).2
          0 0 10 10 CombineMode.Replace).2 ⟨0, 0, 0, 0⟩).2 = ⟨0, 0, 10, 10⟩ :=
  have w := clip_bounds_follow_translation acceptAll freshCairo 0 0 10 10 3 4
    GpMatrixOrder.Prepend ⟨0, 0, 0, 0⟩ rfl rfl
  ⟨⟨rfl, rfl⟩, w.1, w.2.2.2.1 (by norm_num) (by norm_num)⟩
theorem set_clip_region_fields (env : Env) (g : GpGraphics) (S : GpRegion)
    (hv : g.state = GraphicsState.Valid) :
    (GdipSetClipRegion env g (some S) CombineMode.Replace).2.clip =
        (if g.clip_matrix = GpMatrix.identity then S
          else GpRegion.transform S (cairo_matrix_invert g.clip_matrix).2) ∧
      (GdipSetClipRegion env g (some S) CombineMode.Replace).2.clip_matrix = g.clip_matrix ∧
      (GdipSetClipRegion env g (some S) CombineMode.Replace).2.state = g.state := by
  unfold GdipSetClipRegion
  by_cases hid : g.clip_matrix = GpMatrix.identity <;>
    cases hb : g.backend <;>
    simp [hv, hid, hb, invoke, GdipCombineRegionRegion, GdipTransformRegion,
      gdip_is_matrix_empty]

theorem apply_after_inverse (m : GpMatrix) (h : m.det ≠ 0) (sx sy : ℚ) :
    m.xx * ((cairo_matrix_invert m).2.xx * sx + (cairo_matrix_invert m).2.xy * sy +
          (cairo_matrix_invert m).2.x0) +
        m.xy * ((cairo_matrix_invert m).2.yx * sx + (cairo_matrix_invert m).2.yy * sy +
          (cairo_matrix_invert m).2.y0) + m.x0 = sx ∧
      m.yx * ((cairo_matrix_invert m).2.xx * sx + (cairo_matrix_invert m).2.xy * sy +
          (cairo_matrix_invert m).2.x0) +
        m.yy * ((cairo_matrix_invert m).2.yx * sx + (cairo_matrix_invert m).2.yy * sy +
          (cairo_matrix_invert m).2.y0) + m.y0 = sy := by
  unfold cairo_matrix_invert
  rw [if_neg h]
  have h2 : m.xx * m.yy - m.yx * m.xy ≠ 0 := h
  simp only [GpMatrix.det]
  constructor <;> field_simp <;> ring

theorem contains_round_trip (inPath : GpPath → ℚ → ℚ → Prop) (S : GpRegion) (m : GpMatrix)
    (h : m.det ≠ 0) (px py : ℚ) :
    GpRegion.contains inPath
        (GpRegion.transform (GpRegion.transform S (cairo_matrix_invert m).2) m) px py ↔
      GpRegion.contains inPath S px py := by
  simp only [GpRegion.contains]
  constructor
  · rintro ⟨qx, qy, ⟨sx, sy, hS, rfl, rfl⟩, hx, hy⟩
    obtain ⟨e1, e2⟩ := apply_after_inverse m h sx sy
    rw [e1] at hx
    rw [e2] at hy
    rw [← hx, ← hy]
    exact hS
  · intro hS
    obtain ⟨e1, e2⟩ := apply_after_inverse m h px py
    exact ⟨_, _, ⟨px, py, hS, rfl, rfl⟩, e1, e2⟩

theorem get_clip_value (g : GpGraphics) (out0 : GpRegion) (hv : g.state = GraphicsState.Valid) :
    GdipGetClip g out0 =
      (GpStatus.Ok,
        if g.clip_matrix = GpMatrix.identity then g.clip
        else GpRegion.transform g.clip g.clip_matrix) := by
  unfold GdipGetClip
  by_cases hid : g.clip_matrix = GpMatrix.identity <;>
    simp [hv, hid, gdip_is_matrix_empty, GdipTransformRegion]

/-- C13. Clip set/get round trip in caller space: on a Valid context with an
invertible clip-space transform C, `GdipSetClipRegion` (and `GdipSetClipRect`,
for the rectangle region) with mode Replace stores the region transformed by
the inverse of C, or the region itself when C is the identity; a following
`GdipGetClip` returns Ok with the stored region transformed forward by C (the
stored region itself when C is the identity), and the returned region holds
exactly the points of the region that was set. -/
theorem clip_set_get_round_trip (env : Env) (g : GpGraphics) (S out0 : GpRegion) (R : GpRectF)
    (inPath : GpPath → ℚ → ℚ → Prop) (hv : g.state = GraphicsState.Valid)
    (hC : g.clip_matrix.det ≠ 0) :
    ((GdipSetClipRegion env g (some S) CombineMode.Replace).2.clip =
        (if g.clip_matrix = GpMatrix.identity then S
          else GpRegion.transform S (cairo_matrix_invert g.clip_matrix).2) ∧
      GdipGetClip (GdipSetClipRegion env g (some S) CombineMode.Replace).2 out0 =
        (GpStatus.Ok,
          if g.clip_matrix = GpMatrix.identity then
            (GdipSetClipRegion env g (some S) CombineMode.Replace).2.clip
          else GpRegion.transform (GdipSetClipRegion env g (some S) CombineMode.Replace).2.clip
            g.clip_matrix) ∧
      ∀ px py,
        GpRegion.contains inPath
            (GdipGetClip (GdipSetClipRegion env g (some S) CombineMode.Replace).2 out0).2
            px py ↔ GpRegion.contains inPath S px py) ∧
    ((GdipSetClipRect env g R.X R.Y R.Width R.Height CombineMode.Replace).2.clip =
        (if g.clip_matrix = GpMatrix.identity then GpRegion.rect R
          else GpRegion.transform (GpRegion.rect R) (cairo_matrix_invert g.clip_matrix).2) ∧
      GdipGetClip (GdipSetClipRect env g R.X R.Y R.Width R.Height CombineMode.Replace).2 out0 =
        (GpStatus.Ok,
          if g.clip_matrix = GpMatrix.identity then
            (GdipSetClipRect env g R.X R.Y R.Width R.Height CombineMode.Replace).2.clip
          else
            GpRegion.transform
              (GdipSetClipRect env g R.X R.Y R.Width R.Height CombineMode.Replace).2.clip
              g.clip_matrix) ∧
      ∀ px py,
        GpRegion.contains inPath
            (GdipGetClip
              (GdipSetClipRect env g R.X R.Y R.Width R.Height CombineMode.Replace).2 out0).2
            px py ↔ GpRegion.contains inPath (GpRegion.rect R) px py) := by
  constructor
  · obtain ⟨c1, m1, s1⟩ := set_clip_region_fields env g S hv
    have hg := get_clip_value (GdipSetClipRegion env g (some S) CombineMode.Replace).2 out0
      (by rw [s1, hv])
    rw [m1] at hg
    refine ⟨c1, hg, ?_⟩
    intro px py
    rw [hg, c1]
    by_cases hid : g.clip_matrix = GpMatrix.identity
    · simp only [if_pos hid]
    · simp only [if_neg hid]
      exact contains_round_trip inPath S g.clip_matrix hC px py
  · obtain ⟨c1, m1, s1⟩ := set_clip_rect_fields env g R.X R.Y R.Width R.Height hv
    have hg := get_clip_value
      (GdipSetClipRect env g R.X R.Y R.Width R.Height CombineMode.Replace).2 out0
      (by rw [s1, hv])
    rw [m1] at hg
    refine ⟨c1, hg, ?_⟩
    intro px py
    rw [hg, c1]
    by_cases hid : g.clip_matrix = GpMatrix.identity
    · simp only [if_pos hid]
    · simp only [if_neg hid]
      exact contains_round_trip inPath (GpRegion.rect R) g.clip_matrix hC px py
theorem translatedCairo_clip_matrix : translatedCairo.clip_matrix = ⟨1, 0, 0, 1, -3, -4⟩ := by
  have h := (translate_world_fields acceptAll freshCairo 3 4 GpMatrixOrder.Prepend).2.1
  have hf : freshCairo.clip_matrix = GpMatrix.identity := rfl
  rw [hf, translate_identity_clip] at h
  exact h

theorem clip_set_get_round_trip_witness :
    (translatedCairo.state = GraphicsState.Valid ∧ translatedCairo.clip_matrix.det ≠ 0) ∧
      (GdipSetClipRegion acceptAll translatedCairo (some (GpRegion.rect ⟨0, 0, 10, 10⟩))
          CombineMode.Replace).2.clip =
        (if translatedCairo.clip_matrix = GpMatrix.identity then GpRegion.rect ⟨0, 0, 10, 10⟩
          else GpRegion.transform (GpRegion.rect ⟨0, 0, 10, 10⟩)
            (cairo_matrix_invert translatedCairo.clip_matrix).2) ∧
      ∀ px py,
        GpRegion.contains (fun _ _ _ => False)
            (GdipGetClip
              (GdipSetClipRegion acceptAll translatedCairo (some (GpRegion.rect ⟨0, 0, 10, 10⟩))
                CombineMode.Replace).2 GpRegion.infinite).2 px py ↔
          GpRegion.contains (fun _ _ _ => False) (GpRegion.rect ⟨0, 0, 10, 10⟩) px py :=
  have hd : translatedCairo.clip_matrix.det ≠ 0 := by
    rw [translatedCairo_clip_matrix]; norm_num [GpMatrix.det]
  have w := clip_set_get_round_trip acceptAll translatedCairo (GpRegion.rect ⟨0, 0, 10, 10⟩)
    GpRegion.infinite ⟨0, 0, 10, 10⟩ (fun _ _ _ => False) rfl hd
  ⟨⟨rfl, hd⟩, w.1.1, w.1.2.2⟩

/-- C14 (code defect). With device bounds (0, 0, 50, 50) and the clip rectangle
(100, 100, 10, 10), which lies outside them, `GdipGetVisibleClipBounds`
returns Ok with the rectangle (100, 100, -50, -50): the width and the height
are negative. -/
theorem visible_clip_bounds_negative :
    clippedOutside.bounds = ⟨0, 0, 50, 50⟩ ∧
      GdipGetClipBounds acceptAll clippedOutside ⟨0, 0, 0, 0⟩ =
        (GpStatus.Ok, ⟨100, 100, 10, 10⟩) ∧
      GdipGetVisibleClipBounds acceptAll clippedOutside ⟨0, 0, 0, 0⟩ =
        (GpStatus.Ok, ⟨100, 100, -50, -50⟩) ∧
      (GdipGetVisibleClipBounds acceptAll clippedOutside ⟨0, 0, 0, 0⟩).2.Width < 0 ∧
      (GdipGetVisibleClipBounds acceptAll clippedOutside ⟨0, 0, 0, 0⟩).2.Height < 0 := by
  have hb : clippedOutside.bounds = ⟨0, 0, 50, 50⟩ := rfl
  have hs : clippedOutside.state = GraphicsState.Valid := rfl
  have hm : clippedOutside.clip_matrix = GpMatrix.identity := rfl
  have hc : clippedOutside.clip = GpRegion.rect ⟨100, 100, 10, 10⟩ := by
    have h := (set_clip_rect_fields acceptAll
      (GdipSetVisibleClip_linux freshCairo ⟨0, 0, 50, 50⟩).2 100 100 10 10 rfl).1
    have hm0 : (GdipSetVisibleClip_linux freshCairo ⟨0, 0, 50, 50⟩).2.clip_matrix =
        GpMatrix.identity := rfl
    rw [if_pos hm0] at h
    exact h
  have hcb : GdipGetClipBounds acceptAll clippedOutside ⟨0, 0, 0, 0⟩ =
      (GpStatus.Ok, ⟨100, 100, 10, 10⟩) := by
    simp [GdipGetClipBounds, hs, hm, hc, gdip_is_matrix_empty, GdipGetRegionBounds,
      regionBounds]
  have hv : GdipGetVisibleClipBounds acceptAll clippedOutside ⟨0, 0, 0, 0⟩ =
      (GpStatus.Ok, ⟨100, 100, -50, -50⟩) := by
    unfold GdipGetVisibleClipBounds
    simp only [hcb, hs, hc, hb, gdip_is_InfiniteRegion]
    norm_num [show GraphicsState.Valid ≠ GraphicsState.Busy by decide]
  refine ⟨hb, hcb, hv, ?_, ?_⟩ <;> rw [hv] <;> norm_num

theorem boundsAfter_reproject (g : GpGraphics) :
    boundsAfter g = reproject g.clip_matrix g.bounds := by
  have e0 : ∀ (a b d : GpPointF), [a, b].getD 0 d = a := fun _ _ _ => rfl
  have e1 : ∀ (a b d : GpPointF), [a, b].getD 1 d = b := fun _ _ _ => rfl
  unfold boundsAfter apply_world_to_bounds reproject GdipTransformMatrixPoints floatImage
    transformPoint
  simp only [List.length_cons, List.length_nil, List.map_cons, List.map_nil, e0, e1,
    ne_eq, not_true_eq_false, if_false, Nat.reduceAdd, OfNat.ofNat_ne_zero, GpRect.mk.injEq,
    gt_iff_lt]
  refine ⟨?_, ?_, ?_, ?_⟩ <;>
    (split_ifs with h
     · simp only [min_eq_right (le_of_lt h), max_eq_left (le_of_lt h)]
     · simp only [min_eq_left (not_lt.mp h), max_eq_right (not_lt.mp h)])

/-- C21. Drawing primitives validate before dispatch, except the Bezier
sequences: `GdipDrawBeziers` and `GdipDrawBeziersI` called with a null pen, a
null points array and `count = 0` return Ok instead of InvalidParameter,
because the test `count == 0` precedes the null tests; with any other count
they return InvalidParameter, and the sibling primitives (lines, pie, arc,
line, rectangle fill) return InvalidParameter for a null pen, brush or
points array whatever the other arguments are. None of these calls reaches
a backend: the context, with its log of backend calls, is returned as is. -/
theorem draw_beziers_count_zero_skips_validation (env : Env) (g : GpGraphics) :
    GdipDrawBeziers env g none none 0 = (GpStatus.Ok, g) ∧
    GdipDrawBeziersI env g none none 0 = (GpStatus.Ok, g) ∧
    (∀ points count, GdipDrawBeziers env g none points count =
      (if count = 0 then GpStatus.Ok else GpStatus.InvalidParameter, g)) ∧
    (∀ pen count, GdipDrawBeziers env g pen none count =
      (if count = 0 then GpStatus.Ok else GpStatus.InvalidParameter, g)) ∧
    (∀ points count, GdipDrawBeziersI env g none points count =
      (if count = 0 then GpStatus.Ok else GpStatus.InvalidParameter, g)) ∧
    (∀ pen count, GdipDrawBeziersI env g pen none count =
      (if count = 0 then GpStatus.Ok else GpStatus.InvalidParameter, g)) ∧
    (∀ points count, GdipDrawLines env g none points count = (GpStatus.InvalidParameter, g)) ∧
    (∀ pen count, GdipDrawLines env g pen none count = (GpStatus.InvalidParameter, g)) ∧
    (∀ points count, GdipDrawLinesI env g none points count = (GpStatus.InvalidParameter, g)) ∧
    (∀ pen count, GdipDrawLinesI env g pen none count = (GpStatus.InvalidParameter, g)) ∧
    (∀ x y w h a b, GdipDrawPie env g none x y w h a b = (GpStatus.InvalidParameter, g)) ∧
    (∀ x y w h a b, GdipDrawPieI env g none x y w h a b = (GpStatus.InvalidParameter, g)) ∧
    (∀ x y w h a b, GdipDrawArc env g none x y w h a b = (GpStatus.InvalidParameter, g)) ∧
    (∀ x1 y1 x2 y2, GdipDrawLine env g none x1 y1 x2 y2 = (GpStatus.InvalidParameter, g)) ∧
    (∀ x y w h, GdipFillRectangle env g none x y w h = (GpStatus.InvalidParameter, g)) ∧
    (∀ x y w h, GdipFillRectangleI env g none x y w h = (GpStatus.InvalidParameter, g)) := by
  refine ⟨rfl, rfl, ?_, ?_, ?_, ?_, ?_, ?_, ?_, ?_, ?_, ?_, ?_, ?_, ?_, ?_⟩
  · intro points count
    unfold GdipDrawBeziers
    split_ifs <;> rfl
  · intro pen count
    unfold GdipDrawBeziers
    split_ifs <;> cases pen <;> rfl
  · intro points count
    unfold GdipDrawBeziersI
    split_ifs <;> rfl
  · intro pen count
    unfold GdipDrawBeziersI
    split_ifs <;> cases pen <;> rfl
  · intro points count; rfl
  · intro pen count; cases pen <;> rfl
  · intro points count; rfl
  · intro pen count; cases pen <;> rfl
  · intros; rfl
  · intros; rfl
  · intros; rfl
  · intros; rfl
  · intros; rfl
  · intros; rfl

/-- C22. Destruction is rejected while Busy: on a Busy context
`GdipDeleteGraphics` returns ObjectBusy, the context stays alive with every
field as it was (clip region, matrices, saved snapshots, state flag), and
nothing is released. -/
theorem delete_rejected_while_busy (g : GpGraphics) (recording : Bool)
    (h : g.state = GraphicsState.Busy) :
    GdipDeleteGraphics g recording = (GpStatus.ObjectBusy, some g, []) := by
  unfold GdipDeleteGraphics
  rw [if_pos (by rw [h]; decide)]

theorem delete_rejected_while_busy_witness :
    busyCairo.state = GraphicsState.Busy ∧
      GdipDeleteGraphics busyCairo true = (GpStatus.ObjectBusy, some busyCairo, []) :=
  ⟨rfl, delete_rejected_while_busy busyCairo true rfl⟩

/-- C23. Set-identity equals reset: on every Valid context
`GdipSetWorldTransform` with the identity matrix returns the same status and
the same resulting context (effective transform, clip-space transform,
device bounds, logged backend call and every other field) as
`GdipResetWorldTransform`. -/
theorem set_identity_equals_reset (env : Env) (g : GpGraphics)
    (h : g.state = GraphicsState.Valid) :
    GdipSetWorldTransform env g (some GpMatrix.identity) = GdipResetWorldTransform env g := by
  unfold GdipSetWorldTransform
  simp only [h, gdip_is_matrix_empty, decide_True, if_true]
  rw [if_neg (by decide)]

theorem set_identity_equals_reset_witness :
    freshCairo.state = GraphicsState.Valid ∧
      GdipSetWorldTransform acceptAll freshCairo (some GpMatrix.identity) =
        GdipResetWorldTransform acceptAll freshCairo :=
  ⟨rfl, set_identity_equals_reset acceptAll freshCairo rfl⟩

theorem save_view (g : GpGraphics) :
    (GdipSaveGraphics g).2.2.backend = g.backend ∧
      (GdipSaveGraphics g).2.2.state = g.state ∧
      (GdipSaveGraphics g).1 ≠ GpStatus.GenericError := by
  by_cases hp : savedPos g < MAX_GRAPHICS_STATE_STACK
  · obtain ⟨g1, hs, -⟩ := save_succeeds g hp
    obtain ⟨-, -, slots, hg, -⟩ := save_ok g _ g1 hs
    rw [hs, hg]
    exact ⟨rfl, rfl, by simp⟩
  · rw [save_exhausted g (by omega)]
    exact ⟨rfl, rfl, by simp⟩

theorem begin_view (env : Env) (g : GpGraphics) :
    (GdipBeginContainer2 env g).2.2.backend = g.backend ∧
      (GdipBeginContainer2 env g).2.2.state = g.state ∧
      (GdipBeginContainer2 env g).2.2.saved_status = (GdipSaveGraphics g).2.2.saved_status ∧
      (GdipBeginContainer2 env g).2.2.saved_status_pos = (GdipSaveGraphics g).2.2.saved_status_pos ∧
      (GdipBeginContainer2 env g).1 = (GdipSaveGraphics g).1 ∧
      (GdipBeginContainer2 env g).2.1 = (GdipSaveGraphics g).2.1 := by
  have hr := gdip_graphics_reset_stack env (GdipSaveGraphics g).2.2
  simp only [stackView, Prod.mk.injEq] at hr
  obtain ⟨h1, h2, h3, -, h5⟩ := hr
  obtain ⟨hb, hst, -⟩ := save_view g
  unfold GdipBeginContainer2
  by_cases hs : (GdipSaveGraphics g).1 = GpStatus.Ok
  · simp only [if_pos hs]
    exact ⟨h5.trans hb, h3.trans hst, h1, h2, trivial, trivial⟩
  · simp only [if_neg hs]
    exact ⟨hb, hst, trivial, trivial, trivial, trivial⟩

theorem restore_view (env : Env) (g : GpGraphics) (t : Nat) (r : GpStatus × GpGraphics)
    (h : GdipRestoreGraphics env g t = some r) :
    r.2.backend = g.backend ∧ r.2.saved_status = g.saved_status ∧
      (r.2.saved_status_pos = g.saved_status_pos ∨
        (r.2.saved_status_pos = t ∧ t < MAX_GRAPHICS_STATE_STACK ∧ g.saved_status ≠ none)) ∧
      (r.1 = GpStatus.InvalidParameter ∨ ∃ x, r.1 = env.backend BackendCall.cairo_SetGraphicsClip x) := by
  by_cases hv : t ≥ MAX_GRAPHICS_STATE_STACK ∨ t > g.saved_status_pos
  · rw [restore_rejects env g t hv] at h
    simp only [Option.some.injEq] at h
    rw [← h]
    exact ⟨rfl, rfl, Or.inl rfl, Or.inl rfl⟩
  · cases hs : g.saved_status with
    | none =>
      unfold GdipRestoreGraphics at h
      rw [if_neg hv] at h
      simp only [hs] at h
      exact absurd h (by simp)
    | some slots =>
      cases hc : (slots t).clip with
      | none =>
        unfold GdipRestoreGraphics at h
        rw [if_neg hv] at h
        simp only [hs, hc, GdipCloneRegion] at h
        exact absurd h (by simp)
      | some c =>
        obtain ⟨s, e, hr⟩ := restore_of_slot env g t slots c (by omega) (by omega) hs hc
        have hs1 : ∃ x, s = env.backend BackendCall.cairo_SetGraphicsClip x := by
          unfold GdipRestoreGraphics at hr
          rw [if_neg hv] at hr
          simp only [hs, hc, GdipCloneRegion, invoke, Option.some.injEq, Prod.mk.injEq] at hr
          exact ⟨_, hr.1.symm⟩
        rw [hr] at h
        simp only [Option.some.injEq] at h
        rw [← h]
        exact ⟨rfl, hs, Or.inr ⟨rfl, by omega, by simp⟩, Or.inr hs1⟩

theorem mutation_status (env : Env) (g : GpGraphics) (m : Mutation)
    (hk : g.backend ≠ GraphicsBackEnd.Unknown)
    (hbe : ∀ c x, env.backend c x ≠ GpStatus.GenericError) :
    (m.run env g).1 ≠ GpStatus.GenericError := by
  cases m <;>
    simp only [Mutation.run, GdipSetWorldTransform, GdipResetWorldTransform,
      GdipMultiplyWorldTransform, GdipRotateWorldTransform, GdipScaleWorldTransform,
      GdipTranslateWorldTransform, GdipSetClipGraphics, GdipSetClipRect, GdipSetClipRectI,
      GdipSetClipPath, GdipSetClipRegion, GdipSetClipHrgn, GdipResetClip, GdipTranslateClip,
      GdipTranslateClipI, GdipSetRenderingOrigin, GdipSetInterpolationMode,
      GdipSetTextRenderingHint, GdipSetPixelOffsetMode, GdipSetTextContrast,
      GdipSetSmoothingMode, GdipSetCompositingMode, GdipSetCompositingQuality,
      GdipSetPageScale, GdipSetPageUnit, apply_world_to_bounds_snd, invoke,
      GdipMultiplyMatrix_fst, GdipScaleMatrix, GdipTranslateMatrix, GdipRotateMatrix,
      gdip_cairo_matrix_copy, GdipCombineRegionPath, GdipCombineRegionRegion_fst] <;>
    (repeat' split) <;>
    simp_all [GdipInvertMatrix_fst, GdipCreateRegionRect, GdipClonePath, GdipTranslateRegion,
      GdipTransformRegion, GdipTransformPath]

theorem operation_view (env : Env) (g : GpGraphics) (op : Operation) (r : GpStatus × GpGraphics)
    (h : op.run env g = some r) :
    r.2.backend = g.backend ∧ (CountWithinArray g → CountWithinArray r.2) := by
  cases op with
  | Mutate m =>
    simp only [Operation.run, Option.some.injEq] at h
    have hv := stackView_run env g m
    rw [h] at hv
    simp only [stackView, Prod.mk.injEq] at hv
    obtain ⟨h1, h2, -, -, h5⟩ := hv
    exact ⟨h5, fun hi => by unfold CountWithinArray at hi ⊢; rw [h1, h2]; exact hi⟩
  | SaveGraphics =>
    simp only [Operation.run, Option.some.injEq] at h
    rw [← h]
    refine ⟨(save_view g).1, fun hi => ?_⟩
    by_cases hp : savedPos g < MAX_GRAPHICS_STATE_STACK
    · obtain ⟨g1, hs, -⟩ := save_succeeds g hp
      obtain ⟨-, -, slots, hg, -⟩ := save_ok g _ g1 hs
      rw [hs, hg]
      exact ⟨by simp only []; omega, by simp⟩
    · rw [save_exhausted g (by omega)]
      exact hi
  | RestoreGraphics t =>
    simp only [Operation.run] at h
    obtain ⟨h1, h2, h3, -⟩ := restore_view env g t r h
    refine ⟨h1, fun hi => ?_⟩
    unfold CountWithinArray at hi ⊢
    rw [h2]
    rcases h3 with h3 | ⟨h3, h4, h5⟩
    · rw [h3]; exact hi
    · rw [h3]; exact ⟨by omega, fun hn => absurd hn h5⟩
  | BeginContainer2 =>
    simp only [Operation.run, Option.some.injEq] at h
    rw [← h]
    obtain ⟨h1, -, h3, h4, -, -⟩ := begin_view env g
    refine ⟨h1, fun hi => ?_⟩
    unfold CountWithinArray
    simp only [h3, h4]
    by_cases hp : savedPos g < MAX_GRAPHICS_STATE_STACK
    · obtain ⟨g1, hs, -⟩ := save_succeeds g hp
      obtain ⟨-, -, slots, hg, -⟩ := save_ok g _ g1 hs
      rw [hs, hg]
      exact ⟨by simp only []; omega, by simp⟩
    · rw [save_exhausted g (by omega)]
      exact hi
  | EndContainer t =>
    simp only [Operation.run, GdipEndContainer] at h
    obtain ⟨h1, h2, h3, -⟩ := restore_view env g t r h
    refine ⟨h1, fun hi => ?_⟩
    unfold CountWithinArray at hi ⊢
    rw [h2]
    rcases h3 with h3 | ⟨h3, h4, h5⟩
    · rw [h3]; exact hi
    · rw [h3]; exact ⟨by omega, fun hn => absurd hn h5⟩
  | GetDC =>
    simp only [Operation.run, Option.some.injEq] at h
    rw [← h]
    unfold GdipGetDC
    refine ⟨?_, fun hi => ?_⟩ <;> (repeat' split) <;> first | rfl | exact hi
  | ReleaseDC hdc =>
    simp only [Operation.run, Option.some.injEq] at h
    rw [← h]
    unfold GdipReleaseDC
    refine ⟨?_, fun hi => ?_⟩ <;> (repeat' split) <;> first | rfl | exact hi
  | SetVisibleClip_linux rect =>
    simp only [Operation.run, Option.some.injEq] at h
    rw [← h]
    exact ⟨rfl, fun hi => hi⟩
  | DrawArc pen x y w h1 a b =>
    simp only [Operation.run, Option.some.injEq] at h
    rw [← h]
    unfold GdipDrawArc
    refine ⟨?_, fun hi => ?_⟩ <;> (repeat' split) <;> first | rfl | exact hi
  | DrawLine pen x1 y1 x2 y2 =>
    simp only [Operation.run, Option.some.injEq] at h
    rw [← h]
    unfold GdipDrawLine
    refine ⟨?_, fun hi => ?_⟩ <;> (repeat' split) <;> first | rfl | exact hi
  | DrawBeziers pen pts n =>
    simp only [Operation.run, Option.some.injEq] at h
    rw [← h]
    unfold GdipDrawBeziers
    refine ⟨?_, fun hi => ?_⟩ <;> (repeat' split) <;> first | rfl | exact hi
  | DrawBeziersI pen pts n =>
    simp only [Operation.run, Option.some.injEq] at h
    rw [← h]
    unfold GdipDrawBeziersI
    refine ⟨?_, fun hi => ?_⟩ <;> (repeat' split) <;> first | rfl | exact hi
  | DrawLines pen pts n =>
    simp only [Operation.run, Option.some.injEq] at h
    rw [← h]
    unfold GdipDrawLines
    refine ⟨?_, fun hi => ?_⟩ <;> (repeat' split) <;> first | rfl | exact hi
  | DrawLinesI pen pts n =>
    simp only [Operation.run, Option.some.injEq] at h
    rw [← h]
    unfold GdipDrawLinesI
    refine ⟨?_, fun hi => ?_⟩ <;> (repeat' split) <;> first | rfl | exact hi
  | DrawPie pen x y w h1 a b =>
    simp only [Operation.run, Option.some.injEq] at h
    rw [← h]
    unfold GdipDrawPie
    refine ⟨?_, fun hi => ?_⟩ <;> (repeat' split) <;> first | rfl | exact hi
  | DrawPieI pen x y w h1 a b =>
    simp only [Operation.run, Option.some.injEq] at h
    rw [← h]
    unfold GdipDrawPieI
    refine ⟨?_, fun hi => ?_⟩ <;> (repeat' split) <;> first | rfl | exact hi
  | FillRectangle brush x y w h1 =>
    simp only [Operation.run, Option.some.injEq] at h
    rw [← h]
    unfold GdipFillRectangle
    refine ⟨?_, fun hi => ?_⟩ <;> (repeat' split) <;> first | rfl | exact hi
  | FillRectangleI brush x y w h1 =>
    simp only [Operation.run, Option.some.injEq] at h
    rw [← h]
    unfold GdipFillRectangleI
    refine ⟨?_, fun hi => ?_⟩ <;> (repeat' split) <;> first | rfl | exact hi

theorem operation_status (env : Env) (g : GpGraphics) (op : Operation) (r : GpStatus × GpGraphics)
    (hk : g.backend ≠ GraphicsBackEnd.Unknown)
    (hbe : ∀ c x, env.backend c x ≠ GpStatus.GenericError)
    (h : op.run env g = some r) : r.1 ≠ GpStatus.GenericError := by
  cases op with
  | Mutate m =>
    simp only [Operation.run, Option.some.injEq] at h
    rw [← h]
    exact mutation_status env g m hk hbe
  | SaveGraphics =>
    simp only [Operation.run, Option.some.injEq] at h
    rw [← h]
    exact (save_view g).2.2
  | RestoreGraphics t =>
    simp only [Operation.run] at h
    obtain ⟨-, -, -, h4⟩ := restore_view env g t r h
    rcases h4 with h4 | ⟨x, h4⟩
    · rw [h4]; simp
    · rw [h4]; exact hbe _ _
  | BeginContainer2 =>
    simp only [Operation.run, Option.some.injEq] at h
    rw [← h]
    simp only [(begin_view env g).2.2.2.2.1]
    exact (save_view g).2.2
  | EndContainer t =>
    simp only [Operation.run, GdipEndContainer] at h
    obtain ⟨-, -, -, h4⟩ := restore_view env g t r h
    rcases h4 with h4 | ⟨x, h4⟩
    · rw [h4]; simp
    · rw [h4]; exact hbe _ _
  | GetDC =>
    simp only [Operation.run, Option.some.injEq] at h
    rw [← h]
    unfold GdipGetDC
    (repeat' split) <;> simp
  | ReleaseDC hdc =>
    simp only [Operation.run, Option.some.injEq] at h
    rw [← h]
    unfold GdipReleaseDC
    (repeat' split) <;> simp
  | SetVisibleClip_linux rect =>
    simp only [Operation.run, Option.some.injEq] at h
    rw [← h]
    simp [GdipSetVisibleClip_linux]
  | DrawArc pen x y w h1 a b =>
    simp only [Operation.run, Option.some.injEq] at h
    rw [← h]
    unfold GdipDrawArc
    (repeat' split) <;> simp_all [invoke]
  | DrawLine pen x1 y1 x2 y2 =>
    simp only [Operation.run, Option.some.injEq] at h
    rw [← h]
    unfold GdipDrawLine
    (repeat' split) <;> simp_all [invoke]
  | DrawBeziers pen pts n =>
    simp only [Operation.run, Option.some.injEq] at h
    rw [← h]
    unfold GdipDrawBeziers
    (repeat' split) <;> simp_all [invoke]
  | DrawBeziersI pen pts n =>
    simp only [Operation.run, Option.some.injEq] at h
    rw [← h]
    unfold GdipDrawBeziersI
    (repeat' split) <;> simp_all [invoke]
  | DrawLines pen pts n =>
    simp only [Operation.run, Option.some.injEq] at h
    rw [← h]
    unfold GdipDrawLines
    (repeat' split) <;> simp_all [invoke]
  | DrawLinesI pen pts n =>
    simp only [Operation.run, Option.some.injEq] at h
    rw [← h]
    unfold GdipDrawLinesI
    (repeat' split) <;> simp_all [invoke]
  | DrawPie pen x y w h1 a b =>
    simp only [Operation.run, Option.some.injEq] at h
    rw [← h]
    unfold GdipDrawPie
    (repeat' split) <;> simp_all [invoke]
  | DrawPieI pen x y w h1 a b =>
    simp only [Operation.run, Option.some.injEq] at h
    rw [← h]
    unfold GdipDrawPieI
    (repeat' split) <;> simp_all [invoke]
  | FillRectangle brush x y w h1 =>
    simp only [Operation.run, Option.some.injEq] at h
    rw [← h]
    unfold GdipFillRectangle
    (repeat' split) <;> simp_all [invoke]
  | FillRectangleI brush x y w h1 =>
    simp only [Operation.run, Option.some.injEq] at h
    rw [← h]
    unfold GdipFillRectangleI
    (repeat' split) <;> simp_all [invoke]

theorem new_view (env : Env) (raw : GpGraphics) :
    (gdip_graphics_new env raw).backend = GraphicsBackEnd.Cairo ∧
      (gdip_metafile_graphics_new env raw).backend = GraphicsBackEnd.Metafile ∧
      (gdip_graphics_new env raw).saved_status = none ∧
      (gdip_metafile_graphics_new env raw).saved_status = none ∧
      (gdip_graphics_new env raw).saved_status_pos = 0 ∧
      (gdip_metafile_graphics_new env raw).saved_status_pos = 0 := by
  simp [gdip_graphics_new, gdip_metafile_graphics_new, gdip_graphics_common_init,
    gdip_graphics_reset, GdipResetClip_snd, GdipSetSmoothingMode_snd]

theorem runOperations_view (env : Env) (ops : List Operation) :
    ∀ (g g1 : GpGraphics), runOperations env g ops = some g1 →
      g1.backend = g.backend ∧ (CountWithinArray g → CountWithinArray g1) := by
  induction ops with
  | nil =>
    intro g g1 h
    simp only [runOperations, Option.some.injEq] at h
    rw [← h]
    exact ⟨rfl, fun hi => hi⟩
  | cons op ops ih =>
    intro g g1 h
    unfold runOperations at h
    cases hr : op.run env g with
    | none =>
      rw [hr] at h
      exact absurd h (by simp)
    | some r =>
      rw [hr] at h
      obtain ⟨h1, h2⟩ := operation_view env g op r hr
      obtain ⟨i1, i2⟩ := ih r.2 g1 h
      exact ⟨i1.trans h1, fun hi => i2 (h2 hi)⟩

theorem savedPos_of_count (g : GpGraphics) (h : CountWithinArray g) :
    savedPos g = g.saved_status_pos := by
  unfold savedPos
  cases hs : g.saved_status with
  | none => exact (h.2 hs).symm
  | some s => rfl

/-- C24. Backend kind is fixed: after every sequence of operations on a
context created by `gdip_graphics_new` or `gdip_metafile_graphics_new` the
backend kind is the one chosen by the constructor (immediate or deferred,
never the unknown kind), so the default branch of a backend dispatch is not
taken: the next operation keeps the backend kind, and it returns
GenericError only if the backend function itself does. -/
theorem backend_kind_fixed (env : Env) (raw : GpGraphics) (ops : List Operation)
    (g0 g : GpGraphics)
    (hnew : g0 = gdip_graphics_new env raw ∨ g0 = gdip_metafile_graphics_new env raw)
    (hrun : runOperations env g0 ops = some g) :
    g.backend = g0.backend ∧ g.backend ≠ GraphicsBackEnd.Unknown ∧
      (g0 = gdip_graphics_new env raw → g.backend = GraphicsBackEnd.Cairo) ∧
      (g0 = gdip_metafile_graphics_new env raw → g.backend = GraphicsBackEnd.Metafile) ∧
      (∀ (op : Operation) (r : GpStatus × GpGraphics), op.run env g = some r →
        r.2.backend = g.backend ∧
        ((∀ c x, env.backend c x ≠ GpStatus.GenericError) → r.1 ≠ GpStatus.GenericError)) := by
  obtain ⟨n1, n2, -⟩ := new_view env raw
  obtain ⟨hb, -⟩ := runOperations_view env ops g0 g hrun
  have hk : g.backend ≠ GraphicsBackEnd.Unknown := by
    rcases hnew with h | h
    · rw [hb, h, n1]; simp
    · rw [hb, h, n2]; simp
  refine ⟨hb, hk, fun h => by rw [hb, h, n1], fun h => by rw [hb, h, n2], ?_⟩
  intro op r hr
  exact ⟨(operation_view env g op r hr).1, fun hbe => operation_status env g op r hk hbe hr⟩

theorem backend_kind_fixed_witness :
    (freshCairo = gdip_graphics_new acceptAll rawBlock ∨
        freshCairo = gdip_metafile_graphics_new acceptAll rawBlock) ∧
      runOperations acceptAll freshCairo sampleOperations = some sampleRun ∧
      sampleRun.backend = GraphicsBackEnd.Cairo :=
  have hr : runOperations acceptAll freshCairo sampleOperations = some sampleRun := rfl
  ⟨Or.inl rfl, hr,
    (backend_kind_fixed acceptAll rawBlock sampleOperations freshCairo sampleRun (Or.inl rfl)
      hr).2.2.1 rfl⟩

theorem translate_world_matrices (env : Env) (g : GpGraphics) (dx dy : ℚ) (o : GpMatrixOrder) :
    (GdipTranslateWorldTransform env g dx dy o).2.copy_of_ctm =
        (GdipTranslateMatrix g.copy_of_ctm dx dy o).2 ∧
      (GdipTranslateWorldTransform env g dx dy o).2.clip_matrix =
        (GdipTranslateMatrix g.clip_matrix (-dx) (-dy) (gdip_matrix_reverse_order o)).2 ∧
      (GdipTranslateWorldTransform env g dx dy o).2.bounds =
        reproject (GdipTranslateMatrix g.clip_matrix (-dx) (-dy) (gdip_matrix_reverse_order o)).2
          g.bounds := by
  unfold GdipTranslateWorldTransform
  simp only [GdipTranslateMatrix, GdipMultiplyMatrix_fst, ne_eq, not_true_eq_false, if_false,
    apply_world_to_bounds_snd, boundsAfter_reproject]
  cases hb : g.backend <;> simp [invoke]

theorem scale_world_matrices (env : Env) (g : GpGraphics) (sx sy : ℚ) (o : GpMatrixOrder)
    (h : (GdipScaleWorldTransform env g sx sy o).1 = GpStatus.Ok) :
    sx ≠ 0 ∧ sy ≠ 0 ∧
      (GdipScaleWorldTransform env g sx sy o).2.copy_of_ctm =
        (GdipScaleMatrix g.copy_of_ctm sx sy o).2 ∧
      (GdipScaleWorldTransform env g sx sy o).2.clip_matrix =
        (GdipScaleMatrix g.clip_matrix (1 / sx) (1 / sy) (gdip_matrix_reverse_order o)).2 ∧
      (GdipScaleWorldTransform env g sx sy o).2.bounds =
        reproject (GdipScaleMatrix g.clip_matrix (1 / sx) (1 / sy)
          (gdip_matrix_reverse_order o)).2 g.bounds := by
  by_cases hz : sx = 0 ∨ sy = 0
  · unfold GdipScaleWorldTransform at h
    rw [if_pos hz] at h
    exact absurd h (by simp)
  · refine ⟨fun h0 => hz (Or.inl h0), fun h0 => hz (Or.inr h0), ?_⟩
    unfold GdipScaleWorldTransform
    rw [if_neg hz]
    simp only [GdipScaleMatrix, GdipMultiplyMatrix_fst, ne_eq, not_true_eq_false, if_false,
      apply_world_to_bounds_snd, boundsAfter_reproject]
    cases hb : g.backend <;> simp [invoke]

theorem rotate_world_matrices (env : Env) (g : GpGraphics) (angle : ℚ) (o : GpMatrixOrder)
    (h : g.state ≠ GraphicsState.Busy) :
    (GdipRotateWorldTransform env g angle o).2.copy_of_ctm =
        (GdipRotateMatrix env.rotation g.copy_of_ctm angle o).2 ∧
      (GdipRotateWorldTransform env g angle o).2.clip_matrix =
        (GdipRotateMatrix env.rotation g.clip_matrix (-angle) (gdip_matrix_reverse_order o)).2 ∧
      (GdipRotateWorldTransform env g angle o).2.bounds =
        reproject (GdipRotateMatrix env.rotation g.clip_matrix (-angle)
          (gdip_matrix_reverse_order o)).2 g.bounds := by
  unfold GdipRotateWorldTransform
  rw [if_neg h]
  simp only [GdipRotateMatrix, GdipMultiplyMatrix_fst, ne_eq, not_true_eq_false, if_false,
    apply_world_to_bounds_snd, boundsAfter_reproject]
  cases hb : g.backend <;> simp [invoke]

theorem multiply_world_matrices (env : Env) (g : GpGraphics) (m : GpMatrix) (o : GpMatrixOrder)
    (hm : m.det ≠ 0) :
    (GdipMultiplyWorldTransform env g (some m) o).2.copy_of_ctm =
        (GdipMultiplyMatrix g.copy_of_ctm m o).2 ∧
      (GdipMultiplyWorldTransform env g (some m) o).2.clip_matrix =
        (GdipMultiplyMatrix g.clip_matrix (cairo_matrix_invert m).2 o).2 ∧
      (GdipMultiplyWorldTransform env g (some m) o).2.bounds =
        reproject (GdipMultiplyMatrix g.clip_matrix (cairo_matrix_invert m).2 o).2 g.bounds := by
  have hi : (GdipIsMatrixInvertible (some m)).2 = true := by
    simp [GdipIsMatrixInvertible, hm]
  have hc : ¬ ((!(GdipIsMatrixInvertible (some m)).2) = true ∨
      (GdipIsMatrixInvertible (some m)).1 ≠ GpStatus.Ok) := by
    simp [GdipIsMatrixInvertible, hm]
  have hinv : (GdipInvertMatrix m).2 = (cairo_matrix_invert m).2 := by
    unfold GdipInvertMatrix cairo_matrix_invert
    rw [if_neg hm]
  unfold GdipMultiplyWorldTransform
  simp only [if_neg hc, GdipMultiplyMatrix_fst, ne_eq, not_true_eq_false, if_false,
    gdip_cairo_matrix_copy, GdipInvertMatrix_fst m hi, apply_world_to_bounds_snd,
    boundsAfter_reproject, hinv]
  cases hb : g.backend <;> simp [invoke]

theorem multiply_world_rejected (env : Env) (g : GpGraphics) (m : GpMatrix) (o : GpMatrixOrder)
    (hm : m.det = 0) :
    GdipMultiplyWorldTransform env g (some m) o = (GpStatus.InvalidParameter, g) := by
  unfold GdipMultiplyWorldTransform
  simp [GdipIsMatrixInvertible, hm]

theorem reset_world_snd (env : Env) (g : GpGraphics) :
    (GdipResetWorldTransform env g).2 =
      { g with
        bounds := reproject (GdipInvertMatrix g.clip_matrix).2 g.bounds
        copy_of_ctm := GpMatrix.identity
        clip_matrix := GpMatrix.identity
        effects := effectsOf (GdipResetWorldTransform env g) } := by
  unfold effectsOf GdipResetWorldTransform
  simp only [apply_world_to_bounds_snd, boundsAfter_reproject]
  cases hb : g.backend <;> simp [invoke]

theorem set_world_matrices (env : Env) (g : GpGraphics) (m : GpMatrix)
    (hs : g.state ≠ GraphicsState.Busy) (hid : m ≠ GpMatrix.identity) (hm : m.det ≠ 0) :
    (GdipSetWorldTransform env g (some m)).2.copy_of_ctm = m ∧
      (GdipSetWorldTransform env g (some m)).2.clip_matrix = (cairo_matrix_invert m).2 ∧
      (GdipSetWorldTransform env g (some m)).2.bounds = g.bounds := by
  have hc : ¬ ((!(GdipIsMatrixInvertible (some m)).2) = true ∨
      (GdipIsMatrixInvertible (some m)).1 ≠ GpStatus.Ok) := by
    simp [GdipIsMatrixInvertible, hm]
  have hinv : (GdipInvertMatrix m).2 = (cairo_matrix_invert m).2 := by
    unfold GdipInvertMatrix cairo_matrix_invert
    rw [if_neg hm]
  have he : gdip_is_matrix_empty m = false := by simp [gdip_is_matrix_empty, hid]
  unfold GdipSetWorldTransform
  simp only [if_neg hs, he, if_neg hc, gdip_cairo_matrix_copy, hinv, Bool.false_eq_true, if_false]
  cases hb : g.backend <;> simp [invoke]

theorem set_world_ok (env : Env) (g : GpGraphics) (m : GpMatrix)
    (h : (GdipSetWorldTransform env g (some m)).1 = GpStatus.Ok) (hid : m ≠ GpMatrix.identity) :
    g.state ≠ GraphicsState.Busy ∧ m.det ≠ 0 := by
  have he : gdip_is_matrix_empty m = false := by simp [gdip_is_matrix_empty, hid]
  unfold GdipSetWorldTransform at h
  by_cases hs : g.state = GraphicsState.Busy
  · simp only [if_pos hs] at h
    exact absurd h (by simp)
  · refine ⟨hs, fun hm => ?_⟩
    simp only [if_neg hs, he, Bool.false_eq_true, if_false] at h
    rw [if_pos (by simp [GdipIsMatrixInvertible, hm])] at h
    exact absurd h (by simp)

theorem inverse_pair_append (a b m n : GpMatrix) (h : IsInversePair a b)
    (hmn : IsInversePair m n) :
    IsInversePair (cairo_matrix_multiply a m) (cairo_matrix_multiply n b) := by
  obtain ⟨h1, h2⟩ := h
  obtain ⟨h3, h4⟩ := hmn
  have i1 : ∀ x, cairo_matrix_multiply GpMatrix.identity x = x := by
    intro x; simp [cairo_matrix_multiply, GpMatrix.identity]
  constructor
  · rw [matrix_mul_assoc, ← matrix_mul_assoc m n b, h3, i1, h1]
  · rw [matrix_mul_assoc, ← matrix_mul_assoc b a m, h2, i1, h4]

theorem inverse_pair_symm (a b : GpMatrix) (h : IsInversePair a b) : IsInversePair b a :=
  ⟨h.2, h.1⟩

theorem inverse_pair_invert (m : GpMatrix) (h : m.det ≠ 0) :
    IsInversePair m (cairo_matrix_invert m).2 :=
  ⟨matrix_mul_inverse m h, matrix_inverse_mul m h⟩

theorem inverse_pair_identity : IsInversePair GpMatrix.identity GpMatrix.identity := by
  constructor <;> simp [cairo_matrix_multiply, GpMatrix.identity]

theorem inverse_pair_multiply (a b m n : GpMatrix) (o : GpMatrixOrder) (h : IsInversePair a b)
    (hmn : IsInversePair m n) :
    IsInversePair (GdipMultiplyMatrix a m o).2
      (GdipMultiplyMatrix b n (gdip_matrix_reverse_order o)).2 := by
  cases o
  · exact inverse_pair_symm _ _
      (inverse_pair_append b a n m (inverse_pair_symm _ _ h) (inverse_pair_symm _ _ hmn))
  · exact inverse_pair_append a b m n h hmn

theorem roundToFloat_exact (n : Int) (h1 : -16777216 < n) (h2 : n < 16777216) :
    roundToFloat n = n := by
  have ha : n.natAbs < 16777216 * 1 := by omega
  unfold roundToFloat
  simp only [ulpSearch, if_pos ha, Nat.div_one, Nat.mod_one, Nat.mul_zero, Nat.mul_one,
    Nat.lt_one_iff, if_true]
  split_ifs <;> omega

theorem roundToFloat_stall : roundToFloat (16777216 + 1) = 16777216 := by decide

theorem roundToFloat_top : roundToFloat 16777216 = 16777216 := by decide

theorem rat_floor_eq (r : ℚ) : r.floor = ⌊r⌋ := rfl

theorem roundHalfEven_intCast (z : Int) : roundHalfEven (z : ℚ) = z := by
  unfold roundHalfEven
  simp [rat_floor_eq]

theorem ulpSearch_pos (k a u : Nat) (hu : 0 < u) : 0 < ulpSearch k a u := by
  induction k generalizing u with
  | zero => exact hu
  | succ k ih =>
    unfold ulpSearch
    split_ifs
    · exact hu
    · exact ih (2 * u) (by omega)

theorem roundHalfEven_div (a u : Nat) (hu : 0 < u) :
    roundHalfEven ((a : ℚ) / (u : ℚ)) =
      ((if 2 * (a % u) < u then a / u else if u < 2 * (a % u) then a / u + 1
        else if (a / u) % 2 = 0 then a / u else a / u + 1 : Nat) : Int) := by
  have huq : (0 : ℚ) < (u : ℚ) := by exact_mod_cast hu
  have hfl : ((a : ℚ) / (u : ℚ)).floor = ((a / u : Nat) : Int) := by
    rw [rat_floor_eq]
    have : ((a : ℚ) / (u : ℚ)) = (((a : Int) : ℚ) / ((u : Nat) : ℚ)) := by push_cast; rfl
    rw [this, Rat.floor_intCast_div_natCast]
    simp
  have hfrac : (a : ℚ) / (u : ℚ) - ((a / u : Nat) : ℚ) = ((a % u : Nat) : ℚ) / (u : ℚ) := by
    have hdm : (a : ℚ) = (u : ℚ) * ((a / u : Nat) : ℚ) + ((a % u : Nat) : ℚ) := by
      exact_mod_cast (Nat.div_add_mod a u).symm
    field_simp
    rw [hdm]
    ring_nf
  unfold roundHalfEven
  rw [hfl]
  have hc : (((a / u : Nat) : Int) : ℚ) = ((a / u : Nat) : ℚ) := by norm_cast
  rw [hc, hfrac]
  by_cases c1 : 2 * (a % u) < u
  · have p1 : ((a % u : Nat) : ℚ) / (u : ℚ) < 1 / 2 := by
      rw [div_lt_iff₀ huq]
      have := (Nat.cast_lt (α := ℚ)).mpr c1
      push_cast at this
      linarith
    simp only [if_pos p1, if_pos c1]
  · by_cases c2 : u < 2 * (a % u)
    · have p2 : 1 / 2 < ((a % u : Nat) : ℚ) / (u : ℚ) := by
        rw [lt_div_iff₀ huq]
        have := (Nat.cast_lt (α := ℚ)).mpr c2
        push_cast at this
        linarith
      have n1 : ¬ ((a % u : Nat) : ℚ) / (u : ℚ) < 1 / 2 := not_lt.mpr (le_of_lt p2)
      simp only [if_neg n1, if_pos p2, if_neg c1, if_pos c2]
      push_cast
      rfl
    · have he : u = 2 * (a % u) := by omega
      have pe : ((a % u : Nat) : ℚ) / (u : ℚ) = 1 / 2 := by
        rw [div_eq_iff (ne_of_gt huq)]
        have := congrArg (Nat.cast : Nat → ℚ) he
        push_cast at this
        linarith
      have n1 : ¬ ((a % u : Nat) : ℚ) / (u : ℚ) < 1 / 2 := by rw [pe]; exact lt_irrefl _
      have n2 : ¬ 1 / 2 < ((a % u : Nat) : ℚ) / (u : ℚ) := by rw [pe]; exact lt_irrefl _
      simp only [if_neg n1, if_neg n2, if_neg c1, if_neg c2]
      by_cases c3 : (a / u) % 2 = 0
      · have p3 : ((a / u : Nat) : Int) % 2 = 0 := by omega
        simp only [if_pos c3, if_pos p3]
      · have n3 : ¬ ((a / u : Nat) : Int) % 2 = 0 := by omega
        simp only [if_neg c3, if_neg n3]
        push_cast
        rfl

theorem floatOf_intCast (n : Int) : floatOf (n : ℚ) = (roundToFloat n : ℚ) := by
  have habs : |(n : ℚ)| = ((n.natAbs : Nat) : ℚ) := by
    rw [Nat.cast_natAbs, Int.cast_abs]
  have hlt : ((n : ℚ) < 0) ↔ (n < 0) := Int.cast_lt_zero
  by_cases hbig : 16777216 ≤ n.natAbs
  · have hq : (16777216 : ℚ) ≤ ((n.natAbs : Nat) : ℚ) := by exact_mod_cast hbig
    have hfl : ((n.natAbs : Nat) : ℚ).floor.toNat = n.natAbs := by
      rw [rat_floor_eq, Int.floor_natCast, Int.toNat_natCast]
    have hu := ulpSearch_pos 104 n.natAbs 1 (by norm_num)
    unfold floatOf roundToFloat
    simp only [habs, if_pos hq, hfl, roundHalfEven_div _ _ hu]
    by_cases hn : n < 0
    · rw [if_pos (hlt.mpr hn), if_pos hn]
      push_cast
      rfl
    · rw [if_neg (fun h => hn (hlt.mp h)), if_neg hn]
      push_cast
      rfl
  · have hq : ¬ (16777216 : ℚ) ≤ ((n.natAbs : Nat) : ℚ) := by
      intro h
      exact hbig (by exact_mod_cast h)
    have hex : roundToFloat n = n := roundToFloat_exact n (by omega) (by omega)
    have hp : (2 : ℚ) ^ fineSearch 149 ((n.natAbs : Nat) : ℚ) 0 ≠ 0 := by positivity
    have hm : ((n.natAbs : Nat) : ℚ) / (1 / 2 ^ fineSearch 149 ((n.natAbs : Nat) : ℚ) 0) =
        (((n.natAbs * 2 ^ fineSearch 149 ((n.natAbs : Nat) : ℚ) 0 : Nat) : Int) : ℚ) := by
      rw [Int.cast_natCast, Nat.cast_mul, Nat.cast_pow, Nat.cast_ofNat]
      field_simp
    have hval : (((n.natAbs * 2 ^ fineSearch 149 ((n.natAbs : Nat) : ℚ) 0 : Nat) : Int) : ℚ) *
        (1 / 2 ^ fineSearch 149 ((n.natAbs : Nat) : ℚ) 0) = |(n : ℚ)| := by
      rw [habs, Int.cast_natCast, Nat.cast_mul, Nat.cast_pow, Nat.cast_ofNat]
      field_simp
    unfold floatOf
    simp only [habs, if_neg hq]
    rw [hm, roundHalfEven_intCast, hval, hex]
    by_cases hn : n < 0
    · rw [if_pos (hlt.mpr hn), abs_of_neg (hlt.mpr hn)]
      ring
    · rw [if_neg (fun h => hn (hlt.mp h)), abs_of_nonneg (by exact_mod_cast (not_lt.mp hn))]

theorem float_to_int_cast (n : Int) : float_to_int (n : ℚ) = n := by
  unfold float_to_int
  split_ifs <;> simp [Rat.floor, Rat.ceil]

theorem iround_cast (n : Int) : iround (n : ℚ) = n := by
  unfold iround
  simp [Rat.floor]

theorem floatImage_translation (a b x y : Int) :
    floatImage ⟨1, 0, 0, 1, a, b⟩ ⟨(x : ℚ), (y : ℚ)⟩ =
      ⟨((roundToFloat (x + a) : Int) : ℚ), ((roundToFloat (y + b) : Int) : ℚ)⟩ := by
  unfold floatImage transformPoint
  simp only [one_mul, zero_mul, add_zero, zero_add]
  rw [← Int.cast_add, ← Int.cast_add, floatOf_intCast, floatOf_intCast]

theorem reproject_int_translation (a b : Int) (r : GpRect) :
    reproject ⟨1, 0, 0, 1, a, b⟩ r = reprojectShift a b r := by
  unfold reproject reprojectShift floatShift
  simp only [floatOf_intCast, floatImage_translation, ← Int.cast_min, ← Int.cast_max,
    ← Int.cast_sub, float_to_int_cast, iround_cast]

theorem storeInt_exact (n : Int) (h1 : -2147483648 ≤ n) (h2 : n ≤ 2147483647) :
    storeInt n = n := by
  unfold storeInt
  rw [if_pos ⟨h1, h2⟩]

theorem wrapInt_exact (n : Int) (h1 : -2147483648 ≤ n) (h2 : n ≤ 2147483647) :
    wrapInt n = n := by
  unfold wrapInt
  omega

theorem reprojectShift_exact (a b : Int) (r : GpRect)
    (hw : 0 ≤ r.Width ∧ r.Width < 16777216) (hh : 0 ≤ r.Height ∧ r.Height < 16777216)
    (hx : -16777216 < r.X ∧ r.X + r.Width < 16777216)
    (hy : -16777216 < r.Y ∧ r.Y + r.Height < 16777216)
    (hxa : -16777216 < r.X + a ∧ r.X + r.Width + a < 16777216)
    (hyb : -16777216 < r.Y + b ∧ r.Y + r.Height + b < 16777216) :
    reprojectShift a b r = ⟨r.X + a, r.Y + b, r.Width, r.Height⟩ := by
  have s : ∀ (x w c : Int), 0 ≤ w → -16777216 < x → x + w < 16777216 → -16777216 < x + c →
      x + w + c < 16777216 →
      floatShift x c = x + c ∧ floatShift (wrapInt (x + w)) c = x + w + c := by
    intro x w c h0 h1 h2 h3 h4
    unfold floatShift
    rw [wrapInt_exact _ (by omega) (by omega), roundToFloat_exact x h1 (by omega),
      roundToFloat_exact (x + w) (by omega) h2, roundToFloat_exact _ h3 (by omega),
      roundToFloat_exact _ (by omega) h4]
    exact ⟨rfl, rfl⟩
  obtain ⟨x0, x1⟩ := s r.X r.Width a hw.1 hx.1 hx.2 hxa.1 hxa.2
  obtain ⟨y0, y1⟩ := s r.Y r.Height b hh.1 hy.1 hy.2 hyb.1 hyb.2
  unfold reprojectShift
  simp only [x0, x1, y0, y1]
  rw [min_eq_left (by omega), min_eq_left (by omega), max_eq_right (by omega),
    max_eq_right (by omega)]
  rw [show r.X + r.Width + a - (r.X + a) = r.Width by ring,
    show r.Y + r.Height + b - (r.Y + b) = r.Height by ring,
    roundToFloat_exact _ (by omega) (by omega), roundToFloat_exact _ (by omega) (by omega),
    storeInt_exact _ (by omega) (by omega), storeInt_exact _ (by omega) (by omega),
    storeInt_exact _ (by omega) (by omega), storeInt_exact _ (by omega) (by omega)]

theorem translate_step (env : Env) (g : GpGraphics) (a b dx dy : Int) (o : GpMatrixOrder)
    (hc : g.clip_matrix = ⟨1, 0, 0, 1, ((-a : Int) : ℚ), ((-b : Int) : ℚ)⟩) :
    (GdipTranslateWorldTransform env g dx dy o).2.clip_matrix =
        ⟨1, 0, 0, 1, ((-(a + dx) : Int) : ℚ), ((-(b + dy) : Int) : ℚ)⟩ ∧
      (GdipTranslateWorldTransform env g dx dy o).2.bounds =
        reprojectShift (-(a + dx)) (-(b + dy)) g.bounds := by
  obtain ⟨-, h2, h3⟩ := translate_world_matrices env g dx dy o
  have hm : (GdipTranslateMatrix g.clip_matrix (-(dx : ℚ)) (-(dy : ℚ))
      (gdip_matrix_reverse_order o)).2 =
      ⟨1, 0, 0, 1, ((-(a + dx) : Int) : ℚ), ((-(b + dy) : Int) : ℚ)⟩ := by
    rw [hc]
    cases o with
    | Prepend =>
      simp only [GdipTranslateMatrix, GdipMultiplyMatrix, gdip_matrix_reverse_order,
        cairo_matrix_multiply, GpMatrix.mk.injEq]
      push_cast
      refine ⟨?_, ?_, ?_, ?_, ?_, ?_⟩ <;> ring
    | Append =>
      simp only [GdipTranslateMatrix, GdipMultiplyMatrix, gdip_matrix_reverse_order,
        cairo_matrix_multiply, GpMatrix.mk.injEq]
      push_cast
      refine ⟨?_, ?_, ?_, ?_, ?_, ?_⟩ <;> ring
  rw [h2, h3, hm, reproject_int_translation]
  exact ⟨rfl, rfl⟩

theorem GdipInvertMatrix_snd (m : GpMatrix) :
    (GdipInvertMatrix m).2 = (cairo_matrix_invert m).2 := by
  unfold GdipInvertMatrix
  split <;> simp_all

theorem reset_step (env : Env) (g : GpGraphics) (a b : Int)
    (hc : g.clip_matrix = ⟨1, 0, 0, 1, ((-a : Int) : ℚ), ((-b : Int) : ℚ)⟩) :
    (GdipResetWorldTransform env g).2.bounds = reprojectShift a b g.bounds := by
  rw [reset_world_snd]
  simp only [GdipInvertMatrix_snd, hc, Int.cast_neg, translation_inverse,
    reproject_int_translation]

theorem identity_as_translation :
    GpMatrix.identity = ⟨1, 0, 0, 1, ((-0 : Int) : ℚ), ((-0 : Int) : ℚ)⟩ := by
  simp [GpMatrix.identity]

theorem farCairo_fields :
    farCairo.clip_matrix = ⟨1, 0, 0, 1, ((-(-1000000000) : Int) : ℚ), ((-0 : Int) : ℚ)⟩ ∧
      farCairo.bounds = ⟨1000000000, 0, 64, 50⟩ := by
  have hc : boundedCairo.clip_matrix =
      ⟨1, 0, 0, 1, ((-0 : Int) : ℚ), ((-0 : Int) : ℚ)⟩ := by
    rw [show boundedCairo.clip_matrix = GpMatrix.identity from rfl, identity_as_translation]
  obtain ⟨s1, s2⟩ := translate_step acceptAll boundedCairo 0 0 (-1000000000) 0
    GpMatrixOrder.Prepend hc
  refine ⟨?_, ?_⟩
  · rw [show farCairo.clip_matrix = (GdipTranslateWorldTransform acceptAll boundedCairo
      ((-1000000000 : Int) : ℚ) ((0 : Int) : ℚ) GpMatrixOrder.Prepend).2.clip_matrix from rfl, s1]
    simp
  · rw [show farCairo.bounds = (GdipTranslateWorldTransform acceptAll boundedCairo
      ((-1000000000 : Int) : ℚ) ((0 : Int) : ℚ) GpMatrixOrder.Prepend).2.bounds from rfl, s2,
      show boundedCairo.bounds = ⟨0, 0, 50, 50⟩ from rfl]
    decide

theorem multiply_world_ok (env : Env) (g : GpGraphics) (m : GpMatrix) (o : GpMatrixOrder)
    (hm : m.det ≠ 0) (hbe : ∀ c x, env.backend c x = GpStatus.Ok)
    (hk : g.backend ≠ GraphicsBackEnd.Unknown) :
    (GdipMultiplyWorldTransform env g (some m) o).1 = GpStatus.Ok := by
  have hi : (GdipIsMatrixInvertible (some m)).2 = true := by
    simp [GdipIsMatrixInvertible, hm]
  have hc : ¬ ((!(GdipIsMatrixInvertible (some m)).2) = true ∨
      (GdipIsMatrixInvertible (some m)).1 ≠ GpStatus.Ok) := by
    simp [GdipIsMatrixInvertible, hm]
  unfold GdipMultiplyWorldTransform
  simp only [if_neg hc, GdipMultiplyMatrix_fst, ne_eq, not_true_eq_false, if_false,
    gdip_cairo_matrix_copy, GdipInvertMatrix_fst m hi, apply_world_to_bounds_snd]
  cases hb : g.backend <;> simp_all [invoke]

theorem set_world_ok_status (env : Env) (g : GpGraphics) (m : GpMatrix)
    (hs : g.state ≠ GraphicsState.Busy) (hid : m ≠ GpMatrix.identity) (hm : m.det ≠ 0)
    (hbe : ∀ c x, env.backend c x = GpStatus.Ok) (hk : g.backend ≠ GraphicsBackEnd.Unknown) :
    (GdipSetWorldTransform env g (some m)).1 = GpStatus.Ok := by
  have hc : ¬ ((!(GdipIsMatrixInvertible (some m)).2) = true ∨
      (GdipIsMatrixInvertible (some m)).1 ≠ GpStatus.Ok) := by
    simp [GdipIsMatrixInvertible, hm]
  have he : gdip_is_matrix_empty m = false := by simp [gdip_is_matrix_empty, hid]
  unfold GdipSetWorldTransform
  simp only [if_neg hs, he, if_neg hc, gdip_cairo_matrix_copy, Bool.false_eq_true, if_false]
  cases hb : g.backend <;> simp_all [invoke]

/-- C25. Inverse in reverse order, except for the multiply: with an
invertible matrix `m` and order `o`, `GdipMultiplyWorldTransform` multiplies
the clip-space transform by the inverse of `m` in the SAME order `o` (line
699), not in the reversed one, while `GdipTranslateWorldTransform` (like the
rotate and the scale) uses the reversed order. On a context whose effective
transform is the scaling by 2, a prepended multiplication by the translation
by (1, 0) leaves the clip-space transform (1/2, 0, 0, 1/2, -1/2, 0); the
reversed order would give (1/2, 0, 0, 1/2, -1, 0), which is the inverse of
the new effective transform (2, 0, 0, 2, 2, 0). -/
theorem multiply_inverse_same_order (env : Env) (g : GpGraphics) (m : GpMatrix)
    (o : GpMatrixOrder) :
    (GdipMultiplyWorldTransform env g (some m) o).2.clip_matrix =
        (if m.det = 0 then g.clip_matrix
          else (GdipMultiplyMatrix g.clip_matrix (cairo_matrix_invert m).2 o).2) ∧
      (GdipMultiplyWorldTransform env g (some m) o).2.copy_of_ctm =
        (if m.det = 0 then g.copy_of_ctm else (GdipMultiplyMatrix g.copy_of_ctm m o).2) ∧
      (∀ dx dy, (GdipTranslateWorldTransform env g dx dy o).2.copy_of_ctm =
          (GdipTranslateMatrix g.copy_of_ctm dx dy o).2 ∧
        (GdipTranslateWorldTransform env g dx dy o).2.clip_matrix =
          (GdipTranslateMatrix g.clip_matrix (-dx) (-dy) (gdip_matrix_reverse_order o)).2) ∧
      scaledCairo.copy_of_ctm = ⟨2, 0, 0, 2, 0, 0⟩ ∧
      scaledCairo.clip_matrix = ⟨1 / 2, 0, 0, 1 / 2, 0, 0⟩ ∧
      multipliedCairo.1 = GpStatus.Ok ∧
      multipliedCairo.2.copy_of_ctm = ⟨2, 0, 0, 2, 2, 0⟩ ∧
      multipliedCairo.2.clip_matrix = ⟨1 / 2, 0, 0, 1 / 2, -1 / 2, 0⟩ ∧
      (GdipMultiplyMatrix scaledCairo.clip_matrix (cairo_matrix_invert ⟨1, 0, 0, 1, 1, 0⟩).2
        (gdip_matrix_reverse_order GpMatrixOrder.Prepend)).2 = ⟨1 / 2, 0, 0, 1 / 2, -1, 0⟩ ∧
      cairo_matrix_multiply multipliedCairo.2.copy_of_ctm ⟨1 / 2, 0, 0, 1 / 2, -1, 0⟩ =
        GpMatrix.identity ∧
      ¬ IsInversePair multipliedCairo.2.copy_of_ctm multipliedCairo.2.clip_matrix := by
  have hs1 : scaledCairo.copy_of_ctm = ⟨2, 0, 0, 2, 0, 0⟩ := by
    have h := (scale_world_matrices acceptAll freshCairo 2 2 GpMatrixOrder.Prepend rfl).2.2.1
    rw [show scaledCairo.copy_of_ctm =
      (GdipScaleWorldTransform acceptAll freshCairo 2 2 GpMatrixOrder.Prepend).2.copy_of_ctm
      from rfl, h]
    have hf : freshCairo.copy_of_ctm = GpMatrix.identity := rfl
    simp [GdipScaleMatrix, GdipMultiplyMatrix, cairo_matrix_multiply, hf, GpMatrix.identity]
  have hs2 : scaledCairo.clip_matrix = ⟨1 / 2, 0, 0, 1 / 2, 0, 0⟩ := by
    have h := (scale_world_matrices acceptAll freshCairo 2 2 GpMatrixOrder.Prepend rfl).2.2.2.1
    rw [show scaledCairo.clip_matrix =
      (GdipScaleWorldTransform acceptAll freshCairo 2 2 GpMatrixOrder.Prepend).2.clip_matrix
      from rfl, h]
    have hf : freshCairo.clip_matrix = GpMatrix.identity := rfl
    simp [GdipScaleMatrix, GdipMultiplyMatrix, cairo_matrix_multiply, hf, GpMatrix.identity,
      gdip_matrix_reverse_order]
  have hd : (⟨1, 0, 0, 1, 1, 0⟩ : GpMatrix).det ≠ 0 := by norm_num [GpMatrix.det]
  have hinv : (cairo_matrix_invert ⟨1, 0, 0, 1, 1, 0⟩).2 = ⟨1, 0, 0, 1, -1, 0⟩ := by
    have := translation_inverse (-1) 0
    simpa using this
  obtain ⟨m1, m2, -⟩ := multiply_world_matrices acceptAll scaledCairo ⟨1, 0, 0, 1, 1, 0⟩
    GpMatrixOrder.Prepend hd
  have hm1 : multipliedCairo.2.copy_of_ctm = ⟨2, 0, 0, 2, 2, 0⟩ := by
    rw [show multipliedCairo.2.copy_of_ctm = (GdipMultiplyWorldTransform acceptAll scaledCairo
      (some ⟨1, 0, 0, 1, 1, 0⟩) GpMatrixOrder.Prepend).2.copy_of_ctm from rfl, m1, hs1]
    norm_num [GdipMultiplyMatrix, cairo_matrix_multiply]
  have hm2 : multipliedCairo.2.clip_matrix = ⟨1 / 2, 0, 0, 1 / 2, -1 / 2, 0⟩ := by
    rw [show multipliedCairo.2.clip_matrix = (GdipMultiplyWorldTransform acceptAll scaledCairo
      (some ⟨1, 0, 0, 1, 1, 0⟩) GpMatrixOrder.Prepend).2.clip_matrix from rfl, m2, hs2, hinv]
    norm_num [GdipMultiplyMatrix, cairo_matrix_multiply]
  refine ⟨?_, ?_, ?_, hs1, hs2, ?_, hm1, hm2, ?_, ?_, ?_⟩
  · by_cases hz : m.det = 0
    · rw [if_pos hz, multiply_world_rejected env g m o hz]
    · rw [if_neg hz]
      exact (multiply_world_matrices env g m o hz).2.1
  · by_cases hz : m.det = 0
    · rw [if_pos hz, multiply_world_rejected env g m o hz]
    · rw [if_neg hz]
      exact (multiply_world_matrices env g m o hz).1
  · intro dx dy
    exact ⟨(translate_world_matrices env g dx dy o).1, (translate_world_matrices env g dx dy o).2.1⟩
  · exact multiply_world_ok acceptAll scaledCairo _ _ hd (fun _ _ => rfl)
      (by rw [show scaledCairo.backend = GraphicsBackEnd.Cairo from rfl]; simp)
  · rw [hs2, hinv]
    norm_num [GdipMultiplyMatrix, cairo_matrix_multiply, gdip_matrix_reverse_order]
  · rw [hm1]
    norm_num [cairo_matrix_multiply, GpMatrix.identity]
  · rw [hm1, hm2]
    intro h
    have h1 := h.1
    norm_num [cairo_matrix_multiply, GpMatrix.identity] at h1

/-- C26. Inverse-pair invariant: when the clip-space transform is the inverse
of the effective transform before the call, it still is after every
successful `GdipSetWorldTransform`, `GdipScaleWorldTransform`,
`GdipTranslateWorldTransform` (either order) and `GdipResetWorldTransform`,
in exact arithmetic; and `GdipSetWorldTransform` with an invertible matrix
`m` other than the identity, when it returns Ok or whenever the context is
not Busy, leaves the effective transform equal to `m` and the clip-space
transform equal to the inverse of `m`. -/
theorem inverse_pair_invariant (env : Env) (g : GpGraphics)
    (h : IsInversePair g.copy_of_ctm g.clip_matrix) :
    (∀ m, (GdipSetWorldTransform env g (some m)).1 = GpStatus.Ok →
      IsInversePair (GdipSetWorldTransform env g (some m)).2.copy_of_ctm
        (GdipSetWorldTransform env g (some m)).2.clip_matrix) ∧
    (∀ sx sy o, (GdipScaleWorldTransform env g sx sy o).1 = GpStatus.Ok →
      IsInversePair (GdipScaleWorldTransform env g sx sy o).2.copy_of_ctm
        (GdipScaleWorldTransform env g sx sy o).2.clip_matrix) ∧
    (∀ dx dy o, (GdipTranslateWorldTransform env g dx dy o).1 = GpStatus.Ok →
      IsInversePair (GdipTranslateWorldTransform env g dx dy o).2.copy_of_ctm
        (GdipTranslateWorldTransform env g dx dy o).2.clip_matrix) ∧
    ((GdipResetWorldTransform env g).1 = GpStatus.Ok →
      IsInversePair (GdipResetWorldTransform env g).2.copy_of_ctm
        (GdipResetWorldTransform env g).2.clip_matrix) ∧
    (∀ m, m ≠ GpMatrix.identity →
      ((GdipSetWorldTransform env g (some m)).1 = GpStatus.Ok ∨
        (g.state ≠ GraphicsState.Busy ∧ m.det ≠ 0)) →
      (GdipSetWorldTransform env g (some m)).2.copy_of_ctm = m ∧
        (GdipSetWorldTransform env g (some m)).2.clip_matrix = (cairo_matrix_invert m).2 ∧
        IsInversePair m (cairo_matrix_invert m).2) := by
  have hreset : IsInversePair (GdipResetWorldTransform env g).2.copy_of_ctm
      (GdipResetWorldTransform env g).2.clip_matrix := by
    rw [reset_world_snd]
    exact inverse_pair_identity
  refine ⟨?_, ?_, ?_, fun _ => hreset, ?_⟩
  · intro m hok
    by_cases hid : m = GpMatrix.identity
    · by_cases hs : g.state = GraphicsState.Busy
      · unfold GdipSetWorldTransform at hok
        simp only [if_pos hs] at hok
        exact absurd hok (by simp)
      · have he : GdipSetWorldTransform env g (some m) = GdipResetWorldTransform env g := by
          unfold GdipSetWorldTransform
          simp only [if_neg hs, hid, gdip_is_matrix_empty, decide_True, if_true]
        rw [he]
        exact hreset
    · obtain ⟨hs, hm⟩ := set_world_ok env g m hok hid
      obtain ⟨e1, e2, -⟩ := set_world_matrices env g m hs hid hm
      rw [e1, e2]
      exact inverse_pair_invert m hm
  · intro sx sy o hok
    obtain ⟨hx, hy, e1, e2, -⟩ := scale_world_matrices env g sx sy o hok
    rw [e1, e2]
    unfold GdipScaleMatrix
    refine inverse_pair_multiply _ _ _ _ o h ?_
    constructor <;> simp [cairo_matrix_multiply, GpMatrix.identity, hx, hy]
  · intro dx dy o _
    obtain ⟨e1, e2, -⟩ := translate_world_matrices env g dx dy o
    rw [e1, e2]
    unfold GdipTranslateMatrix
    refine inverse_pair_multiply _ _ _ _ o h ?_
    constructor <;> simp [cairo_matrix_multiply, GpMatrix.identity]
  · intro m hid hor
    have hsm : g.state ≠ GraphicsState.Busy ∧ m.det ≠ 0 := by
      rcases hor with hok | hsm
      · exact set_world_ok env g m hok hid
      · exact hsm
    obtain ⟨e1, e2, -⟩ := set_world_matrices env g m hsm.1 hid hsm.2
    exact ⟨e1, e2, inverse_pair_invert m hsm.2⟩

theorem inverse_pair_invariant_witness :
    IsInversePair translatedCairo.copy_of_ctm translatedCairo.clip_matrix ∧
      IsInversePair
        (GdipScaleWorldTransform acceptAll translatedCairo 2 3 GpMatrixOrder.Append).2.copy_of_ctm
        (GdipScaleWorldTransform acceptAll translatedCairo 2 3 GpMatrixOrder.Append).2.clip_matrix :=
  have hp : IsInversePair translatedCairo.copy_of_ctm translatedCairo.clip_matrix := by
    rw [translatedCairo_ctm, translatedCairo_clip_matrix]
    constructor <;> norm_num [cairo_matrix_multiply, GpMatrix.identity]
  ⟨hp, (inverse_pair_invariant acceptAll translatedCairo hp).2.1 2 3 GpMatrixOrder.Append rfl⟩

/-- C27. Bounds re-projection on every mutator, except the set:
`GdipSetWorldTransform` with a matrix other than the identity never calls
`apply_world_to_bounds` and leaves the device bounds as they were, while
`GdipTranslateWorldTransform` (like multiply, rotate and scale) re-projects
them through the updated clip-space transform. On a context with device
bounds (0, 0, 50, 50), setting the translation by (10, 10) returns Ok, makes
the clip-space transform the translation by (-10, -10) and keeps the bounds
(0, 0, 50, 50); their re-projection is (-10, -10, 50, 50). -/
theorem set_world_skips_reprojection (env : Env) (g : GpGraphics) :
    (∀ m, m = GpMatrix.identity ∨ (GdipSetWorldTransform env g (some m)).2.bounds = g.bounds) ∧
      (∀ dx dy o, (GdipTranslateWorldTransform env g dx dy o).2.bounds =
        reproject (GdipTranslateWorldTransform env g dx dy o).2.clip_matrix g.bounds) ∧
      setTranslation.1 = GpStatus.Ok ∧
      setTranslation.2.copy_of_ctm = ⟨1, 0, 0, 1, 10, 10⟩ ∧
      setTranslation.2.clip_matrix = ⟨1, 0, 0, 1, -10, -10⟩ ∧
      boundedCairo.bounds = ⟨0, 0, 50, 50⟩ ∧
      setTranslation.2.bounds = ⟨0, 0, 50, 50⟩ ∧
      reproject setTranslation.2.clip_matrix boundedCairo.bounds = ⟨-10, -10, 50, 50⟩ := by
  have hd : (⟨1, 0, 0, 1, 10, 10⟩ : GpMatrix).det ≠ 0 := by norm_num [GpMatrix.det]
  have hid : (⟨1, 0, 0, 1, 10, 10⟩ : GpMatrix) ≠ GpMatrix.identity := by
    simp [GpMatrix.identity]
  have hs : boundedCairo.state ≠ GraphicsState.Busy := by
    rw [show boundedCairo.state = GraphicsState.Valid from rfl]; simp
  have hk : boundedCairo.backend ≠ GraphicsBackEnd.Unknown := by
    rw [show boundedCairo.backend = GraphicsBackEnd.Cairo from rfl]; simp
  obtain ⟨e1, e2, e3⟩ := set_world_matrices acceptAll boundedCairo _ hs hid hd
  have hinv : (cairo_matrix_invert ⟨1, 0, 0, 1, 10, 10⟩).2 = ⟨1, 0, 0, 1, -10, -10⟩ := by
    have := translation_inverse (-10) (-10)
    simpa using this
  have hc : setTranslation.2.clip_matrix = ⟨1, 0, 0, 1, -10, -10⟩ := by
    rw [show setTranslation.2.clip_matrix = (GdipSetWorldTransform acceptAll boundedCairo
      (some ⟨1, 0, 0, 1, 10, 10⟩)).2.clip_matrix from rfl, e2, hinv]
  refine ⟨?_, ?_, ?_, e1, hc, rfl, e3, ?_⟩
  · intro m
    by_cases hid : m = GpMatrix.identity
    · exact Or.inl hid
    · right
      by_cases hs : g.state = GraphicsState.Busy
      · unfold GdipSetWorldTransform
        simp only [if_pos hs]
      · by_cases hm : m.det = 0
        · have he : gdip_is_matrix_empty m = false := by simp [gdip_is_matrix_empty, hid]
          unfold GdipSetWorldTransform
          simp only [if_neg hs, he, Bool.false_eq_true, if_false]
          rw [if_pos (by simp [GdipIsMatrixInvertible, hm])]
        · exact (set_world_matrices env g m hs hid hm).2.2
  · intro dx dy o
    obtain ⟨-, e2, e3⟩ := translate_world_matrices env g dx dy o
    rw [e3, e2]
  · exact set_world_ok_status acceptAll boundedCairo _ hs hid hd (fun _ _ => rfl) hk
  · rw [hc, show boundedCairo.bounds = ⟨0, 0, 50, 50⟩ from rfl]
    have e : reprojectShift (-10) (-10) ⟨0, 0, 50, 50⟩ = ⟨-10, -10, 50, 50⟩ := by decide
    have := reproject_int_translation (-10) (-10) ⟨0, 0, 50, 50⟩
    rw [e] at this
    simpa using this

/-- C28. Reset world transform: on a context whose clip-space transform `C` is
invertible, `GdipResetWorldTransform` sets the device bounds to the
re-projection of the previous bounds through the inverse of `C` (the two
corners as `float` points, the minimum converted to `int`, the difference
rounded), sets the effective and the clip-space transform to the identity,
logs the backend call, and changes no other field (clip region, container
baseline transform, hints, snapshot stack, state flag). -/
theorem reset_world_transform (env : Env) (g : GpGraphics) (h : g.clip_matrix.det ≠ 0) :
    (GdipResetWorldTransform env g).2 =
        { g with
          bounds := reproject (cairo_matrix_invert g.clip_matrix).2 g.bounds
          copy_of_ctm := GpMatrix.identity
          clip_matrix := GpMatrix.identity
          effects := (GdipResetWorldTransform env g).2.effects } ∧
      IsInversePair g.clip_matrix (cairo_matrix_invert g.clip_matrix).2 ∧
      (g.backend = GraphicsBackEnd.Cairo → (GdipResetWorldTransform env g).2.effects =
        g.effects ++ [Effect.call BackendCall.cairo_ResetWorldTransform]) ∧
      (g.backend = GraphicsBackEnd.Metafile → (GdipResetWorldTransform env g).2.effects =
        g.effects ++ [Effect.call BackendCall.metafile_ResetWorldTransform]) := by
  refine ⟨?_, inverse_pair_invert _ h, ?_, ?_⟩
  · have e := reset_world_snd env g
    rw [GdipInvertMatrix_snd] at e
    exact e
  · intro hb
    unfold GdipResetWorldTransform
    simp only [apply_world_to_bounds_snd, hb, invoke]
  · intro hb
    unfold GdipResetWorldTransform
    simp only [apply_world_to_bounds_snd, hb, invoke]

theorem reset_world_transform_witness :
    farBounded.clip_matrix.det ≠ 0 ∧
      (GdipResetWorldTransform acceptAll farBounded).2 =
        { farBounded with
          bounds := reproject (cairo_matrix_invert farBounded.clip_matrix).2 farBounded.bounds
          copy_of_ctm := GpMatrix.identity
          clip_matrix := GpMatrix.identity
          effects := (GdipResetWorldTransform acceptAll farBounded).2.effects } ∧
      farBounded.clip_matrix = ⟨1, 0, 0, 1, 1000000000, 0⟩ ∧
      farBounded.bounds = ⟨1000000000, 0, 50, 50⟩ ∧
      reproject (cairo_matrix_invert farBounded.clip_matrix).2 farBounded.bounds =
        ⟨0, 0, 64, 50⟩ :=
  have hc : farBounded.clip_matrix = ⟨1, 0, 0, 1, 1000000000, 0⟩ := by
    rw [show farBounded.clip_matrix = farCairo.clip_matrix from rfl, farCairo_fields.1]
    simp
  have hd : farBounded.clip_matrix.det ≠ 0 := by
    rw [hc]; norm_num [GpMatrix.det]
  have hb : farBounded.bounds = ⟨1000000000, 0, 50, 50⟩ := rfl
  have hr : reproject (cairo_matrix_invert farBounded.clip_matrix).2 farBounded.bounds =
      ⟨0, 0, 64, 50⟩ := by
    have hi : (cairo_matrix_invert (⟨1, 0, 0, 1, 1000000000, 0⟩ : GpMatrix)).2 =
        ⟨1, 0, 0, 1, ((-1000000000 : Int) : ℚ), ((0 : Int) : ℚ)⟩ := by
      have := translation_inverse (-1000000000) 0
      simpa using this
    rw [hc, hb, hi, reproject_int_translation]
    decide
  ⟨hd, (reset_world_transform acceptAll farBounded hd).1, hc, hb, hr⟩

/-- C29 (as stated, refuted). On a context with device bounds (0, 0, 50, 50)
and identity clip-space transform, two translations by (1, 0) followed by
`GdipResetWorldTransform` leave the bounds (-1, 0, 50, 50); and one
translation by (-1000000000, 0), which makes the bounds
(1000000000, 0, 64, 50) because a `float` cannot hold 1000000050, followed
by the reset leaves the bounds (0, 0, 64, 50). Neither result is the
rectangle before the first translate. -/
theorem translate_then_reset_counterexample :
    boundedCairo.clip_matrix = GpMatrix.identity ∧ boundedCairo.bounds = ⟨0, 0, 50, 50⟩ ∧
      translateTwiceReset.bounds = ⟨-1, 0, 50, 50⟩ ∧
      translateTwiceReset.bounds ≠ boundedCairo.bounds ∧
      farCairo.bounds = ⟨1000000000, 0, 64, 50⟩ ∧
      (GdipResetWorldTransform acceptAll farCairo).2.bounds = ⟨0, 0, 64, 50⟩ ∧
      (GdipResetWorldTransform acceptAll farCairo).2.bounds ≠ boundedCairo.bounds := by
  have hb : boundedCairo.bounds = ⟨0, 0, 50, 50⟩ := rfl
  have hc : boundedCairo.clip_matrix =
      ⟨1, 0, 0, 1, ((-0 : Int) : ℚ), ((-0 : Int) : ℚ)⟩ := by
    rw [show boundedCairo.clip_matrix = GpMatrix.identity from rfl, identity_as_translation]
  obtain ⟨a1, a2⟩ := translate_step acceptAll boundedCairo 0 0 1 0 GpMatrixOrder.Prepend hc
  obtain ⟨b1, b2⟩ := translate_step acceptAll
    (GdipTranslateWorldTransform acceptAll boundedCairo ((1 : Int) : ℚ) ((0 : Int) : ℚ)
      GpMatrixOrder.Prepend).2 (0 + 1) (0 + 0) 1 0 GpMatrixOrder.Prepend a1
  have c1 := reset_step acceptAll
    (GdipTranslateWorldTransform acceptAll
      (GdipTranslateWorldTransform acceptAll boundedCairo ((1 : Int) : ℚ) ((0 : Int) : ℚ)
        GpMatrixOrder.Prepend).2 ((1 : Int) : ℚ) ((0 : Int) : ℚ) GpMatrixOrder.Prepend).2
    (0 + 1 + 1) (0 + 0 + 0) b1
  have e : translateTwiceReset.bounds = ⟨-1, 0, 50, 50⟩ := by
    have hrun : translateTwiceReset.bounds = (GdipResetWorldTransform acceptAll
      (GdipTranslateWorldTransform acceptAll
        (GdipTranslateWorldTransform acceptAll boundedCairo ((1 : Int) : ℚ) ((0 : Int) : ℚ)
          GpMatrixOrder.Prepend).2 ((1 : Int) : ℚ) ((0 : Int) : ℚ)
            GpMatrixOrder.Prepend).2).2.bounds := by
      simp [translateTwiceReset, translations, runMutations, Mutation.run]
    rw [hrun, c1, b2, a2, hb]
    decide
  have f : (GdipResetWorldTransform acceptAll farCairo).2.bounds = ⟨0, 0, 64, 50⟩ := by
    rw [reset_step acceptAll farCairo (-1000000000) 0 farCairo_fields.1, farCairo_fields.2]
    decide
  refine ⟨rfl, hb, e, ?_, farCairo_fields.2, f, ?_⟩
  · rw [e, hb]
    decide
  · rw [f, hb]
    decide

/-- C29 (amended). On a context whose clip-space transform is the identity
and whose device bounds have a non-negative width and height, one
`GdipTranslateWorldTransform` call with integer offsets, in either order,
followed by `GdipResetWorldTransform` leaves the device bounds equal to their
value before the translate, provided that the coordinates of the bounds, the
width, the height and the offsets are at most 4194304 in absolute value
(every corner and every difference is then a `float` value). -/
theorem translate_then_reset_bounds (env : Env) (g : GpGraphics) (dx dy : Int)
    (o : GpMatrixOrder) (hc : g.clip_matrix = GpMatrix.identity)
    (hx : -4194304 ≤ g.bounds.X ∧ g.bounds.X ≤ 4194304)
    (hy : -4194304 ≤ g.bounds.Y ∧ g.bounds.Y ≤ 4194304)
    (hw : 0 ≤ g.bounds.Width ∧ g.bounds.Width ≤ 4194304)
    (hh : 0 ≤ g.bounds.Height ∧ g.bounds.Height ≤ 4194304)
    (hdx : -4194304 ≤ dx ∧ dx ≤ 4194304) (hdy : -4194304 ≤ dy ∧ dy ≤ 4194304) :
    (GdipResetWorldTransform env (GdipTranslateWorldTransform env g dx dy o).2).2.bounds =
      g.bounds := by
  have hc0 : g.clip_matrix = ⟨1, 0, 0, 1, ((-0 : Int) : ℚ), ((-0 : Int) : ℚ)⟩ := by
    rw [hc, identity_as_translation]
  obtain ⟨s1, s2⟩ := translate_step env g 0 0 dx dy o hc0
  have e1 : reprojectShift (-(0 + dx)) (-(0 + dy)) g.bounds =
      ⟨g.bounds.X + -(0 + dx), g.bounds.Y + -(0 + dy), g.bounds.Width, g.bounds.Height⟩ :=
    reprojectShift_exact _ _ g.bounds ⟨hw.1, by omega⟩ ⟨hh.1, by omega⟩
      ⟨by omega, by omega⟩ ⟨by omega, by omega⟩ ⟨by omega, by omega⟩ ⟨by omega, by omega⟩
  rw [reset_step env _ (0 + dx) (0 + dy) s1, s2, e1]
  have e2 := reprojectShift_exact (0 + dx) (0 + dy)
    ⟨g.bounds.X + -(0 + dx), g.bounds.Y + -(0 + dy), g.bounds.Width, g.bounds.Height⟩
    ⟨hw.1, by simp only []; omega⟩ ⟨hh.1, by simp only []; omega⟩
    ⟨by simp only []; omega, by simp only []; omega⟩
    ⟨by simp only []; omega, by simp only []; omega⟩
    ⟨by simp only []; omega, by simp only []; omega⟩
    ⟨by simp only []; omega, by simp only []; omega⟩
  rw [e2]
  cases hg : g.bounds
  simp only [GpRect.mk.injEq]
  refine ⟨?_, ?_, trivial, trivial⟩ <;> ring

theorem translate_then_reset_bounds_witness :
    boundedCairo.clip_matrix = GpMatrix.identity ∧
      boundedCairo.bounds = ⟨0, 0, 50, 50⟩ ∧
      (GdipResetWorldTransform acceptAll
        (GdipTranslateWorldTransform acceptAll boundedCairo ((7 : Int) : ℚ) ((-3 : Int) : ℚ)
          GpMatrixOrder.Append).2).2.bounds = boundedCairo.bounds :=
  have hb : boundedCairo.bounds = ⟨0, 0, 50, 50⟩ := rfl
  ⟨rfl, hb, translate_then_reset_bounds acceptAll boundedCairo 7 (-3) GpMatrixOrder.Append rfl
    (by rw [hb]; decide) (by rw [hb]; decide) (by rw [hb]; decide) (by rw [hb]; decide)
    (by decide) (by decide)⟩

/-- C30. Snapshot-count invariant: in every state reached from a fresh context
by a sequence of operations (save, restore, containers and all the others)
the snapshot count is at most 512, a successful `GdipSaveGraphics` or
`GdipBeginContainer2` returns a token below 512 that equals the count before
the call, and every slot index that an operation uses is below 512. The
array itself need not exist: on the fresh context, where `saved_status` is
null and the count is 0, `GdipRestoreGraphics` (or `GdipEndContainer`) with
the token 0 passes the guard and reads slot 0 of the null array. -/
theorem snapshot_count_invariant (env : Env) (raw : GpGraphics) (ops : List Operation)
    (g0 g : GpGraphics)
    (hnew : g0 = gdip_graphics_new env raw ∨ g0 = gdip_metafile_graphics_new env raw)
    (hrun : runOperations env g0 ops = some g) :
    g.saved_status_pos ≤ MAX_GRAPHICS_STATE_STACK ∧
      (∀ t g1, GdipSaveGraphics g = (GpStatus.Ok, some t, g1) →
        t < MAX_GRAPHICS_STATE_STACK ∧ t = g.saved_status_pos) ∧
      (∀ t g1, GdipBeginContainer2 env g = (GpStatus.Ok, some t, g1) →
        t < MAX_GRAPHICS_STATE_STACK ∧ t = g.saved_status_pos) ∧
      (∀ (op : Operation) (i : Nat), slotAccess g op = some i → i < MAX_GRAPHICS_STATE_STACK) ∧
      (g0.saved_status = none ∧ g0.saved_status_pos = 0 ∧
        slotAccess g0 (Operation.RestoreGraphics 0) = some 0 ∧
        slotAccess g0 (Operation.EndContainer 0) = some 0 ∧
        GdipRestoreGraphics env g0 0 = none ∧
        runOperations env g0 [Operation.RestoreGraphics 0] = none ∧
        runOperations env g0 [Operation.EndContainer 0] = none) := by
  obtain ⟨-, -, n3, n4, n5, n6⟩ := new_view env raw
  have h0 : g0.saved_status = none ∧ g0.saved_status_pos = 0 := by
    rcases hnew with h | h
    · rw [h]; exact ⟨n3, n5⟩
    · rw [h]; exact ⟨n4, n6⟩
  have hi0 : CountWithinArray g0 := ⟨by rw [h0.2]; exact Nat.zero_le _, fun _ => h0.2⟩
  have hi : CountWithinArray g := (runOperations_view env ops g0 g hrun).2 hi0
  have hsp := savedPos_of_count g hi
  have hrest : GdipRestoreGraphics env g0 0 = none := by
    unfold GdipRestoreGraphics
    rw [if_neg (by simp [MAX_GRAPHICS_STATE_STACK])]
    simp only [h0.1]
  refine ⟨hi.1, ?_, ?_, ?_, h0.1, h0.2, ?_, ?_, hrest, ?_, ?_⟩
  · intro t g1 hs
    obtain ⟨e1, e2, -⟩ := save_ok g t g1 hs
    exact ⟨e2, e1.trans hsp⟩
  · intro t g1 hs
    obtain ⟨gs, hs1, -⟩ := begin_ok env g t g1 hs
    obtain ⟨e1, e2, -⟩ := save_ok g t gs hs1
    exact ⟨e2, e1.trans hsp⟩
  · intro op i h
    cases op
    case SaveGraphics =>
      simp only [slotAccess] at h
      split at h
      · simp at h
      · simp only [Option.some.injEq] at h; omega
    case BeginContainer2 =>
      simp only [slotAccess] at h
      split at h
      · simp at h
      · simp only [Option.some.injEq] at h; omega
    case RestoreGraphics t =>
      simp only [slotAccess] at h
      split at h
      · simp at h
      · simp only [Option.some.injEq] at h; omega
    case EndContainer t =>
      simp only [slotAccess] at h
      split at h
      · simp at h
      · simp only [Option.some.injEq] at h; omega
    all_goals simp [slotAccess] at h
  · simp [slotAccess, h0.2, MAX_GRAPHICS_STATE_STACK]
  · simp [slotAccess, h0.2, MAX_GRAPHICS_STATE_STACK]
  · simp [runOperations, Operation.run, hrest]
  · simp [runOperations, Operation.run, GdipEndContainer, hrest]

theorem snapshot_count_invariant_witness :
    (freshCairo = gdip_graphics_new acceptAll rawBlock ∨
        freshCairo = gdip_metafile_graphics_new acceptAll rawBlock) ∧
      runOperations acceptAll freshCairo sampleOperations = some sampleRun ∧
      sampleRun.saved_status_pos ≤ MAX_GRAPHICS_STATE_STACK ∧
      GdipRestoreGraphics acceptAll freshCairo 0 = none :=
  have hr : runOperations acceptAll freshCairo sampleOperations = some sampleRun := rfl
  have h := snapshot_count_invariant acceptAll rawBlock sampleOperations freshCairo sampleRun
    (Or.inl rfl) hr
  ⟨Or.inl rfl, hr, h.1, h.2.2.2.2.2.2.2.2.1⟩

theorem visible_clip_empty_value (env : Env) (g : GpGraphics) (r0 cb : GpRectF)
    (hs : g.state ≠ GraphicsState.Busy) (hf : gdip_is_InfiniteRegion env g.clip = false)
    (hcb : GdipGetClipBounds env g ⟨0, 0, 0, 0⟩ = (GpStatus.Ok, cb)) :
    GdipIsVisibleClipEmpty env g r0 =
      (GpStatus.Ok, some (decide (overlapWidth cb g.bounds = 0 ∨ overlapHeight cb g.bounds = 0))) := by
  unfold GdipIsVisibleClipEmpty GdipGetVisibleClipBounds overlapWidth overlapHeight
  simp only [if_neg hs, hf, hcb, Bool.not_false, if_true, ne_eq, not_true_eq_false, if_false]
  have e1 : ∀ a b : ℚ, (if a > b then a else b) = max a b := by
    intro a b
    split_ifs with h
    · exact (max_eq_left (le_of_lt h)).symm
    · exact (max_eq_right (not_lt.mp h)).symm
  have e2 : ∀ a b : ℚ, (if a < b then a else b) = min a b := by
    intro a b
    split_ifs with h
    · exact (min_eq_left (le_of_lt h)).symm
    · exact (min_eq_right (not_lt.mp h)).symm
  simp only [e1, e2]

/-- C31. Visible-clip emptiness on a clip that lies apart from the device
bounds: with device bounds (0, 0, 50, 50) and the finite clip (100, 100, 10,
10), which have no point in common, `GdipIsVisibleClipEmpty` returns Ok with
FALSE, because `GdipGetVisibleClipBounds` yields the width and height -50 and
the test is `Width == 0 || Height == 0`. When the two rectangles touch or
overlap the flag is as claimed: it is TRUE exactly when the width or the
height of the intersection is 0. -/
theorem visible_clip_empty_misses_disjoint :
    clippedOutside.bounds = ⟨0, 0, 50, 50⟩ ∧
      gdip_is_InfiniteRegion acceptAll clippedOutside.clip = false ∧
      GdipGetClipBounds acceptAll clippedOutside ⟨0, 0, 0, 0⟩ =
        (GpStatus.Ok, ⟨100, 100, 10, 10⟩) ∧
      (∀ px py : ℚ, ¬ ((100 ≤ px ∧ px ≤ 100 + 10 ∧ 100 ≤ py ∧ py ≤ 100 + 10) ∧
        (0 ≤ px ∧ px ≤ 0 + 50 ∧ 0 ≤ py ∧ py ≤ 0 + 50))) ∧
      overlapWidth ⟨100, 100, 10, 10⟩ clippedOutside.bounds = -50 ∧
      overlapHeight ⟨100, 100, 10, 10⟩ clippedOutside.bounds = -50 ∧
      (∀ r0, GdipIsVisibleClipEmpty acceptAll clippedOutside r0 = (GpStatus.Ok, some false)) := by
  have hb : clippedOutside.bounds = ⟨0, 0, 50, 50⟩ := rfl
  have hs : clippedOutside.state = GraphicsState.Valid := rfl
  have hm : clippedOutside.clip_matrix = GpMatrix.identity := rfl
  have hc : clippedOutside.clip = GpRegion.rect ⟨100, 100, 10, 10⟩ := by
    have h := (set_clip_rect_fields acceptAll
      (GdipSetVisibleClip_linux freshCairo ⟨0, 0, 50, 50⟩).2 100 100 10 10 rfl).1
    have hm0 : (GdipSetVisibleClip_linux freshCairo ⟨0, 0, 50, 50⟩).2.clip_matrix =
        GpMatrix.identity := rfl
    rw [if_pos hm0] at h
    exact h
  have hcb : GdipGetClipBounds acceptAll clippedOutside ⟨0, 0, 0, 0⟩ =
      (GpStatus.Ok, ⟨100, 100, 10, 10⟩) := by
    simp [GdipGetClipBounds, hs, hm, hc, gdip_is_matrix_empty, GdipGetRegionBounds,
      regionBounds]
  have hf : gdip_is_InfiniteRegion acceptAll clippedOutside.clip = false := by
    rw [hc]; rfl
  have hw : overlapWidth ⟨100, 100, 10, 10⟩ clippedOutside.bounds = -50 := by
    rw [hb]; norm_num [overlapWidth]
  have hh : overlapHeight ⟨100, 100, 10, 10⟩ clippedOutside.bounds = -50 := by
    rw [hb]; norm_num [overlapHeight]
  refine ⟨hb, hf, hcb, ?_, hw, hh, ?_⟩
  · intro px py h
    linarith [h.1.1, h.2.2.1]
  · intro r0
    rw [visible_clip_empty_value acceptAll clippedOutside r0 _ (by rw [hs]; decide) hf hcb, hw, hh]
    norm_num

theorem point_in_rect_exact (x y : Int) (B : GpRect)
    (hx : -16777216 < B.X + B.Width ∧ B.X + B.Width < 16777216)
    (hy : -16777216 < B.Y + B.Height ∧ B.Y + B.Height < 16777216) :
    gdip_is_Point_in_RectF_inclusive x y B = true ↔
      (B.X ≤ x ∧ x ≤ B.X + B.Width ∧ B.Y ≤ y ∧ y ≤ B.Y + B.Height) := by
  unfold gdip_is_Point_in_RectF_inclusive
  rw [roundToFloat_exact _ hx.1 hx.2, roundToFloat_exact _ hy.1 hy.2]
  simp only [decide_eq_true_eq, ge_iff_le]

theorem visibleRow_spec (B R : GpRect) (posy : Int)
    (hBx : -16777216 < B.X + B.Width ∧ B.X + B.Width < 16777216)
    (hBy : -16777216 < B.Y + B.Height ∧ B.Y + B.Height < 16777216)
    (hX : -4194304 ≤ R.X ∧ R.X ≤ 4194304) (hW : -4194304 ≤ R.Width ∧ R.Width ≤ 4194304)
    (hY : -16777216 < R.Y + posy ∧ R.Y + posy < 16777216) :
    ∀ (fuel : Nat) (posx : Int), 0 ≤ posx → 0 < fuel → R.Width + 1 - posx < fuel →
      ∃ b, visibleRow B R posy fuel posx = some b ∧
        (b = true ↔ ∃ k, posx ≤ k ∧ k ≤ R.Width ∧
          (B.X ≤ R.X + k ∧ R.X + k ≤ B.X + B.Width ∧
            B.Y ≤ R.Y + posy ∧ R.Y + posy ≤ B.Y + B.Height)) := by
  have hW1 : roundToFloat (R.Width + 1) = R.Width + 1 :=
    roundToFloat_exact _ (by omega) (by omega)
  have hY1 : roundToFloat (R.Y + posy) = R.Y + posy := roundToFloat_exact _ hY.1 hY.2
  intro fuel
  induction fuel with
  | zero =>
    intro posx _ hpos _
    exact absurd hpos (lt_irrefl 0)
  | succ f ih =>
    intro posx h0 _ hf
    unfold visibleRow
    rw [hW1, hY1]
    by_cases hlt : posx < R.Width + 1
    · rw [if_pos hlt]
      have hxp : roundToFloat (R.X + posx) = R.X + posx :=
        roundToFloat_exact _ (by omega) (by omega)
      have hp1 : roundToFloat (posx + 1) = posx + 1 :=
        roundToFloat_exact _ (by omega) (by omega)
      rw [hxp, hp1]
      by_cases hp : gdip_is_Point_in_RectF_inclusive (R.X + posx) (R.Y + posy) B = true
      · rw [if_pos hp]
        refine ⟨true, rfl, ?_⟩
        simp only [true_iff]
        exact ⟨posx, le_refl _, by omega, (point_in_rect_exact _ _ B hBx hBy).mp hp⟩
      · rw [if_neg hp]
        have hf1 : R.Width + 1 - (posx + 1) < (f : Int) := by
          have : ((f + 1 : Nat) : Int) = (f : Int) + 1 := by push_cast; ring
          rw [this] at hf
          omega
        obtain ⟨b, hb, hiff⟩ := ih (posx + 1) (by omega) (by omega) hf1
        refine ⟨b, hb, hiff.trans ⟨?_, ?_⟩⟩
        · rintro ⟨k, hk1, hk2, hk3⟩
          exact ⟨k, by omega, hk2, hk3⟩
        · rintro ⟨k, hk1, hk2, hk3⟩
          have hne : k ≠ posx := by
            intro he
            subst he
            exact hp ((point_in_rect_exact _ _ B hBx hBy).mpr hk3)
          exact ⟨k, by omega, hk2, hk3⟩
    · rw [if_neg hlt]
      refine ⟨false, rfl, ?_⟩
      simp only [Bool.false_eq_true, false_iff, not_exists]
      intro k hk
      omega

theorem visibleRows_spec (B R : GpRect) (rowFuel : Nat)
    (hBx : -16777216 < B.X + B.Width ∧ B.X + B.Width < 16777216)
    (hBy : -16777216 < B.Y + B.Height ∧ B.Y + B.Height < 16777216)
    (hX : -4194304 ≤ R.X ∧ R.X ≤ 4194304) (hW : -4194304 ≤ R.Width ∧ R.Width ≤ 4194304)
    (hY : -4194304 ≤ R.Y ∧ R.Y ≤ 4194304) (hH : -4194304 ≤ R.Height ∧ R.Height ≤ 4194304)
    (hrow : 0 < rowFuel ∧ R.Width + 1 < rowFuel) :
    ∀ (fuel : Nat) (posy : Int) (found : Bool), 0 ≤ posy → 0 < fuel →
      R.Height + 1 - posy < fuel →
      ∃ b, visibleRows B R rowFuel fuel posy found = some b ∧
        (b = true ↔ found = true ∨ ∃ j k, posy ≤ j ∧ j ≤ R.Height ∧ 0 ≤ k ∧ k ≤ R.Width ∧
          (B.X ≤ R.X + k ∧ R.X + k ≤ B.X + B.Width ∧
            B.Y ≤ R.Y + j ∧ R.Y + j ≤ B.Y + B.Height)) := by
  have hH1 : roundToFloat (R.Height + 1) = R.Height + 1 :=
    roundToFloat_exact _ (by omega) (by omega)
  intro fuel
  induction fuel with
  | zero =>
    intro posy found _ hpos _
    exact absurd hpos (lt_irrefl 0)
  | succ f ih =>
    intro posy found h0 _ hf
    unfold visibleRows
    rw [hH1]
    by_cases hlt : posy < R.Height + 1
    · rw [if_pos hlt]
      obtain ⟨hit, hrowv, hhit⟩ := visibleRow_spec B R posy hBx hBy hX hW
        (by constructor <;> omega) rowFuel 0 (le_refl 0) hrow.1 (by omega)
      have hp1 : roundToFloat (posy + 1) = posy + 1 :=
        roundToFloat_exact _ (by omega) (by omega)
      simp only [hrowv, hp1]
      have hf1 : R.Height + 1 - (posy + 1) < (f : Int) := by
        have : ((f + 1 : Nat) : Int) = (f : Int) + 1 := by push_cast; ring
        rw [this] at hf
        omega
      obtain ⟨b, hb, hiff⟩ := ih (posy + 1) (found || hit) (by omega) (by omega) hf1
      refine ⟨b, hb, hiff.trans ⟨?_, ?_⟩⟩
      · rintro (hfh | ⟨j, k, hj1, hj2, hk1, hk2, hin⟩)
        · rcases Bool.or_eq_true _ _ ▸ hfh with h | h
          · exact Or.inl h
          · obtain ⟨k, hk1, hk2, hin⟩ := hhit.mp h
            exact Or.inr ⟨posy, k, le_refl _, by omega, hk1, hk2, hin⟩
        · exact Or.inr ⟨j, k, by omega, hj2, hk1, hk2, hin⟩
      · rintro (hfd | ⟨j, k, hj1, hj2, hk1, hk2, hin⟩)
        · exact Or.inl (by simp [hfd])
        · by_cases hj : j = posy
          · subst hj
            exact Or.inl (by simp [hhit.mpr ⟨k, hk1, hk2, hin⟩])
          · exact Or.inr ⟨j, k, by omega, hj2, hk1, hk2, hin⟩
    · rw [if_neg hlt]
      refine ⟨found, rfl, ⟨fun h => Or.inl h, ?_⟩⟩
      rintro (h | ⟨j, k, hj1, hj2, -⟩)
      · exact h
      · omega

theorem visibleRow_stalls (fuel : Nat) :
    ∀ posx : Int, 0 ≤ posx → posx ≤ 16777216 →
      visibleRow ⟨0, 0, 50, 50⟩ ⟨0, 1000, 16777218, 1⟩ 0 fuel posx = none := by
  have hb : roundToFloat (16777218 + 1) = 16777220 := by decide
  have hy : roundToFloat (1000 + 0) = 1000 := by decide
  have h50 : roundToFloat (0 + 50) = 50 := by decide
  induction fuel with
  | zero => intro posx _ _; rfl
  | succ f ih =>
    intro posx h0 h1
    unfold visibleRow
    simp only [hb, hy]
    rw [if_pos (by omega)]
    have hp : gdip_is_Point_in_RectF_inclusive (roundToFloat (0 + posx)) 1000
        ⟨0, 0, 50, 50⟩ = false := by
      unfold gdip_is_Point_in_RectF_inclusive
      simp only [h50, decide_eq_false_iff_not]
      omega
    rw [hp]
    simp only [Bool.false_eq_true, if_false]
    apply ih
    · rcases lt_or_eq_of_le h1 with h | h
      · rcases lt_or_eq_of_le (show posx + 1 ≤ 16777216 by omega) with h' | h'
        · rw [roundToFloat_exact _ (by omega) (by omega)]; omega
        · rw [h', roundToFloat_top]; omega
      · rw [h, roundToFloat_stall]; omega
    · rcases lt_or_eq_of_le h1 with h | h
      · rcases lt_or_eq_of_le (show posx + 1 ≤ 16777216 by omega) with h' | h'
        · rw [roundToFloat_exact _ (by omega) (by omega)]; omega
        · rw [h', roundToFloat_top]
      · rw [h, roundToFloat_stall]

theorem wideRowQuery_runs_on (fuel : Nat) : wideRowQuery fuel = none := by
  have hb : boundedCairo.bounds = ⟨0, 0, 50, 50⟩ := rfl
  have r0 : roundToFloat 0 = 0 := by decide
  have r50 : roundToFloat 50 = 50 := by decide
  have r1000 : roundToFloat 1000 = 1000 := by decide
  have rw1 : roundToFloat 16777218 = 16777218 := by decide
  have r1 : roundToFloat 1 = 1 := by decide
  have r2 : roundToFloat (1 + 1) = 2 := by decide
  unfold wideRowQuery GdipIsVisibleRectI GdipIsVisibleRect
  simp only [hb, r0, r50, r1000, rw1, r1]
  rw [if_neg (by decide)]
  cases fuel with
  | zero => rfl
  | succ f =>
    unfold visibleRows
    simp only [r2]
    rw [if_pos (by decide), visibleRow_stalls (f + 1) 0 (le_refl 0) (by decide)]
    rfl

/-- C32. Rectangle visibility on integers. While the eight integers involved
(the rectangle and the device bounds) are at most 4194304 in absolute value,
so that every `float` operation of the loops is exact, `GdipIsVisibleRectI`
returns Ok as soon as the loops are given more than `width + 1` and
`height + 1` iterations, with the flag TRUE exactly when `width > 0`,
`height > 0` and the closed rectangle shares a point with the closed
device-bounds rectangle; only the device bounds of the context are read. It
does not return for all integers: on a context with device bounds (0, 0,
50, 50) the query (0, 1000, 16777218, 1) never leaves the first inner loop,
because the `float` counter `posx` stops growing at 16777216 (2 ^ 24) while
the bound is 16777220, whatever number of iterations is allowed. -/
theorem visible_rect_integers (fuel : Nat) (g : GpGraphics) (x y width height : Int)
    (hbX : -4194304 ≤ g.bounds.X ∧ g.bounds.X ≤ 4194304)
    (hbY : -4194304 ≤ g.bounds.Y ∧ g.bounds.Y ≤ 4194304)
    (hbW : -4194304 ≤ g.bounds.Width ∧ g.bounds.Width ≤ 4194304)
    (hbH : -4194304 ≤ g.bounds.Height ∧ g.bounds.Height ≤ 4194304)
    (hx : -4194304 ≤ x ∧ x ≤ 4194304) (hy : -4194304 ≤ y ∧ y ≤ 4194304)
    (hw : -4194304 ≤ width ∧ width ≤ 4194304) (hh : -4194304 ≤ height ∧ height ≤ 4194304)
    (hfuel : 0 < fuel ∧ width + 1 < fuel ∧ height + 1 < fuel) :
    (∃ b, GdipIsVisibleRectI fuel g x y width height = some (GpStatus.Ok, b) ∧
      (b = true ↔ (0 < width ∧ 0 < height ∧
        ∃ px py : ℚ, (x ≤ px ∧ px ≤ x + width ∧ y ≤ py ∧ py ≤ y + height) ∧
          (g.bounds.X ≤ px ∧ px ≤ g.bounds.X + g.bounds.Width ∧
            g.bounds.Y ≤ py ∧ py ≤ g.bounds.Y + g.bounds.Height)))) ∧
    (∀ g1 : GpGraphics, g1.bounds = g.bounds →
      GdipIsVisibleRectI fuel g1 x y width height = GdipIsVisibleRectI fuel g x y width height) ∧
    (∀ n, wideRowQuery n = none) := by
  refine ⟨?_, ?_, wideRowQuery_runs_on⟩
  · have ex : roundToFloat x = x := roundToFloat_exact _ (by omega) (by omega)
    have ey : roundToFloat y = y := roundToFloat_exact _ (by omega) (by omega)
    have ew : roundToFloat width = width := roundToFloat_exact _ (by omega) (by omega)
    have eh : roundToFloat height = height := roundToFloat_exact _ (by omega) (by omega)
    have ebx : roundToFloat g.bounds.X = g.bounds.X := roundToFloat_exact _ (by omega) (by omega)
    have eby : roundToFloat g.bounds.Y = g.bounds.Y := roundToFloat_exact _ (by omega) (by omega)
    have ebw : roundToFloat g.bounds.Width = g.bounds.Width :=
      roundToFloat_exact _ (by omega) (by omega)
    have ebh : roundToFloat g.bounds.Height = g.bounds.Height :=
      roundToFloat_exact _ (by omega) (by omega)
    unfold GdipIsVisibleRectI GdipIsVisibleRect
    simp only [ex, ey, ew, eh, ebx, eby, ebw, ebh]
    by_cases hz : width = 0 ∨ height = 0
    · rw [if_pos hz]
      refine ⟨false, rfl, ?_⟩
      simp only [Bool.false_eq_true, false_iff]
      rintro ⟨h1, h2, -⟩
      omega
    · rw [if_neg hz]
      obtain ⟨b, hb, hiff⟩ := visibleRows_spec
        ⟨g.bounds.X, g.bounds.Y, g.bounds.Width, g.bounds.Height⟩ ⟨x, y, width, height⟩ fuel
        (by constructor <;> simp only [] <;> omega) (by constructor <;> simp only [] <;> omega)
        hx hw hy hh ⟨hfuel.1, hfuel.2.1⟩ fuel 0 false (le_refl 0) hfuel.1
        (by simp only []; omega)
      refine ⟨b, by rw [hb]; rfl, hiff.trans ⟨?_, ?_⟩⟩
      · rintro (hf | ⟨j, k, hj1, hj2, hk1, hk2, h1, h2, h3, h4⟩)
        · exact absurd hf (by simp)
        · simp only [] at hj2 hk2 h1 h2 h3 h4
          refine ⟨by omega, by omega, ((x + k : Int) : ℚ), ((y + j : Int) : ℚ), ⟨?_, ?_, ?_, ?_⟩,
            ?_, ?_, ?_, ?_⟩
          · exact_mod_cast (by omega : x ≤ x + k)
          · exact_mod_cast (by omega : x + k ≤ x + width)
          · exact_mod_cast (by omega : y ≤ y + j)
          · exact_mod_cast (by omega : y + j ≤ y + height)
          · exact_mod_cast h1
          · exact_mod_cast h2
          · exact_mod_cast h3
          · exact_mod_cast h4
      · rintro ⟨hw0, hh0, px, py, ⟨a1, a2, a3, a4⟩, b1, b2, b3, b4⟩
        right
        have c1 : x ≤ g.bounds.X + g.bounds.Width := by exact_mod_cast le_trans a1 b2
        have c2 : g.bounds.X ≤ x + width := by exact_mod_cast le_trans b1 a2
        have c3 : g.bounds.X ≤ g.bounds.X + g.bounds.Width := by exact_mod_cast le_trans b1 b2
        have c4 : y ≤ g.bounds.Y + g.bounds.Height := by exact_mod_cast le_trans a3 b4
        have c5 : g.bounds.Y ≤ y + height := by exact_mod_cast le_trans b3 a4
        have c6 : g.bounds.Y ≤ g.bounds.Y + g.bounds.Height := by exact_mod_cast le_trans b3 b4
        refine ⟨max y g.bounds.Y - y, max x g.bounds.X - x, ?_, ?_, ?_, ?_, ?_, ?_, ?_, ?_⟩ <;>
          (try simp only []) <;> omega
  · intro g1 h1
    unfold GdipIsVisibleRectI GdipIsVisibleRect
    rw [h1]

theorem visible_rect_integers_witness :
    ((-4194304 ≤ boundedCairo.bounds.X ∧ boundedCairo.bounds.X ≤ 4194304) ∧
      (-4194304 ≤ boundedCairo.bounds.Y ∧ boundedCairo.bounds.Y ≤ 4194304) ∧
      (-4194304 ≤ boundedCairo.bounds.Width ∧ boundedCairo.bounds.Width ≤ 4194304) ∧
      (-4194304 ≤ boundedCairo.bounds.Height ∧ boundedCairo.bounds.Height ≤ 4194304)) ∧
      (∃ b, GdipIsVisibleRectI 12 boundedCairo 45 45 10 10 = some (GpStatus.Ok, b) ∧
        (b = true ↔ (0 < (10 : Int) ∧ 0 < (10 : Int) ∧
          ∃ px py : ℚ, (((45 : Int) : ℚ) ≤ px ∧ px ≤ ((45 : Int) : ℚ) + ((10 : Int) : ℚ) ∧
              ((45 : Int) : ℚ) ≤ py ∧ py ≤ ((45 : Int) : ℚ) + ((10 : Int) : ℚ)) ∧
            ((boundedCairo.bounds.X : ℚ) ≤ px ∧
              px ≤ (boundedCairo.bounds.X : ℚ) + boundedCairo.bounds.Width ∧
              (boundedCairo.bounds.Y : ℚ) ≤ py ∧
              py ≤ (boundedCairo.bounds.Y : ℚ) + boundedCairo.bounds.Height)))) :=
  have hb : boundedCairo.bounds = ⟨0, 0, 50, 50⟩ := rfl
  have h1 : (-4194304 ≤ boundedCairo.bounds.X ∧ boundedCairo.bounds.X ≤ 4194304) := by
    rw [hb]; decide
  have h2 : (-4194304 ≤ boundedCairo.bounds.Y ∧ boundedCairo.bounds.Y ≤ 4194304) := by
    rw [hb]; decide
  have h3 : (-4194304 ≤ boundedCairo.bounds.Width ∧ boundedCairo.bounds.Width ≤ 4194304) := by
    rw [hb]; decide
  have h4 : (-4194304 ≤ boundedCairo.bounds.Height ∧ boundedCairo.bounds.Height ≤ 4194304) := by
    rw [hb]; decide
  ⟨⟨h1, h2, h3, h4⟩,
    (visible_rect_integers 12 boundedCairo 45 45 10 10 h1 h2 h3 h4 (by decide) (by decide)
      (by decide) (by decide) (by decide)).1⟩

/-- C33. Curve count validation: with a pen and a points array, on a context
of a known backend kind and for every `INT` value of `count` and every
tension, `GdipDrawCurve2` returns InvalidParameter without any backend call
when `count < 2`, and otherwise issues exactly one backend call and returns
its status: the polyline call when `count = 2` or the tension is 0, else the
curve call with offset 0 (and `count - 2` segments for three points,
`count - 1` for more). `GdipDrawCurve` is `GdipDrawCurve2` with the tension
1/2. When the backend never answers InvalidParameter, the status is
InvalidParameter if and only if `count < 2`. -/
theorem curve_count_validation (env : Env) (g : GpGraphics) (pen : Nat) (pts : List GpPointF)
    (count : Int) (tension : ℚ) (hk : g.backend ≠ GraphicsBackEnd.Unknown)
    (hlo : -2147483648 ≤ count) (hhi : count ≤ 2147483647) :
    (count < 2 →
      GdipDrawCurve2 env g (some pen) (some pts) count tension =
        (GpStatus.InvalidParameter, g)) ∧
    (2 ≤ count → (count = 2 ∨ tension = 0) →
      GdipDrawCurve2 env g (some pen) (some pts) count tension =
        invoke env (if g.backend = GraphicsBackEnd.Cairo then
          BackendCall.cairo_DrawLines pen pts count
          else BackendCall.metafile_DrawLines pen pts count) g) ∧
    (2 < count → tension ≠ 0 →
      GdipDrawCurve2 env g (some pen) (some pts) count tension =
        invoke env (if g.backend = GraphicsBackEnd.Cairo then
          BackendCall.cairo_DrawCurve3 pen pts count 0
            (if count > 3 then count - 1 else count - 2) tension
          else BackendCall.metafile_DrawCurve3 pen pts count 0
            (if count > 3 then count - 1 else count - 2) tension) g) ∧
    GdipDrawCurve env g (some pen) (some pts) count =
      GdipDrawCurve2 env g (some pen) (some pts) count (1 / 2) ∧
    ((∀ c x, env.backend c x ≠ GpStatus.InvalidParameter) →
      ((GdipDrawCurve2 env g (some pen) (some pts) count tension).1 =
        GpStatus.InvalidParameter ↔ count < 2)) := by
  have hlines : ∀ n : Int, 2 ≤ n → GdipDrawLines env g (some pen) (some pts) n =
      invoke env (if g.backend = GraphicsBackEnd.Cairo then
        BackendCall.cairo_DrawLines pen pts n
        else BackendCall.metafile_DrawLines pen pts n) g := by
    intro n hn
    unfold GdipDrawLines
    simp only [if_neg (not_lt.mpr hn)]
    cases hb : g.backend <;> simp_all
  have hlines0 : ∀ n : Int, n < 2 → GdipDrawLines env g (some pen) (some pts) n =
      (GpStatus.InvalidParameter, g) := by
    intro n hn
    unfold GdipDrawLines
    simp only [if_pos hn]
  have hcurve : ∀ seg : Int, tension ≠ 0 →
      GdipDrawCurve3 env g (some pen) (some pts) count 0 seg tension =
        if seg < 1 then (GpStatus.InvalidParameter, g)
        else if (0 : Int) = 0 ∧ seg = 1 ∧ count < 3 then (GpStatus.InvalidParameter, g)
        else if seg ≥ wrapInt (count - 0) then (GpStatus.InvalidParameter, g)
        else invoke env (if g.backend = GraphicsBackEnd.Cairo then
          BackendCall.cairo_DrawCurve3 pen pts count 0 seg tension
          else BackendCall.metafile_DrawCurve3 pen pts count 0 seg tension) g := by
    intro seg ht
    simp only [GdipDrawCurve3, if_neg ht]
    cases hb : g.backend <;> simp_all
  have hw : wrapInt (count - 0) = count := by
    unfold wrapInt
    omega
  have h1 : count < 2 →
      GdipDrawCurve2 env g (some pen) (some pts) count tension =
        (GpStatus.InvalidParameter, g) := by
    intro hc
    unfold GdipDrawCurve2
    rw [if_neg (by omega)]
    by_cases ht : tension = 0
    · simp only [GdipDrawCurve3, if_pos ht]
      exact hlines0 count hc
    · simp only [hcurve _ ht, hw, if_neg (show ¬ count > 3 by omega)]
      split_ifs <;> first | rfl | (exfalso; omega)
  have h2 : 2 ≤ count → (count = 2 ∨ tension = 0) →
      GdipDrawCurve2 env g (some pen) (some pts) count tension =
        invoke env (if g.backend = GraphicsBackEnd.Cairo then
          BackendCall.cairo_DrawLines pen pts count
          else BackendCall.metafile_DrawLines pen pts count) g := by
    intro hc hor
    unfold GdipDrawCurve2
    by_cases h2 : count = 2
    · rw [if_pos h2]
      exact hlines count hc
    · have ht : tension = 0 := by
        rcases hor with h | h
        · exact absurd h h2
        · exact h
      simp only [if_neg h2, GdipDrawCurve3, if_pos ht]
      exact hlines count hc
  have h3 : 2 < count → tension ≠ 0 →
      GdipDrawCurve2 env g (some pen) (some pts) count tension =
        invoke env (if g.backend = GraphicsBackEnd.Cairo then
          BackendCall.cairo_DrawCurve3 pen pts count 0
            (if count > 3 then count - 1 else count - 2) tension
          else BackendCall.metafile_DrawCurve3 pen pts count 0
            (if count > 3 then count - 1 else count - 2) tension) g := by
    intro hc ht
    have hseg : (if count > 3 then wrapInt (count - 1) else wrapInt (count - 2)) =
        (if count > 3 then count - 1 else count - 2) := by
      unfold wrapInt
      split_ifs <;> omega
    unfold GdipDrawCurve2
    simp only [if_neg (show ¬ count = 2 by omega), hseg, hcurve _ ht, hw]
    split_ifs <;> first | rfl | (exfalso; omega)
  refine ⟨h1, h2, h3, rfl, ?_⟩
  intro hbe
  constructor
  · intro hs
    by_contra hc
    have hc2 : 2 ≤ count := by omega
    by_cases hor : count = 2 ∨ tension = 0
    · rw [h2 hc2 hor] at hs
      exact hbe _ _ hs
    · have hc3 : 2 < count := by
        rcases lt_or_eq_of_le hc2 with h | h
        · exact h
        · exact absurd (Or.inl h.symm) hor
      rw [h3 hc3 (fun h => hor (Or.inr h))] at hs
      exact hbe _ _ hs
  · intro hc
    rw [h1 hc]

theorem curve_count_validation_witness :
    freshCairo.backend ≠ GraphicsBackEnd.Unknown ∧
      GdipDrawCurve2 acceptAll freshCairo (some 1) (some [⟨0, 0⟩, ⟨1, 1⟩, ⟨2, 0⟩, ⟨3, 1⟩]) 4 (1 / 3) =
        invoke acceptAll (BackendCall.cairo_DrawCurve3 1 [⟨0, 0⟩, ⟨1, 1⟩, ⟨2, 0⟩, ⟨3, 1⟩] 4 0 3 (1 / 3))
          freshCairo :=
  have hk : freshCairo.backend ≠ GraphicsBackEnd.Unknown := by
    rw [show freshCairo.backend = GraphicsBackEnd.Cairo from rfl]; simp
  ⟨hk, (curve_count_validation acceptAll freshCairo 1 [⟨0, 0⟩, ⟨1, 1⟩, ⟨2, 0⟩, ⟨3, 1⟩] 4 (1 / 3) hk
    (by norm_num) (by norm_num)).2.2.1 (by norm_num) (by norm_num)⟩

theorem GdipSetInterpolationMode_ok (env : Env) (g : GpGraphics) (m : Int)
    (h : (GdipSetInterpolationMode env g m).1 = GpStatus.Ok) :
    ¬ (m ≤ InterpolationModeInvalid ∨ m > InterpolationModeHighQualityBicubic) ∧
      g.state ≠ GraphicsState.Busy ∧
      (GdipSetInterpolationMode env g m).2.state = g.state ∧
      (GdipSetInterpolationMode env g m).2.interpolation =
        (if m = InterpolationModeDefault ∨ m = InterpolationModeLowQuality then
          InterpolationModeBilinear
        else if m = InterpolationModeHighQuality then InterpolationModeHighQualityBicubic
        else m) := by
  by_cases h1 : m ≤ InterpolationModeInvalid ∨ m > InterpolationModeHighQualityBicubic
  · unfold GdipSetInterpolationMode at h
    rw [if_pos h1] at h
    exact absurd h (by simp)
  · by_cases h2 : g.state = GraphicsState.Busy
    · unfold GdipSetInterpolationMode at h
      rw [if_neg h1, if_pos h2] at h
      exact absurd h (by simp)
    · refine ⟨h1, h2, ?_, ?_⟩ <;>
        (unfold GdipSetInterpolationMode
         rw [if_neg h1, if_neg h2]
         cases hb : g.backend <;> simp [invoke])

theorem GdipSetInterpolationMode_stored (env : Env) (g : GpGraphics) (m : Int)
    (h1 : ¬ (m ≤ InterpolationModeInvalid ∨ m > InterpolationModeHighQualityBicubic))
    (h2 : g.state ≠ GraphicsState.Busy) :
    (GdipSetInterpolationMode env g m).2.interpolation =
        (if m = InterpolationModeDefault ∨ m = InterpolationModeLowQuality then
          InterpolationModeBilinear
        else if m = InterpolationModeHighQuality then InterpolationModeHighQualityBicubic
        else m) := by
  unfold GdipSetInterpolationMode
  rw [if_neg h1, if_neg h2]
  cases hb : g.backend <;> simp [invoke]

theorem GdipSetSmoothingMode_ok (env : Env) (g : GpGraphics) (m : Int)
    (h : (GdipSetSmoothingMode env g m).1 = GpStatus.Ok) :
    ¬ (m ≤ SmoothingModeInvalid ∨ m > SmoothingModeAntiAlias) ∧
      g.state ≠ GraphicsState.Busy := by
  by_cases h1 : m ≤ SmoothingModeInvalid ∨ m > SmoothingModeAntiAlias
  · unfold GdipSetSmoothingMode at h
    rw [if_pos h1] at h
    exact absurd h (by simp)
  · by_cases h2 : g.state = GraphicsState.Busy
    · unfold GdipSetSmoothingMode at h
      rw [if_neg h1, if_pos h2] at h
      exact absurd h (by simp)
    · exact ⟨h1, h2⟩

/-- C34. Hint normalisation is idempotent. After a successful
`GdipSetSmoothingMode (m)`, `GdipGetSmoothingMode` returns Ok with None for
`m` in {Default, HighSpeed, None} and AntiAlias for `m` in {HighQuality,
AntiAlias}; after a successful `GdipSetInterpolationMode (i)`,
`GdipGetInterpolationMode` returns Ok with Bilinear for `i` in {Default,
LowQuality}, HighQualityBicubic for HighQuality and `i` otherwise. In both
cases a second set with the value read back leaves the stored mode as it
is. -/
theorem hint_normalisation_idempotent (env : Env) (g : GpGraphics) (m i : Int)
    (hm : (GdipSetSmoothingMode env g m).1 = GpStatus.Ok)
    (hi : (GdipSetInterpolationMode env g i).1 = GpStatus.Ok) :
    (∃ r, GdipGetSmoothingMode (GdipSetSmoothingMode env g m).2 = (GpStatus.Ok, some r) ∧
      ((m = SmoothingModeDefault ∨ m = SmoothingModeHighSpeed ∨ m = SmoothingModeNone) →
        r = SmoothingModeNone) ∧
      ((m = SmoothingModeHighQuality ∨ m = SmoothingModeAntiAlias) →
        r = SmoothingModeAntiAlias) ∧
      (r = SmoothingModeNone ∨ r = SmoothingModeAntiAlias) ∧
      (GdipSetSmoothingMode env (GdipSetSmoothingMode env g m).2 r).2.draw_mode =
        (GdipSetSmoothingMode env g m).2.draw_mode) ∧
    (∃ r, GdipGetInterpolationMode (GdipSetInterpolationMode env g i).2 =
        (GpStatus.Ok, some r) ∧
      ((i = InterpolationModeDefault ∨ i = InterpolationModeLowQuality) →
        r = InterpolationModeBilinear) ∧
      (i = InterpolationModeHighQuality → r = InterpolationModeHighQualityBicubic) ∧
      (¬ (i = InterpolationModeDefault ∨ i = InterpolationModeLowQuality ∨
        i = InterpolationModeHighQuality) → r = i) ∧
      (GdipSetInterpolationMode env (GdipSetInterpolationMode env g i).2 r).2.interpolation =
        (GdipSetInterpolationMode env g i).2.interpolation) := by
  constructor
  · obtain ⟨h1, h2⟩ := GdipSetSmoothingMode_ok env g m hm
    have hnb : ¬ ((m ≤ SmoothingModeInvalid ∨ m > SmoothingModeAntiAlias) ∨
        g.state = GraphicsState.Busy) := fun h => h.elim h1 h2
    have hd : (GdipSetSmoothingMode env g m).2.draw_mode = storedSmoothing m := by
      rw [GdipSetSmoothingMode_snd]
      simp only [if_neg hnb]
    have hst : (GdipSetSmoothingMode env g m).2.state = g.state := by
      rw [GdipSetSmoothingMode_snd]
    have hrange := storedSmoothing_range m h1
    refine ⟨storedSmoothing m, ?_, ?_, ?_, hrange, ?_⟩
    · unfold GdipGetSmoothingMode
      rw [hst, if_neg h2, hd]
    · intro hc
      simp only [storedSmoothing, SmoothingModeDefault, SmoothingModeHighSpeed,
        SmoothingModeNone, SmoothingModeHighQuality, SmoothingModeAntiAlias] at hc ⊢
      rcases hc with h | h | h <;> subst h <;> simp
    · intro hc
      simp only [storedSmoothing, SmoothingModeDefault, SmoothingModeHighSpeed,
        SmoothingModeNone, SmoothingModeHighQuality, SmoothingModeAntiAlias] at hc ⊢
      rcases hc with h | h <;> subst h <;> simp
    · rw [GdipSetSmoothingMode_snd env (GdipSetSmoothingMode env g m).2]
      simp only [hst, hd]
      have hv : ¬ ((storedSmoothing m ≤ SmoothingModeInvalid ∨
          storedSmoothing m > SmoothingModeAntiAlias) ∨ g.state = GraphicsState.Busy) := by
        rintro ((h | h) | h)
        · rcases hrange with e | e <;> rw [e] at h <;>
            simp [SmoothingModeNone, SmoothingModeAntiAlias, SmoothingModeInvalid] at h
        · rcases hrange with e | e <;> rw [e] at h <;>
            simp [SmoothingModeNone, SmoothingModeAntiAlias] at h
        · exact h2 h
      rw [if_neg hv]
      rcases hrange with e | e <;> rw [e] <;>
        simp [storedSmoothing, SmoothingModeNone, SmoothingModeAntiAlias, SmoothingModeDefault,
          SmoothingModeHighSpeed, SmoothingModeHighQuality]
  · obtain ⟨h1, h2, hst, hd⟩ := GdipSetInterpolationMode_ok env g i hi
    have hr : ¬ ((GdipSetInterpolationMode env g i).2.interpolation ≤ InterpolationModeInvalid ∨
        (GdipSetInterpolationMode env g i).2.interpolation >
          InterpolationModeHighQualityBicubic) := by
      rw [hd]
      simp only [InterpolationModeInvalid, InterpolationModeHighQualityBicubic,
        InterpolationModeDefault, InterpolationModeLowQuality, InterpolationModeBilinear,
        InterpolationModeHighQuality] at h1 ⊢
      split_ifs <;> omega
    refine ⟨(GdipSetInterpolationMode env g i).2.interpolation, ?_, ?_, ?_, ?_, ?_⟩
    · unfold GdipGetInterpolationMode
      rw [hst, if_neg h2]
    · intro hc
      rw [hd, if_pos hc]
    · intro hc
      rw [hd]
      subst hc
      simp [InterpolationModeHighQuality, InterpolationModeDefault, InterpolationModeLowQuality]
    · intro hc
      rw [hd]
      rw [if_neg (fun h => hc (h.elim Or.inl (fun h => Or.inr (Or.inl h)))),
        if_neg (fun h => hc (Or.inr (Or.inr h)))]
    · rw [GdipSetInterpolationMode_stored env _ _ hr (by rw [hst]; exact h2), hd]
      simp only [InterpolationModeInvalid, InterpolationModeHighQualityBicubic,
        InterpolationModeDefault, InterpolationModeLowQuality, InterpolationModeBilinear,
        InterpolationModeHighQuality] at h1 ⊢
      split_ifs <;> omega

theorem hint_normalisation_idempotent_witness :
    ((GdipSetSmoothingMode acceptAll freshCairo SmoothingModeHighQuality).1 = GpStatus.Ok ∧
        (GdipSetInterpolationMode acceptAll freshCairo InterpolationModeLowQuality).1 =
          GpStatus.Ok) ∧
      ∃ r, GdipGetSmoothingMode
          (GdipSetSmoothingMode acceptAll freshCairo SmoothingModeHighQuality).2 =
            (GpStatus.Ok, some r) ∧
        ((SmoothingModeHighQuality = SmoothingModeHighQuality ∨
          SmoothingModeHighQuality = SmoothingModeAntiAlias) → r = SmoothingModeAntiAlias) :=
  ⟨⟨rfl, rfl⟩,
    (hint_normalisation_idempotent acceptAll freshCairo SmoothingModeHighQuality
      InterpolationModeLowQuality rfl rfl).1.imp fun _ h => ⟨h.1, h.2.2.1⟩⟩

theorem unit_conversion_factor (a b : Int) (dpi : ℚ) (type : GraphicsType) (v : ℚ)
    (ha : recognisedUnit a) (hb : recognisedUnit b) :
    gdip_unit_conversion a b dpi type v =
      v / unitsPerInch a dpi type * unitsPerInch b dpi type := by
  rcases ha with h | h | h | h | h | h | h | h <;>
    rcases hb with h' | h' | h' | h' | h' | h' | h' | h' <;>
    subst h <;> subst h' <;>
    by_cases ht : type = GraphicsType.gtPostScript <;>
    simp [gdip_unit_conversion, unitsPerInch, UnitWorld, UnitDisplay, UnitPixel, UnitPoint,
      UnitInch, UnitDocument, UnitMillimeter, UnitCairoPoint, ht]

theorem unitsPerInch_ne_zero (a : Int) (dpi : ℚ) (type : GraphicsType) (hd : dpi ≠ 0) :
    unitsPerInch a dpi type ≠ 0 := by
  unfold unitsPerInch
  split_ifs <;> first | exact hd | norm_num

/-- C35. Unit conversion composes: for all units `a`, `b`, `c` that
`gdip_unit_conversion` has a `case` for, every dpi other than 0, every device
class and every value `v`, converting from `a` to `b` and then from `b` to
`c` gives the conversion from `a` to `c`, and converting from `a` to `a`
gives `v` (exact arithmetic). -/
theorem unit_conversion_composes (a b c : Int) (dpi : ℚ) (type : GraphicsType) (v : ℚ)
    (ha : recognisedUnit a) (hb : recognisedUnit b) (hc : recognisedUnit c) (hd : dpi ≠ 0) :
    gdip_unit_conversion b c dpi type (gdip_unit_conversion a b dpi type v) =
        gdip_unit_conversion a c dpi type v ∧
      gdip_unit_conversion a a dpi type v = v := by
  have ka := unitsPerInch_ne_zero a dpi type hd
  have kb := unitsPerInch_ne_zero b dpi type hd
  rw [unit_conversion_factor a b dpi type v ha hb, unit_conversion_factor b c dpi type _ hb hc,
    unit_conversion_factor a c dpi type v ha hc, unit_conversion_factor a a dpi type v ha ha]
  constructor
  · field_simp
    ring
  · field_simp

theorem unit_conversion_composes_witness :
    (recognisedUnit UnitCairoPoint ∧ recognisedUnit UnitDisplay ∧ recognisedUnit UnitMillimeter ∧
        (96 : ℚ) ≠ 0) ∧
      gdip_unit_conversion UnitDisplay UnitMillimeter 96 GraphicsType.gtPostScript
          (gdip_unit_conversion UnitCairoPoint UnitDisplay 96 GraphicsType.gtPostScript 36) =
        gdip_unit_conversion UnitCairoPoint UnitMillimeter 96 GraphicsType.gtPostScript 36 :=
  ⟨⟨by decide, by decide, by decide, by norm_num⟩,
    (unit_conversion_composes UnitCairoPoint UnitDisplay UnitMillimeter 96
      GraphicsType.gtPostScript 36 (by decide) (by decide) (by decide) (by norm_num)).1⟩

theorem set_clip_path_effects (env : Env) (g : GpGraphics) (p : GpPath) (mode : CombineMode)
    (hb : g.backend = GraphicsBackEnd.Cairo) :
    (GdipSetClipPath env g (some p) mode).2.effects =
      if g.clip_matrix = GpMatrix.identity then
        g.effects ++ [Effect.call BackendCall.cairo_SetGraphicsClip]
      else
        g.effects ++ [Effect.call BackendCall.cairo_SetGraphicsClip,
          Effect.deletePath PathOwner.caller] := by
  unfold GdipSetClipPath
  by_cases hm : g.clip_matrix = GpMatrix.identity
  · simp [hm, gdip_is_matrix_empty, GdipCombineRegionPath, GdipCombineRegionRegion_fst, hb,
      invoke]
  · simp [hm, gdip_is_matrix_empty, GdipCombineRegionPath, GdipCombineRegionRegion_fst, hb,
      invoke, GdipClonePath]

/-- C36. Set-clip-path and its argument: when the clip-space transform is not
the identity, the cleanup of `GdipSetClipPath` (lines 2077-2078) passes the
path of the caller, not the temporary copy `work`, to `GdipDeletePath`. On a
context whose clip-space transform is the translation by (-3, -4) the call
returns Ok and its last effect is the deletion of the path of the caller;
the copy made by the callee is never released. With the identity as
clip-space transform no path is deleted. -/
theorem set_clip_path_deletes_caller_path (p : GpPath) (mode : CombineMode) :
    translatedCairo.clip_matrix = ⟨1, 0, 0, 1, -3, -4⟩ ∧
      (GdipSetClipPath acceptAll translatedCairo (some p) mode).1 = GpStatus.Ok ∧
      (GdipSetClipPath acceptAll translatedCairo (some p) mode).2.effects =
        translatedCairo.effects ++ [Effect.call BackendCall.cairo_SetGraphicsClip,
          Effect.deletePath PathOwner.caller] ∧
      Effect.deletePath PathOwner.callee ∉
        (GdipSetClipPath acceptAll translatedCairo (some p) mode).2.effects ∧
      (GdipSetClipPath acceptAll freshCairo (some p) mode).2.effects =
        freshCairo.effects ++ [Effect.call BackendCall.cairo_SetGraphicsClip] := by
  have hne : translatedCairo.clip_matrix ≠ GpMatrix.identity := by
    rw [translatedCairo_clip_matrix]
    simp [GpMatrix.identity]
  have he := set_clip_path_effects acceptAll translatedCairo p mode rfl
  rw [if_neg hne] at he
  have hf := set_clip_path_effects acceptAll freshCairo p mode rfl
  rw [if_pos (show freshCairo.clip_matrix = GpMatrix.identity from rfl)] at hf
  refine ⟨translatedCairo_clip_matrix, ?_, he, ?_, hf⟩
  · unfold GdipSetClipPath
    have hb : translatedCairo.backend = GraphicsBackEnd.Cairo := rfl
    simp [hne, gdip_is_matrix_empty, GdipCombineRegionPath, GdipCombineRegionRegion_fst, hb,
      invoke, GdipClonePath, acceptAll]
  · rw [he]
    have h0 : Effect.deletePath PathOwner.callee ∉ translatedCairo.effects := by decide
    simp [h0]

end Gdiplus
